import Mathlib

/-!
# EventBuddy: the map screen's interaction controller

A shallow embedding of `src/screens/MapScreen.js`: the tap handlers
`onMarkerPress`, `onClusterPress`, `showClusterEvents`, the auto-reveal
timer, and the camera helper `centerMapOnEvents`.

Modelling conventions.

* JavaScript numbers that hold coordinates and spans are rationals; the
  arithmetic of the source is read as exact arithmetic, except in
  `centerMapOnEvents64`, where every operation is rounded to binary64 by
  `roundToDouble`.  Times are integer milliseconds, the values of
  `Date.now()`.
* The component is a function that React runs again on every render.  A
  `World` therefore carries the index of the current render, and the
  variable `lastClusterPopupTime`, declared with `let` in the body of the
  component, is one cell per render: a closure created in render `k`
  reads and writes cell `k`.  Tap handlers are those of the current
  render; the callback of a timer is the closure of the render in which
  the timer was armed.
* The map, the alert dialogs and the navigator are external.  What the
  controller asks of them is appended to `World.log`, stamped with the
  time of the request.
* `superCluster.getLeaves` belongs to the clustering library; a tapped
  cluster comes with the list of events the library resolves it to.

The later sections embed the other modules the same way: the loading of
events and the clustering pass of the map screen, the list screen, and
`utils/priceUtils.js`, `services/notificationService.js`,
`utils/dateUtils.js`, `utils/mapsUtils.js`, `context/FavoritesContext.js`
and `screens/RegisterScreen.js`.  What the platform, the backend and the
JavaScript engine answer is a parameter of the model.  Strings are read as
sequences of code points; `length` counts UTF-16 code units.
-/

set_option autoImplicit false

namespace MapScreen

/-! ## Data model -/

/-- An event placed on the map (the fields the controller reads). -/
structure Event where
  id : String
  title : String
  latitude : ℚ
  longitude : ℚ
deriving DecidableEq

/-- A camera region: centre and spans. -/
structure Region where
  latitude : ℚ
  longitude : ℚ
  latitudeDelta : ℚ
  longitudeDelta : ℚ
deriving DecidableEq

/-- A cluster feature as handed to `onClusterPress`: `coordinates` is
`geometry.coordinates`, longitude first; `leaves` is
`superCluster.getLeaves(cluster_id, Infinity).map(e => e.properties.event)`. -/
structure Cluster where
  coordinates : ℚ × ℚ
  cluster_id : Nat
  leaves : List Event
deriving DecidableEq

/-- The value stored by `setLastClusterClick({ clusterId, timestamp })`. -/
structure ClusterClick where
  clusterId : Nat
  timestamp : Int
deriving DecidableEq

/-- What pressing a button of a dialog does. -/
inductive OnPress where
  | dismiss
  | setSelectedEvent (event : Event)
  | navigateEventos (prefilterEvents : List Event) (title : String)
deriving DecidableEq

/-- A button of `Alert.alert`. -/
structure Button where
  text : String
  onPress : OnPress
deriving DecidableEq

/-- A request sent to an external collaborator. -/
inductive Effect where
  | animateToRegion (region : Region) (duration : Nat)
  | alert (title message : String) (buttons : List Button)
deriving DecidableEq

/-- A pending `setTimeout` of `onClusterPress`: its id, the time it is due,
and what its callback closes over, namely the member list and the render
whose `showClusterEvents` it calls. -/
structure Timer where
  id : Nat
  fireAt : Int
  clusterEvents : List Event
  render : Nat
deriving DecidableEq

/-- The state of the screen together with its environment. -/
structure World where
  /-- React state. -/
  filteredEvents : List Event
  selectedEvent : Option Event
  mapRegion : Option Region
  lastClusterClick : Option ClusterClick
  clusterClickTimeout : Option Nat
  /-- Whether `mapRef.current` is attached. -/
  mapRef : Bool
  /-- Whether `Platform.OS === 'android'`. -/
  android : Bool
  /-- The window size of `Dimensions.get('window')`. -/
  width : ℚ
  height : ℚ
  /-- Index of the current render. -/
  render : Nat
  /-- The variable `lastClusterPopupTime` of each render. -/
  lastClusterPopupTime : Nat → Int
  /-- A state setter changed a state value during the running handler. -/
  needsRender : Bool
  /-- The value of `Date.now()`. -/
  now : Int
  /-- The timers that are armed. -/
  timers : List Timer
  /-- How many timer ids have been handed out. -/
  timerCount : Nat
  /-- The requests made so far, oldest first. -/
  log : List (Int × Effect)

/-! ## Constants -/

def LATITUDE_DELTA : ℚ := 922 / 10000

def ASPECT_RATIO (width height : ℚ) : ℚ := width / height

def LONGITUDE_DELTA (width height : ℚ) : ℚ :=
  LATITUDE_DELTA * ASPECT_RATIO width height

/-! ## Zoom level -/

/-- The JavaScript number `Math.round(Math.log(360 / d) / Math.LN2)`. -/
inductive ZoomLevel where
  | nan
  | infinity
  | finite (z : Int)
deriving DecidableEq

/-- `Math.round(Math.log(q) / Math.LN2)` for a positive `q`, in exact
arithmetic.  `Math.round x` is `⌊x + 1/2⌋`, and
`⌊log₂ q + 1/2⌋ = ⌊⌊log₂ (2 q²)⌋ / 2⌋`. -/
def roundLog2 (q : ℚ) : Int := Int.log 2 (2 * q ^ 2) / 2

/-- `Math.round(Math.log(360 / longitudeDelta) / Math.LN2)`: the logarithm
of a negative number is `NaN`, and `360 / 0` is `Infinity`. -/
def zoomLevel (longitudeDelta : ℚ) : ZoomLevel :=
  if longitudeDelta < 0 then .nan
  else if longitudeDelta = 0 then .infinity
  else .finite (roundLog2 (360 / longitudeDelta))

/-- The comparison `zoom >= n` of JavaScript. -/
def ZoomLevel.ge (z : ZoomLevel) (n : Int) : Bool :=
  match z with
  | .nan => false
  | .infinity => true
  | .finite k => decide (n ≤ k)

/-! ## State setters, effects and timers -/

/-- `setSelectedEvent(v)`: React renders again when the value changes. -/
def setSelectedEvent (w : World) (v : Option Event) : World :=
  { w with selectedEvent := v
           needsRender := w.needsRender || decide (w.selectedEvent ≠ v) }

/-- `setLastClusterClick(v)`: an object literal is a new value each time,
`null` over `null` is no change. -/
def setLastClusterClick (w : World) (v : Option ClusterClick) : World :=
  { w with lastClusterClick := v
           needsRender := w.needsRender || (v.isSome || w.lastClusterClick.isSome) }

/-- `setClusterClickTimeout(v)`. -/
def setClusterClickTimeout (w : World) (v : Option Nat) : World :=
  { w with clusterClickTimeout := v
           needsRender := w.needsRender || decide (w.clusterClickTimeout ≠ v) }

/-- `setMapRegion(region)`: the map reports a new region object. -/
def setMapRegion (w : World) (region : Region) : World :=
  { w with mapRegion := some region, needsRender := true }

/-- `setFilteredEvents(filtered)`: `applyFilters` builds a new array. -/
def setFilteredEvents (w : World) (filtered : List Event) : World :=
  { w with filteredEvents := filtered, needsRender := true }

/-- `mapRef.current.animateToRegion(region, duration)`. -/
def animateToRegion (w : World) (region : Region) (duration : Nat) : World :=
  { w with log := w.log ++ [(w.now, Effect.animateToRegion region duration)] }

/-- `Alert.alert(title, message, buttons)`. -/
def alert (w : World) (title message : String) (buttons : List Button) : World :=
  { w with log := w.log ++ [(w.now, Effect.alert title message buttons)] }

/-- `setTimeout(callback, delay)` of `onClusterPress`: the callback closes
over `clusterEvents` and over the current render.  Ids are positive. -/
def setTimeout (w : World) (delay : Int) (clusterEvents : List Event) : World × Nat :=
  let id := w.timerCount + 1
  ({ w with timers := w.timers ++ [⟨id, w.now + delay, clusterEvents, w.render⟩]
            timerCount := id }, id)

/-- `clearTimeout(id)`. -/
def clearTimeout (w : World) (id : Nat) : World :=
  { w with timers := w.timers.filter (fun t => t.id != id) }

/-- A render of the component: the body runs again and
`let lastClusterPopupTime = 0` makes a new variable. -/
def rerender (w : World) : World :=
  { w with render := w.render + 1
           lastClusterPopupTime := Function.update w.lastClusterPopupTime (w.render + 1) 0
           needsRender := false }

/-- After a handler has run, React renders again if a state value changed. -/
def commit (w : World) : World :=
  if w.needsRender then rerender w else w

/-! ## Handlers -/

/-- `onMarkerPress(event)`. -/
def onMarkerPress (w : World) (event : Event) : World :=
  let w := setSelectedEvent w (some event)
  if w.mapRef then
    animateToRegion w
      { latitude := event.latitude
        longitude := event.longitude
        latitudeDelta := LATITUDE_DELTA * (1 / 2)
        longitudeDelta := LONGITUDE_DELTA w.width w.height * (1 / 2) } 1000
  else w

/-- The text of a dialog button:
`title.length > 30 ? title.substring(0, 30) + '...' : title`, for a title
whose characters are one UTF-16 code unit each. -/
def buttonText (title : String) : String :=
  if title.length > 30 then title.take 30 ++ "..." else title

/-- The title used for the dialog that lists the members of a cluster. -/
def membersTitle : String := "📍 Eventos nesta área"

/-- `showClusterEvents(clusterEvents)` as created in render `k`. -/
def showClusterEvents (w : World) (k : Nat) (clusterEvents : List Event) : World :=
  let now := w.now
  if now - w.lastClusterPopupTime k < 500 then w
  else
    let w := { w with lastClusterPopupTime := Function.update w.lastClusterPopupTime k now }
    if clusterEvents.length = 1 then
      setSelectedEvent w clusterEvents.head?
    else
      let eventList : List (String × OnPress) :=
        (clusterEvents.take 5).map (fun event => (event.title, OnPress.setSelectedEvent event))
      let eventList :=
        if clusterEvents.length > 5 then
          eventList ++
            [("Ver todos os " ++ toString clusterEvents.length ++ " eventos",
              OnPress.navigateEventos clusterEvents
                (toString clusterEvents.length ++ " eventos nesta área"))]
        else eventList
      alert w membersTitle
        (if clusterEvents.length = 1 then
          (clusterEvents.head?.map (fun e => e.title)).getD ""
         else toString clusterEvents.length ++ " eventos encontrados")
        (⟨"Fechar", OnPress.dismiss⟩ ::
          eventList.map (fun item => ⟨buttonText item.1, item.2⟩))

/-- The zoom factor of the first tap on a cluster of `eventCount` events. -/
def zoomFactor (eventCount : Nat) : ℚ :=
  if eventCount ≤ 3 then 4 else if eventCount ≤ 10 then 3 else 2

/-- The test `isDoubleClick` of `onClusterPress`. -/
def isDoubleClick (w : World) (clusterId : Nat) : Bool :=
  match w.lastClusterClick with
  | none => false
  | some c => c.clusterId == clusterId && decide (w.now - c.timestamp < 500)

/-- `onClusterPress(cluster)`; `none` when `mapRegion` is `null`, where
reading `mapRegion.longitudeDelta` throws. -/
def onClusterPress (w : World) (cluster : Cluster) : Option World :=
  match w.mapRegion with
  | none => none
  | some mapRegion =>
    let clusterCoordinates := cluster.coordinates
    let clusterId := cluster.cluster_id
    let zoom := zoomLevel mapRegion.longitudeDelta
    let clusterEvents := cluster.leaves
    match clusterEvents with
    | [event] => some (onMarkerPress w event)
    | _ =>
      if isDoubleClick w clusterId || zoom.ge 15 then
        let w :=
          match w.clusterClickTimeout with
          | some t => if t ≠ 0 then setClusterClickTimeout (clearTimeout w t) none else w
          | none => w
        let w := showClusterEvents w w.render clusterEvents
        some (setLastClusterClick w none)
      else
        let w := setLastClusterClick w (some ⟨clusterId, w.now⟩)
        let eventCount := clusterEvents.length
        let w :=
          if w.mapRef then
            animateToRegion w
              { latitude := clusterCoordinates.2
                longitude := clusterCoordinates.1
                latitudeDelta := mapRegion.latitudeDelta / zoomFactor eventCount
                longitudeDelta := mapRegion.longitudeDelta / zoomFactor eventCount } 500
          else w
        let w :=
          if w.android then
            alert w "" "👆 Toque novamente para ver os eventos" [⟨"OK", OnPress.dismiss⟩]
          else w
        let (w, timeout) := setTimeout w 1500 clusterEvents
        some (setClusterClickTimeout w (some timeout))

/-- The callback of the timer `id`, run when the timer is due:
`showClusterEvents(clusterEvents); setLastClusterClick(null)` with the
closure of the render that armed it.  `none` if no such timer is due. -/
def onTimeout (w : World) (id : Nat) : Option World :=
  match w.timers.find? (fun t => t.id == id) with
  | none => none
  | some t =>
    if w.now < t.fireAt then none
    else
      let w := { w with timers := w.timers.filter (fun u => u.id != id) }
      let w := showClusterEvents w t.render t.clusterEvents
      some (setLastClusterClick w none)

/-- `onRegionChangeComplete(region)`. -/
def onRegionChangeComplete (w : World) (region : Region) : World :=
  setMapRegion w region

/-- The running minimum and maximum of `centerMapOnEvents`. -/
structure Bounds where
  minLat : ℚ
  maxLat : ℚ
  minLng : ℚ
  maxLng : ℚ
deriving DecidableEq

/-- The loop `filteredEvents.forEach(...)` of `centerMapOnEvents`. -/
def eventBounds (first : Event) (events : List Event) : Bounds :=
  events.foldl
    (fun b event =>
      { minLat := min b.minLat event.latitude
        maxLat := max b.maxLat event.latitude
        minLng := min b.minLng event.longitude
        maxLng := max b.maxLng event.longitude })
    { minLat := first.latitude, maxLat := first.latitude
      minLng := first.longitude, maxLng := first.longitude }

/-- `centerMapOnEvents()`, its arithmetic read as exact. -/
def centerMapOnEvents (w : World) : World :=
  match w.filteredEvents with
  | [] => w
  | first :: _ =>
    if !w.mapRef then w
    else
      let b := eventBounds first w.filteredEvents
      let paddingFactor : ℚ := 2 / 10
      let latDelta := (b.maxLat - b.minLat) * (1 + paddingFactor)
      let lngDelta := (b.maxLng - b.minLng) * (1 + paddingFactor)
      animateToRegion w
        { latitude := (b.minLat + b.maxLat) / 2
          longitude := (b.minLng + b.maxLng) / 2
          latitudeDelta := max latDelta (2 / 100)
          longitudeDelta := max lngDelta (2 / 100) } 1000

/-! ## The arithmetic of the engine -/

/-- The integer nearest to `m`, the even one when `m` lies halfway between
two integers. -/
def roundHalfEven (m : ℚ) : Int :=
  let f := ⌊m⌋
  if m - f < 1 / 2 then f
  else if 1 / 2 < m - f then f + 1
  else if f % 2 = 0 then f
  else f + 1

/-- The binary64 number nearest to `q`, ties to even: the value that an
arithmetic operation or a numeric literal of JavaScript has when its exact
value is `q`.  A binary64 number is an integer below `2 ^ 53` in magnitude
times a power of two that is at least `2 ^ (-1074)`.  Overflow to `Infinity`,
for exact values of magnitude `2 ^ 1024` or more, is left out. -/
def roundToDouble (q : ℚ) : ℚ :=
  if q = 0 then 0
  else
    let exponent := max (Int.log 2 |q| - 52) (-1074)
    (roundHalfEven (q / 2 ^ exponent) : ℚ) * 2 ^ exponent

/-- `centerMapOnEvents()` with the arithmetic of the engine: the coordinates
of the events are binary64 numbers, and each literal, sum, difference,
product and quotient is rounded to binary64.  `Math.min` and `Math.max`
return one of their arguments. -/
def centerMapOnEvents64 (w : World) : World :=
  match w.filteredEvents with
  | [] => w
  | first :: _ =>
    if !w.mapRef then w
    else
      let b := eventBounds first w.filteredEvents
      let paddingFactor : ℚ := roundToDouble (2 / 10)
      let latDelta :=
        roundToDouble (roundToDouble (b.maxLat - b.minLat) * roundToDouble (1 + paddingFactor))
      let lngDelta :=
        roundToDouble (roundToDouble (b.maxLng - b.minLng) * roundToDouble (1 + paddingFactor))
      animateToRegion w
        { latitude := roundToDouble (roundToDouble (b.minLat + b.maxLat) / 2)
          longitude := roundToDouble (roundToDouble (b.minLng + b.maxLng) / 2)
          latitudeDelta := max latDelta (roundToDouble (2 / 100))
          longitudeDelta := max lngDelta (roundToDouble (2 / 100)) } 1000

/-! ## Runs of the screen -/

/-- What can happen to the screen. -/
inductive Input where
  | clusterPress (cluster : Cluster)
  | markerPress (event : Event)
  | timeout (id : Nat)
  | regionChangeComplete (region : Region)
  | centerPress
  | dialogPress (action : OnPress)
  | closeCard
  | filtersApplied (filtered : List Event)
  | render
deriving DecidableEq

/-- Pressing a dialog button: the list entries call `setSelectedEvent`,
the other buttons leave the state of the screen alone. -/
def onDialogPress (w : World) (action : OnPress) : World :=
  match action with
  | .setSelectedEvent event => setSelectedEvent w (some event)
  | _ => w

/-- The handler that an input runs. -/
def handle (w : World) (i : Input) : Option World :=
  match i with
  | .clusterPress cluster => onClusterPress w cluster
  | .markerPress event => some (onMarkerPress w event)
  | .timeout id => onTimeout w id
  | .regionChangeComplete region => some (onRegionChangeComplete w region)
  | .centerPress => some (centerMapOnEvents w)
  | .dialogPress action => some (onDialogPress w action)
  | .closeCard => some (setSelectedEvent w none)
  | .filtersApplied filtered => some (setFilteredEvents w filtered)
  | .render => some (rerender w)

/-- One input at time `t`: the clock does not run backwards, the handler
runs at `Date.now() = t`, then React commits. -/
def step (w : World) (t : Int) (i : Input) : Option World :=
  if t < w.now then none
  else (handle { w with now := t } i).map commit

/-- A sequence of timed inputs. -/
def run (w : World) : List (Int × Input) → Option World
  | [] => some w
  | (t, i) :: rest => (step w t i).bind (fun w1 => run w1 rest)

/-- The screen once mounted: nothing selected, no pending tap, no timer. -/
def World.initial (android : Bool) (width height : ℚ) (now : Int)
    (filteredEvents : List Event) (mapRegion : Option Region) (mapRef : Bool) : World :=
  { filteredEvents := filteredEvents
    selectedEvent := none
    mapRegion := mapRegion
    lastClusterClick := none
    clusterClickTimeout := none
    mapRef := mapRef
    android := android
    width := width
    height := height
    render := 0
    lastClusterPopupTime := fun _ => 0
    needsRender := false
    now := now
    timers := []
    timerCount := 0
    log := [] }

/-- The dialogs in a log that list the members of a cluster. -/
def isMembersDialog (entry : Int × Effect) : Bool :=
  match entry.2 with
  | .alert title _ _ => title == membersTitle
  | _ => false

/-- The camera requests in a log. -/
def cameraRequests (log : List (Int × Effect)) : List (Region × Nat) :=
  log.filterMap (fun entry =>
    match entry.2 with
    | .animateToRegion region duration => some (region, duration)
    | _ => none)

/-- The events a button selects, if it is a list entry. -/
def selectedBy (b : Button) : Option Event :=
  match b.onPress with
  | .setSelectedEvent event => some event
  | _ => none

/-- Whether a button is the "view all" action. -/
def isViewAll (b : Button) : Bool :=
  match b.onPress with
  | .navigateEventos _ _ => true
  | _ => false

/-- The worlds that the mounted screen can reach. -/
def Reachable (w : World) : Prop :=
  ∃ (android : Bool) (width height : ℚ) (now : Int) (filteredEvents : List Event)
    (mapRegion : Option Region) (mapRef : Bool) (inputs : List (Int × Input)),
    run (World.initial android width height now filteredEvents mapRegion mapRef) inputs = some w

/-- The viewport of `w` is at zoom level 15 or more. -/
def atMaxZoom (w : World) : Prop :=
  ∃ r, w.mapRegion = some r ∧ (zoomLevel r.longitudeDelta).ge 15 = true

/-- Facts that hold of a world between two inputs. -/
structure Inv (w : World) : Prop where
  committed : w.needsRender = false
  fresh : w.lastClusterPopupTime w.render = 0 ∨ (w.lastClusterClick = none ∧ atMaxZoom w)
  timer_render : ∀ t ∈ w.timers, t.render < w.render
  timer_id : ∀ t ∈ w.timers, 1 ≤ t.id ∧ t.id ≤ w.timerCount
  pending : ∀ c, w.lastClusterClick = some c →
    ∃ t ∈ w.timers, w.clusterClickTimeout = some t.id ∧ t.fireAt = c.timestamp + 1500

/-- The same facts for the world a handler leaves behind, before React
commits. -/
structure PreInv (w : World) : Prop where
  fresh : w.needsRender = true ∨ w.lastClusterPopupTime w.render = 0 ∨
    (w.lastClusterClick = none ∧ atMaxZoom w)
  timer_render : ∀ t ∈ w.timers, t.render < w.render ∨ (t.render = w.render ∧ w.needsRender = true)
  timer_id : ∀ t ∈ w.timers, 1 ≤ t.id ∧ t.id ≤ w.timerCount
  pending : ∀ c, w.lastClusterClick = some c →
    ∃ t ∈ w.timers, w.clusterClickTimeout = some t.id ∧ t.fireAt = c.timestamp + 1500

/-- The inputs other than a tap on a cluster and the firing of a timer. -/
def Input.isQuiet (i : Input) : Bool :=
  match i with
  | .clusterPress _ => false
  | .timeout _ => false
  | _ => true

/-- From `v` to `v'` the armed timers are old ones or carry new ids. -/
def TimersGrow (v v' : World) : Prop :=
  v.timerCount ≤ v'.timerCount ∧ ∀ u ∈ v'.timers, u ∈ v.timers ∨ v.timerCount < u.id

/-- From `v` to `v'` no timer was armed, cleared or fired, the pending tap
is the same, the variables of the renders before that of `v` are the same,
and no dialog listing members was shown. -/
def QuietStep (v v' : World) : Prop :=
  v'.timers = v.timers ∧ v'.timerCount = v.timerCount ∧
  v'.lastClusterClick = v.lastClusterClick ∧ v.render ≤ v'.render ∧
  (∀ k, k < v.render → v'.lastClusterPopupTime k = v.lastClusterPopupTime k) ∧
  v'.log.filter isMembersDialog = v.log.filter isMembersDialog

/-- The buttons of the dialog that lists `clusterEvents`, as
`showClusterEvents` builds them. -/
def membersButtons (clusterEvents : List Event) : List Button :=
  ⟨"Fechar", OnPress.dismiss⟩ ::
    ((clusterEvents.take 5).map (fun e => ⟨buttonText e.title, OnPress.setSelectedEvent e⟩) ++
    (if 5 < clusterEvents.length then
      [⟨buttonText ("Ver todos os " ++ toString clusterEvents.length ++ " eventos"),
        OnPress.navigateEventos clusterEvents
          (toString clusterEvents.length ++ " eventos nesta área")⟩]
     else []))

/-- The log entry of the dialog that lists `clusterEvents`, shown at `now`. -/
def membersDialog (now : Int) (clusterEvents : List Event) : Int × Effect :=
  (now, Effect.alert membersTitle (toString clusterEvents.length ++ " eventos encontrados")
    (membersButtons clusterEvents))

/-- The start of the reveal branch of `onClusterPress`: the timer recorded in in `clusterClickTimeout`, when there is one, is cleared. -/
def cancelPending (w : World) : World :=
  match w.clusterClickTimeout with
  | some t => if t ≠ 0 then setClusterClickTimeout (clearTimeout w t) none else w
  | none => w

/-! ## Sample data -/

def sampleA : Event := ⟨"test1", "Festival de Música de Verão", 387589 / 10000, -91507 / 10000⟩

def sampleB : Event := ⟨"test3", "Feira Gastronômica Internacional", 387071 / 10000, -91364 / 10000⟩

def sampleC : Event := ⟨"test2", "Workshop de Programação React Native", 411579 / 10000, -86291 / 10000⟩

/-- A cluster of two events. -/
def clusterAB : Cluster := ⟨(-91435 / 10000, 38733 / 1000), 1, [sampleA, sampleB]⟩

/-- Another cluster, of two events. -/
def clusterBC : Cluster := ⟨(-88 / 10, 399 / 10), 2, [sampleB, sampleC]⟩

/-- A cluster that resolves to one event. -/
def clusterC : Cluster := ⟨(-86291 / 10000, 411579 / 10000), 3, [sampleC]⟩

/-- A viewport at zoom level 12. -/
def regionFar : Region := ⟨387223 / 10000, -91393 / 10000, 1 / 10, 1 / 10⟩

/-- A viewport at zoom level 18. -/
def regionNear : Region := ⟨387223 / 10000, -91393 / 10000, 1 / 1000, 1 / 1000⟩

/-- The mounted screen on iOS, showing `regionFar`. -/
def worldFar : World :=
  World.initial false 400 800 0 [sampleA, sampleB, sampleC] (some regionFar) true

/-- The mounted screen on iOS, showing `regionNear`. -/
def worldNear : World :=
  World.initial false 400 800 0 [sampleA, sampleB, sampleC] (some regionNear) true

/-- Three events whose latitudes span 38.70 to 38.76 and whose longitudes
span -9.45 to -9.13. -/
def lisbonEvents : List Event :=
  [⟨"e1", "Cascais", 3872 / 100, -945 / 100⟩,
   ⟨"e2", "Parque das Nações", 3876 / 100, -913 / 100⟩,
   ⟨"e3", "Belém", 3870 / 100, -920 / 100⟩]

/-- The mounted screen on iOS with `lisbonEvents` as the filtered events. -/
def worldLisbon : World :=
  World.initial false 400 800 0 lisbonEvents (some regionFar) true

/-- The events of `lisbonEvents` as the engine holds them: each coordinate is
the binary64 number of its decimal literal. -/
def lisbonEvents64 : List Event :=
  [⟨"e1", "Cascais", roundToDouble (3872 / 100), roundToDouble (-945 / 100)⟩,
   ⟨"e2", "Parque das Nações", roundToDouble (3876 / 100), roundToDouble (-913 / 100)⟩,
   ⟨"e3", "Belém", roundToDouble (3870 / 100), roundToDouble (-920 / 100)⟩]

/-- The mounted screen on iOS with `lisbonEvents64` as the filtered events. -/
def worldLisbon64 : World :=
  World.initial false 400 800 0 lisbonEvents64 (some regionFar) true

/-- The world after a tap on `clusterAB` at time 1000 in `worldFar`: the
camera zooms in, timer 1 is armed, React has rendered again. -/
def far1 : World :=
  { worldFar with
    now := 1000
    lastClusterClick := some ⟨1, 1000⟩
    clusterClickTimeout := some 1
    timers := [⟨1, 2500, clusterAB.leaves, 0⟩]
    timerCount := 1
    render := 1
    lastClusterPopupTime := Function.update worldFar.lastClusterPopupTime 1 0
    log := [(1000, Effect.animateToRegion
      ⟨clusterAB.coordinates.2, clusterAB.coordinates.1, regionFar.latitudeDelta / 4,
        regionFar.longitudeDelta / 4⟩ 500)] }

/-- The world after a further tap, on `clusterBC` at time 1200: timer 2 is
armed and timer 1 is still armed. -/
def far2 : World :=
  { far1 with
    now := 1200
    lastClusterClick := some ⟨2, 1200⟩
    clusterClickTimeout := some 2
    timers := [⟨1, 2500, clusterAB.leaves, 0⟩, ⟨2, 2700, clusterBC.leaves, 1⟩]
    timerCount := 2
    render := 2
    lastClusterPopupTime := Function.update far1.lastClusterPopupTime 2 0
    log := far1.log ++ [(1200, Effect.animateToRegion
      ⟨clusterBC.coordinates.2, clusterBC.coordinates.1, regionFar.latitudeDelta / 4,
        regionFar.longitudeDelta / 4⟩ 500)] }

/-- The world after timer 1 has fired at time 2500: the members of
`clusterAB` are listed. -/
def far3 : World :=
  { far2 with
    now := 2500
    lastClusterClick := none
    timers := [⟨2, 2700, clusterBC.leaves, 1⟩]
    render := 3
    lastClusterPopupTime :=
      Function.update (Function.update far2.lastClusterPopupTime 0 2500) 3 0
    log := far2.log ++ [membersDialog 2500 clusterAB.leaves] }

/-- The world after timer 2 has fired at time 2700: the members of
`clusterBC` are listed as well. -/
def far4 : World :=
  { far3 with
    now := 2700
    timers := []
    lastClusterPopupTime := Function.update far3.lastClusterPopupTime 1 2700
    log := far3.log ++ [membersDialog 2700 clusterBC.leaves] }

/-- The world after a tap on `clusterAB` at time 1000 in `worldNear`: the
members are listed, no state value has changed, no render has happened. -/
def near1 : World :=
  { worldNear with
    now := 1000
    lastClusterPopupTime := Function.update worldNear.lastClusterPopupTime 0 1000
    log := [membersDialog 1000 clusterAB.leaves] }

/-- The world after a second tap on `clusterAB`, at time 1100. -/
def near2 : World := { near1 with now := 1100 }

end MapScreen

/-! # The event store, as the screens see it -/

namespace eventService

/-- An event document as `getAllEvents` returns it.  A coordinate is absent
(`undefined` or `null`) or a number. -/
structure EventDoc where
  id : String
  title : String
  latitude : Option ℚ
  longitude : Option ℚ
deriving DecidableEq

/-- What `await eventService.getAllEvents()` gives to its caller:
`{ success: true, data }`, `{ success: false, error }`, or an exception in
the `try` block of the caller. -/
inductive Outcome where
  | success (data : List EventDoc)
  | failure (error : String)
  | thrown
deriving DecidableEq

end eventService

namespace MapScreen

open eventService

/-! ## Loading the events -/

/-- JavaScript truthiness of a coordinate: absent values and the number 0
are falsy. -/
def truthy (x : Option ℚ) : Bool :=
  match x with
  | none => false
  | some q => decide (q ≠ 0)

/-- The list `testEvents` of the branch of `loadEvents` that finds no event
with coordinates. -/
def testEventsEmpty : List EventDoc :=
  [⟨"test1", "Festival de Música de Verão", some (387589 / 10000), some (-91507 / 10000)⟩,
   ⟨"test2", "Workshop de Programação React Native", some (411579 / 10000),
     some (-86291 / 10000)⟩,
   ⟨"test3", "Feira Gastronômica Internacional", some (387071 / 10000),
     some (-91364 / 10000)⟩]

/-- The list `testEvents` of the branch of `loadEvents` for a failed result. -/
def testEventsError : List EventDoc :=
  [⟨"test1", "Festival de Música de Verão", some (387589 / 10000), some (-91507 / 10000)⟩,
   ⟨"test2", "Workshop de Programação React Native", some (411579 / 10000),
     some (-86291 / 10000)⟩]

/-- The list `testEvents` of the `catch` block of `loadEvents`. -/
def testEventsCatch : List EventDoc :=
  [⟨"test1", "Festival de Música de Verão", some (387589 / 10000), some (-91507 / 10000)⟩]

/-- `loadEvents()`: the value it passes to `setEvents`, for each outcome of
the fetch. -/
def loadEvents (outcome : Outcome) : List EventDoc :=
  match outcome with
  | .success data =>
    let eventsWithLocation := data.filter (fun event => truthy event.latitude && truthy event.longitude)
    if eventsWithLocation.length = 0 then testEventsEmpty else eventsWithLocation
  | .failure _ => testEventsError
  | .thrown => testEventsCatch

/-- A document with coordinates in Lisbon. -/
def docLisbon : EventDoc := ⟨"e1", "Fado ao vivo", some (387223 / 10000), some (-91393 / 10000)⟩

/-- A document with coordinates on the prime meridian, at Greenwich. -/
def docGreenwich : EventDoc := ⟨"e2", "Observatory night", some (514779 / 10000), some 0⟩

/-- A document without coordinates. -/
def docNowhere : EventDoc := ⟨"e3", "Online meetup", none, none⟩

/-- An event document that has both coordinates. -/
def hasCoordinates (event : EventDoc) : Bool :=
  event.latitude.isSome && event.longitude.isSome

/-! ## The clustering pass -/

/-- A point feature built by `updateClusters`; `coordinates` is longitude
first. -/
structure PointFeature where
  coordinates : ℚ × ℚ
  eventId : String
  event : Event
deriving DecidableEq

/-- A feature returned by `getClusters`: a cluster, or one of the loaded
points. -/
inductive Feature where
  | cluster (coordinates : ℚ × ℚ) (cluster_id : Nat) (point_count : Nat)
  | point (feature : PointFeature)
deriving DecidableEq

/-- The array `[west, south, east, north]` passed to `getClusters`. -/
structure BBox where
  west : ℚ
  south : ℚ
  east : ℚ
  north : ℚ
deriving DecidableEq

/-- The clustering library with the options of the screen (radius 60,
maxZoom 15, minZoom 3, minPoints 2).  The library is not part of the
repository; `getClusters` is what a query answers for the points that were
loaded last. -/
structure SuperCluster where
  getClusters : List PointFeature → BBox → ZoomLevel → List Feature

/-- The state that the clustering pass reads and writes: the React state
`filteredEvents`, `mapRegion`, `clusters`, and the points held by the
`superCluster` instance. -/
structure MapData where
  filteredEvents : List Event
  mapRegion : Option Region
  clusters : List Feature
  loaded : List PointFeature

/-- `updateClusters()`. -/
def updateClusters (lib : SuperCluster) (s : MapData) : MapData :=
  match s.mapRegion with
  | none => { s with clusters := [] }
  | some mapRegion =>
    if s.filteredEvents.length = 0 then { s with clusters := [] }
    else
      let points : List PointFeature := s.filteredEvents.map (fun event =>
        { coordinates := (event.longitude, event.latitude), eventId := event.id, event := event })
      let s := { s with loaded := points }
      let zoom := zoomLevel mapRegion.longitudeDelta
      let bbox : BBox :=
        { west := mapRegion.longitude - mapRegion.longitudeDelta / 2
          south := mapRegion.latitude - mapRegion.latitudeDelta / 2
          east := mapRegion.longitude + mapRegion.longitudeDelta / 2
          north := mapRegion.latitude + mapRegion.latitudeDelta / 2 }
      let clusterData := lib.getClusters s.loaded bbox zoom
      { s with clusters := clusterData }

/-- The effect with dependencies `[filteredEvents, mapRegion]`:
`if (filteredEvents.length > 0 && mapRegion) updateClusters()`. -/
def clustersEffect (lib : SuperCluster) (s : MapData) : MapData :=
  if s.filteredEvents.length > 0 ∧ s.mapRegion.isSome then updateClusters lib s else s

/-- `setFilteredEvents(filtered)` followed by the effect. -/
def filtersChanged (lib : SuperCluster) (s : MapData) (filtered : List Event) : MapData :=
  clustersEffect lib { s with filteredEvents := filtered }

/-- `setMapRegion(region)` followed by the effect. -/
def regionChanged (lib : SuperCluster) (s : MapData) (region : Region) : MapData :=
  clustersEffect lib { s with mapRegion := some region }

/-- What the clustering of the filtered events for the viewport is. -/
def clusteringOf (lib : SuperCluster) (filteredEvents : List Event)
    (mapRegion : Option Region) : List Feature :=
  (updateClusters lib
    { filteredEvents := filteredEvents, mapRegion := mapRegion, clusters := [],
      loaded := [] }).clusters

/-- A stand-in for the library, used to instantiate theorems: it never
merges, and answers with the loaded points that lie in the box. -/
def neverMerge : SuperCluster where
  getClusters := fun points bbox _ =>
    (points.filter (fun p =>
      decide (bbox.west ≤ p.coordinates.1) && decide (p.coordinates.1 ≤ bbox.east) &&
      decide (bbox.south ≤ p.coordinates.2) && decide (p.coordinates.2 ≤ bbox.north))).map
      Feature.point

/-- The screen data once `sampleA` is shown in `regionFar`. -/
def dataFar : MapData :=
  regionChanged neverMerge
    { filteredEvents := [sampleA], mapRegion := none, clusters := [], loaded := [] } regionFar

end MapScreen

/-! # The list screen -/

namespace EventsScreen

open eventService

/-- The state of the list screen that the fetch functions touch, and the
alerts they show. -/
structure Screen where
  events : List EventDoc
  loading : Bool
  alerts : List (String × String)
deriving DecidableEq

/-- `fetchEventsFallback()`. -/
def fetchEventsFallback (s : Screen) (outcome : Outcome) : Screen :=
  match outcome with
  | .success data => { s with events := data }
  | .failure error => { s with alerts := s.alerts ++ [("Erro", error)] }
  | .thrown => { s with alerts := s.alerts ++ [("Erro", "Não foi possível carregar os eventos")] }

/-- `fetchEvents()`: `setLoading(true)`, the same fetch, and
`setLoading(false)` in the `finally` block. -/
def fetchEvents (s : Screen) (outcome : Outcome) : Screen :=
  let s := { s with loading := true }
  let s :=
    match outcome with
    | .success data => { s with events := data }
    | .failure error => { s with alerts := s.alerts ++ [("Erro", error)] }
    | .thrown => { s with alerts := s.alerts ++ [("Erro", "Não foi possível carregar os eventos")] }
  { s with loading := false }

end EventsScreen

/-! # Prices -/

namespace priceUtils

/-- A JavaScript number: `NaN`, an infinity, or a finite value, read as an
exact rational. -/
inductive JSNumber where
  | nan
  | posInf
  | negInf
  | finite (q : ℚ)
deriving DecidableEq

/-- The inputs of the price functions: a number, a string, `null` or
`undefined`. -/
inductive Price where
  | null
  | undefined
  | number (n : JSNumber)
  | string (s : String)
deriving DecidableEq

/-- Whether the characters `s` begin with `pat`. -/
def startsWith : List Char → List Char → Bool
  | _, [] => true
  | [], _ :: _ => false
  | c :: cs, p :: ps => c == p && startsWith cs ps

/-- `String.prototype.includes` on lists of characters. -/
def includes : List Char → List Char → Bool
  | [], pat => pat.isEmpty
  | c :: cs, pat => startsWith (c :: cs) pat || includes cs pat

/-- `String.prototype.replace(pat, rep)` with a string pattern: the first
occurrence only. -/
def replaceFirst (s pat rep : List Char) : List Char :=
  match s with
  | [] => if pat.isEmpty then rep else []
  | c :: cs =>
    if startsWith (c :: cs) pat then rep ++ (c :: cs).drop pat.length
    else c :: replaceFirst cs pat rep

/-- The characters that `parseFloat` skips at the start of its input: white
space and line terminators. -/
def isWhiteSpace (c : Char) : Bool :=
  let n := c.toNat
  (9 ≤ n && n ≤ 13) || n == 32 || n == 160 || n == 5760 || (8192 ≤ n && n ≤ 8202) ||
    n == 8232 || n == 8233 || n == 8239 || n == 8287 || n == 12288 || n == 65279

/-- The number written by a run of decimal digits. -/
def digitsValue (ds : List Char) : Nat :=
  ds.foldl (fun n d => 10 * n + (d.toNat - 48)) 0

/-- The exponent part `e`, sign, digits at the head of `cs`, or 0 when there
is none. -/
def parseExponent (cs : List Char) : Int :=
  match cs with
  | [] => 0
  | c :: rest =>
    if c == 'e' || c == 'E' then
      let negative := rest.head? == some '-'
      let ds := if rest.head? == some '-' || rest.head? == some '+' then rest.drop 1 else rest
      let digits := ds.takeWhile Char.isDigit
      if digits.isEmpty then 0
      else if negative then -(digitsValue digits : Int) else (digitsValue digits : Int)
    else 0

/-- `parseFloat(s)`: leading white space is skipped, the longest prefix that
is a decimal literal is read, and `NaN` results when there is none.  The
value is the exact decimal; rounding to a double is not modelled. -/
def parseFloat (s : String) : JSNumber :=
  let trimmed := s.data.dropWhile isWhiteSpace
  let negative := trimmed.head? == some '-'
  let body :=
    if trimmed.head? == some '-' || trimmed.head? == some '+' then trimmed.drop 1 else trimmed
  if startsWith body "Infinity".data then (if negative then .negInf else .posInf)
  else
    let intDigits := body.takeWhile Char.isDigit
    let afterInt := body.dropWhile Char.isDigit
    let fracDigits := if afterInt.head? == some '.' then (afterInt.drop 1).takeWhile Char.isDigit else []
    let afterFrac := if afterInt.head? == some '.' then (afterInt.drop 1).dropWhile Char.isDigit else afterInt
    if intDigits.isEmpty && fracDigits.isEmpty then .nan
    else
      let mantissa : ℚ := digitsValue intDigits + digitsValue fracDigits / 10 ^ fracDigits.length
      let value : ℚ := mantissa * 10 ^ parseExponent afterFrac
      .finite (if negative then -value else value)

/-- The test `!price || price === 0 || price === '0' || price === ''`. -/
def isEmptyPrice (price : Price) : Bool :=
  match price with
  | .null => true
  | .undefined => true
  | .number n => n == .nan || n == .finite 0
  | .string s => s == "" || s == "0"

/-- The test `typeof price === 'string' &&
price.toLowerCase().includes('gratuito')`.  Lower-casing is that of the
letters A to Z; no other character lower-cases to a letter of the word. -/
def saysGratuito (price : Price) : Bool :=
  match price with
  | .string s => includes (s.data.map Char.toLower) "gratuito".data
  | _ => false

/-- The value `numericPrice`: `typeof price === 'string' ? parseFloat(price)
: price`.  It is computed only for numbers and strings, `null` and
`undefined` having left earlier. -/
def numericPrice (price : Price) : JSNumber :=
  match price with
  | .string s => parseFloat s
  | .number n => n
  | _ => .nan

/-- The test `isNaN(numericPrice) || numericPrice <= 0`. -/
def notPositive (n : JSNumber) : Bool :=
  match n with
  | .nan => true
  | .posInf => false
  | .negInf => true
  | .finite q => decide (q ≤ 0)

/-- `formatPrice(price)`; `toFixed` is `Number.prototype.toFixed` of the
engine. -/
def formatPrice (toFixed : JSNumber → Nat → String) (price : Price) : String :=
  if isEmptyPrice price then "Gratuito"
  else if saysGratuito price then "Gratuito"
  else
    let numericPrice := numericPrice price
    if notPositive numericPrice then "Gratuito"
    else "€" ++ String.mk (replaceFirst (toFixed numericPrice 2).data ".00".data [])

/-- `isFreeEvent(price)`. -/
def isFreeEvent (price : Price) : Bool :=
  if isEmptyPrice price then true
  else if saysGratuito price then true
  else notPositive (numericPrice price)

/-- `getPriceLabel(price)`. -/
def getPriceLabel (price : Price) : String :=
  if isFreeEvent price then "Gratuito" else "Preço"

/-- `getPriceValue(price)`; `none` is `null`. -/
def getPriceValue (toFixed : JSNumber → Nat → String) (price : Price) : Option String :=
  if isFreeEvent price then none else some (formatPrice toFixed price)

/-- The prices of the sample events of `devService.addSampleEvents`, in
their order. -/
def samplePrices : List String :=
  ["Gratuito", "€50", "€120", "Gratuito", "€15", "€8", "€25", "€45"]

/-- A stand-in for `toFixed`, used where its value does not matter. -/
def anyToFixed : JSNumber → Nat → String := fun _ _ => "0.00"

end priceUtils

/-! # Reminders -/

namespace notificationService

/-- The largest time value of a `Date`, in milliseconds from the epoch. -/
def maxTime : Int := 8640000000000000

/-- `new Date(ms)` for a number `ms` (`none` being `NaN`): the time value of
the date, or `none` for an invalid date. -/
def newDate (ms : Option Int) : Option Int :=
  match ms with
  | none => none
  | some t => if -maxTime ≤ t ∧ t ≤ maxTime then some t else none

/-- The fields of an event that `scheduleEventReminder` reads.  `start` is
the time value of `new Date(event.date + 'T' + event.time)`, `none` when the
engine cannot parse the string. -/
structure ReminderEvent where
  id : String
  title : String
  time : String
  start : Option Int
deriving DecidableEq

/-- The argument of `Notifications.scheduleNotificationAsync`: the content,
and the trigger, which is `null` (`none`) or `{ date }` with the time value
of the date. -/
structure Request where
  title : String
  body : String
  data : List (String × String)
  trigger : Option (Option Int)
deriving DecidableEq

/-- A document added to the collection `notifications`. -/
structure Record where
  eventId : String
  notificationId : String
deriving DecidableEq

/-- What surrounds the service: the current time, the answer of the platform
to a scheduling request (`none` when it throws), and whether `addDoc`
succeeds. -/
structure Env where
  now : Int
  platform : Request → Option String
  addDocOk : Bool

/-- The requests sent to the platform and the documents written. -/
structure Effects where
  requests : List Request
  records : List Record
deriving DecidableEq

/-- The value a reminder call returns. -/
inductive Returned where
  | undefined
  | null
  | id (notificationId : String)
deriving DecidableEq

/-- `scheduleLocalNotification(title, body, data, scheduledTime)`;
`scheduledTime` is `none` when the argument is left out, and a `Date` object
is truthy whatever its time value. -/
def scheduleLocalNotification (env : Env) (fx : Effects) (title body : String)
    (data : List (String × String)) (scheduledTime : Option (Option Int)) :
    Effects × Option String :=
  let request : Request :=
    { title := title, body := body, data := data
      trigger := match scheduledTime with
        | some date => some date
        | none => none }
  ({ fx with requests := fx.requests ++ [request] }, env.platform request)

/-- `saveEventNotificationId(eventId, notificationId)`: a failure of
`addDoc` is caught and logged. -/
def saveEventNotificationId (env : Env) (fx : Effects) (eventId notificationId : String) :
    Effects :=
  if env.addDocOk then { fx with records := fx.records ++ [⟨eventId, notificationId⟩] } else fx

/-- `scheduleEventReminder(event, reminderTime)`. -/
def scheduleEventReminder (env : Env) (fx : Effects) (event : ReminderEvent)
    (reminderTime : Int) : Effects × Returned :=
  let eventDate := newDate event.start
  let reminderDate := newDate (eventDate.map (fun t => t - reminderTime * 60 * 1000))
  match reminderDate with
  | none => (fx, .undefined)
  | some reminder =>
    if reminder > env.now then
      let title := "Evento em " ++ toString reminderTime ++ " minutos!"
      let body := event.title ++ " começa às " ++ event.time
      let data := [("eventId", event.id), ("type", "event_reminder"), ("screen", "EventDetails")]
      let (fx, notificationId) :=
        scheduleLocalNotification env fx title body data (some reminderDate)
      match notificationId with
      | some nid =>
        if nid ≠ "" then (saveEventNotificationId env fx event.id nid, .id nid)
        else (fx, .id nid)
      | none => (fx, .null)
    else (fx, .undefined)

/-- A platform that accepts every request. -/
def acceptAll : Request → Option String := fun _ => some "notification-1"

/-- An event that starts at 1 760 000 000 000 ms. -/
def sampleEvent : ReminderEvent :=
  ⟨"test1", "Festival de Música de Verão", "18:00", some 1760000000000⟩

/-- A time one hour before the start of `sampleEvent`. -/
def sampleEnv : Env := ⟨1759996400000, acceptAll, true⟩

end notificationService

/-! # Dates -/

namespace dateUtils

/-- The value held in the variable `date`: a `Date` object with its time
value (`none` for an invalid date), or whatever else a `toDate` method
returned, for which evaluating `isNaN(date.getTime())` throws (`none`) or
gives a boolean. -/
inductive DateValue where
  | date (time : Option Int)
  | foreign (tag : Nat) (isNaNOfGetTime : Option Bool)
deriving DecidableEq

/-- The inputs of the date functions, by the branch they take.
`hasToDate result`: a truthy value whose `toDate` is a function, `result`
being `none` when the call throws.  `accessThrows`: reading `toDate` or the
`instanceof` test throws.  `dateObject`: an instance of `Date`.
`other constructed`: any other value, `constructed` being the time value of
`new Date(dateInput)`, or `none` when the constructor throws. -/
inductive DateInput where
  | hasToDate (result : Option DateValue)
  | accessThrows
  | dateObject (time : Option Int)
  | other (constructed : Option (Option Int))
deriving DecidableEq

/-- The three-way conversion at the head of the `try` block. -/
def convert (dateInput : DateInput) : Except Unit DateValue :=
  match dateInput with
  | .hasToDate (some value) => .ok value
  | .hasToDate none => .error ()
  | .accessThrows => .error ()
  | .dateObject time => .ok (.date time)
  | .other (some time) => .ok (.date time)
  | .other none => .error ()

/-- `isNaN(date.getTime())`. -/
def isNaNGetTime (date : DateValue) : Except Unit Bool :=
  match date with
  | .date time => .ok time.isNone
  | .foreign _ (some b) => .ok b
  | .foreign _ none => .error ()

/-- `isValidDate(dateInput)`: the `try` block, and `false` from the `catch`
block. -/
def isValidDate (dateInput : DateInput) : Except Unit Bool :=
  match (do
    let date ← convert dateInput
    let invalid ← isNaNGetTime date
    pure (!invalid) : Except Unit Bool) with
  | .ok b => .ok b
  | .error _ => .ok false

/-- `toDate(dateInput)`: the `try` block, and `null` from the `catch`
block. -/
def toDate (dateInput : DateInput) : Except Unit (Option DateValue) :=
  match (do
    let date ← convert dateInput
    let invalid ← isNaNGetTime date
    pure (if invalid then none else some date) : Except Unit (Option DateValue)) with
  | .ok r => .ok r
  | .error _ => .ok none

end dateUtils

/-! # External map applications -/

namespace mapsUtils

/-- The values of `Platform.OS`. -/
inductive PlatformOS where
  | ios
  | android
  | web
  | windows
  | macos
deriving DecidableEq

/-- An entry of `MAPS_APPS`.  A URL builder takes the printed latitude and
longitude and the label; `none` is a builder that is `null` or missing. -/
structure MapsApp where
  name : String
  icon : String
  priority : Nat
  ios : Option (String → String → String → String)
  android : Option (String → String → String → String)
  web : Option (String → String → String → String)

/-- The configuration `MAPS_APPS`. -/
def MAPS_APPS : List MapsApp :=
  [{ name := "Google Maps", icon := "🗺️", priority := 1
     ios := some (fun lat lng _ =>
       "comgooglemaps://?daddr=" ++ lat ++ "," ++ lng ++ "&directionsmode=driving")
     android := some (fun lat lng _ => "google.navigation:q=" ++ lat ++ "," ++ lng)
     web := some (fun lat lng _ =>
       "https://www.google.com/maps/dir/?api=1&destination=" ++ lat ++ "," ++ lng ++
         "&travelmode=driving") },
   { name := "Waze", icon := "", priority := 2
     ios := some (fun lat lng _ => "waze://?ll=" ++ lat ++ "," ++ lng ++ "&navigate=yes")
     android := some (fun lat lng _ => "waze://?ll=" ++ lat ++ "," ++ lng ++ "&navigate=yes")
     web := some (fun lat lng _ =>
       "https://waze.com/ul?ll=" ++ lat ++ "," ++ lng ++ "&navigate=yes") },
   { name := "Apple Maps", icon := "", priority := 3
     ios := some (fun lat lng _ =>
       "http://maps.apple.com/?daddr=" ++ lat ++ "," ++ lng ++ "&dirflg=d")
     android := none
     web := none }]

/-- The device: its platform, the answer of `Linking.canOpenURL` (`none`
when the promise rejects), and how a template literal prints a number. -/
structure Device where
  os : PlatformOS
  canOpenURL : String → Option Bool
  print : ℚ → String

/-- An entry of the result: `{ ...app, url }`. -/
structure AvailableApp where
  app : MapsApp
  url : String

/-- The URL that `checkAppAvailability` builds: the builder of the platform,
on iOS and on Android only. -/
def buildUrl (device : Device) (app : MapsApp) (latitude longitude : ℚ) (label : String) :
    Option String :=
  match device.os, app.ios, app.android with
  | .ios, some build, _ => some (build (device.print latitude) (device.print longitude) label)
  | .android, _, some build =>
    some (build (device.print latitude) (device.print longitude) label)
  | _, _, _ => none

/-- `checkAppAvailability(app, latitude, longitude, label)`: the URL when the
system can open it, `null` otherwise, also when `canOpenURL` rejects. -/
def checkAppAvailability (device : Device) (app : MapsApp) (latitude longitude : ℚ)
    (label : String) : Option String :=
  match buildUrl device app latitude longitude label with
  | some url =>
    if url ≠ "" then
      match device.canOpenURL url with
      | some true => some url
      | _ => none
    else none
  | none => none

/-- `getAvailableMapsApps(latitude, longitude, label)`: the loop over
`MAPS_APPS`, then the sort by priority. -/
def getAvailableMapsApps (device : Device) (latitude longitude : ℚ) (label : String) :
    List AvailableApp :=
  let availableApps := MAPS_APPS.filterMap (fun app =>
    match checkAppAvailability device app latitude longitude label with
    | some url => if url ≠ "" then some { app := app, url := url } else none
    | none => none)
  availableApps.insertionSort (fun a b => a.app.priority ≤ b.app.priority)

/-- A device used to instantiate theorems: an Android phone on which only
Waze links open. -/
def androidWithWaze : Device :=
  { os := .android
    canOpenURL := fun url => some (priceUtils.startsWith url.data "waze".data)
    print := fun _ => "0" }

end mapsUtils

/-! # Nearby events -/

namespace notificationService

open eventService

/-- The argument `userLocation`. -/
structure UserLocation where
  latitude : ℚ
  longitude : ℚ
deriving DecidableEq

/-- The filter of `notifyNearbyEvents`: an event is kept when both
coordinates are truthy and its distance is at most 5.  `calculateDistance`
stands for the method of that name, whose sines, cosines and square roots are
those of the engine; `none` is `NaN`. -/
def isNearby (calculateDistance : ℚ → ℚ → ℚ → ℚ → Option ℚ) (userLocation : UserLocation)
    (event : EventDoc) : Bool :=
  if !MapScreen.truthy event.latitude || !MapScreen.truthy event.longitude then false
  else
    match event.latitude, event.longitude with
    | some lat, some lng =>
      match calculateDistance userLocation.latitude userLocation.longitude lat lng with
      | some distance => decide (distance ≤ 5)
      | none => false
    | _, _ => false

/-- `notifyNearbyEvents(userLocation, events)`. -/
def notifyNearbyEvents (calculateDistance : ℚ → ℚ → ℚ → ℚ → Option ℚ) (env : Env)
    (fx : Effects) (userLocation : UserLocation) (events : List EventDoc) : Effects :=
  let nearbyEvents := events.filter (isNearby calculateDistance userLocation)
  if nearbyEvents.length > 0 then
    let title := toString nearbyEvents.length ++ " eventos próximos encontrados!"
    let body := "Descubra eventos interessantes na sua região"
    let data := [("type", "nearby_events"), ("screen", "EventsList")]
    (scheduleLocalNotification env fx title body data none).1
  else fx

/-- A stand-in for `calculateDistance`, used to instantiate theorems: every
two points are 1 km apart. -/
def oneKilometre : ℚ → ℚ → ℚ → ℚ → Option ℚ := fun _ _ _ _ => some 1

/-- A user standing next to the Greenwich observatory. -/
def userGreenwich : UserLocation := ⟨514779 / 10000, 1 / 1000⟩

/-- A user in Lisbon. -/
def userLisbon : UserLocation := ⟨387223 / 10000, -91393 / 10000⟩

end notificationService

/-! # Favourites -/

namespace FavoritesContext

/-- An event as the favourites list holds it. -/
structure FavEvent where
  id : String
  title : String
deriving DecidableEq

/-- What the call to `eventService` gives: `{ success: true }`,
`{ success: false, error }` with an error that may be missing, or an
exception. -/
inductive Backend where
  | success
  | failure (error : Option String)
  | thrown
deriving DecidableEq

/-- The state of the provider: the user (their `uid`), the set `favorites`
in insertion order, the list `favoriteEvents`, and the alerts shown. -/
structure Provider where
  user : Option String
  favorites : List String
  favoriteEvents : List FavEvent
  alerts : List (String × String)
deriving DecidableEq

/-- `result.error || fallback`. -/
def errorOr (error : Option String) (fallback : String) : String :=
  match error with
  | some e => if e ≠ "" then e else fallback
  | none => fallback

/-- `addToFavorites(event)`, with the answer of the backend. -/
def addToFavorites (s : Provider) (event : FavEvent) (result : Backend) : Provider × Bool :=
  match s.user with
  | none =>
    ({ s with alerts := s.alerts ++
        [("Login necessário", "Faça login para salvar eventos nos favoritos")] }, false)
  | some _ =>
    match result with
    | .success =>
      ({ s with
         favorites := if event.id ∈ s.favorites then s.favorites else s.favorites ++ [event.id]
         favoriteEvents :=
           if (s.favoriteEvents.find? (fun e => e.id == event.id)).isNone then
             s.favoriteEvents ++ [event]
           else s.favoriteEvents }, true)
    | .failure error =>
      ({ s with alerts := s.alerts ++
          [("Erro", errorOr error "Não foi possível adicionar aos favoritos")] }, false)
    | .thrown =>
      ({ s with alerts := s.alerts ++ [("Erro", "Ocorreu um erro inesperado")] }, false)

/-- `removeFromFavorites(eventId)`, with the answer of the backend. -/
def removeFromFavorites (s : Provider) (eventId : String) (result : Backend) :
    Provider × Bool :=
  match s.user with
  | none => (s, false)
  | some _ =>
    match result with
    | .success =>
      ({ s with
         favorites := s.favorites.filter (fun x => x != eventId)
         favoriteEvents := s.favoriteEvents.filter (fun event => event.id != eventId) }, true)
    | .failure error =>
      ({ s with alerts := s.alerts ++
          [("Erro", errorOr error "Não foi possível remover dos favoritos")] }, false)
    | .thrown =>
      ({ s with alerts := s.alerts ++ [("Erro", "Ocorreu um erro inesperado")] }, false)

/-- A provider with a user and one favourite. -/
def sampleProvider : Provider :=
  { user := some "uid-1", favorites := ["test1"]
    favoriteEvents := [⟨"test1", "Festival de Música de Verão"⟩], alerts := [] }

end FavoritesContext

/-! # Registration -/

namespace RegisterScreen

/-- The classes of characters that `emailRegex` tells apart: the at sign,
the full stop, the white space of `\s`, and every other character. -/
inductive Sym where
  | atSign
  | dot
  | space
  | other
deriving DecidableEq

/-- The class of a character. -/
def classify (c : Char) : Sym :=
  if c = '@' then .atSign
  else if c = '.' then .dot
  else if priceUtils.isWhiteSpace c then .space
  else .other

/-- The character class `[^\s@]`. -/
def notSpaceNorAt : RegularExpression Sym := .char .dot + .char .other

/-- The quantifier `+`. -/
def oneOrMore (r : RegularExpression Sym) : RegularExpression Sym := r * .star r

/-- The pattern `/^[^\s@]+@[^\s@]+\.[^\s@]+$/`. -/
def emailRegex : RegularExpression Sym :=
  oneOrMore notSpaceNorAt * .char .atSign * oneOrMore notSpaceNorAt * .char .dot *
    oneOrMore notSpaceNorAt

/-- `validateEmail(email)`: `emailRegex.test(email)`. -/
def validateEmail (email : String) : Bool :=
  emailRegex.rmatch (email.data.map classify)

/-- `String.prototype.trim`. -/
def trim (s : String) : String :=
  ⟨(s.data.dropWhile priceUtils.isWhiteSpace).rdropWhile priceUtils.isWhiteSpace⟩

/-- The property `length` of a string: its number of UTF-16 code units. -/
def jsLength (s : String) : Nat :=
  (s.data.map (fun c => if c.toNat < 65536 then 1 else 2)).sum

/-- `validateName(name)`. -/
def validateName (name : String) : Bool :=
  decide (jsLength (trim name) ≥ 2)

/-- The four fields of the form. -/
structure Form where
  name : String
  email : String
  password : String
  confirmPassword : String
deriving DecidableEq

/-- The object `newErrors`: a key is present when its field is `some`. -/
structure Errors where
  name : Option String
  email : Option String
  password : Option String
  confirmPassword : Option String
deriving DecidableEq

/-- `Object.keys(newErrors)`. -/
def Errors.keys (e : Errors) : List String :=
  (if e.name.isSome then ["name"] else []) ++ (if e.email.isSome then ["email"] else []) ++
  (if e.password.isSome then ["password"] else []) ++
  (if e.confirmPassword.isSome then ["confirmPassword"] else [])

/-- What `register(email, password)` of the authentication context gives:
a result with `success` truthy, a result with `success` falsy and its
`error`, or an exception. -/
inductive AuthResult where
  | success
  | failure (error : Option String)
  | thrown
deriving DecidableEq

/-- The state of the screen that `handleRegister` writes, with the calls of
`register` and the alerts shown. -/
structure Screen where
  errors : Errors
  loading : Bool
  registerCalls : List (String × String)
  alerts : List (String × Option String)
deriving DecidableEq

/-- `handleRegister()`. -/
def handleRegister (register : String → String → AuthResult) (form : Form) (s : Screen) :
    Screen :=
  let newErrors : Errors :=
    { name :=
        if trim form.name = "" then some "Nome é obrigatório"
        else if !validateName (trim form.name) then some "Nome deve ter pelo menos 2 caracteres"
        else none
      email :=
        if trim form.email = "" then some "Email é obrigatório"
        else if !validateEmail (trim form.email) then some "Email inválido"
        else none
      password :=
        if form.password = "" then some "Senha é obrigatória"
        else if jsLength form.password < 6 then some "Senha deve ter pelo menos 6 caracteres"
        else none
      confirmPassword :=
        if form.confirmPassword = "" then some "Confirme sua senha"
        else if form.password ≠ form.confirmPassword then some "As senhas não coincidem"
        else none }
  let s := { s with errors := newErrors }
  if newErrors.keys.length > 0 then s
  else
    let s := { s with loading := true }
    let s := { s with registerCalls := s.registerCalls ++ [(trim form.email, form.password)] }
    let s :=
      match register (trim form.email) form.password with
      | .success =>
        { s with alerts := s.alerts ++
            [("Sucesso!", some "Conta criada com sucesso. Bem-vindo ao Event Buddy!")] }
      | .failure error => { s with alerts := s.alerts ++ [("Erro", error)] }
      | .thrown =>
        { s with alerts := s.alerts ++ [("Erro", some "Erro inesperado. Tente novamente.")] }
    { s with loading := false }

/-- The shape of an email address in the words of the specification: no
white space, exactly one at sign, a non-empty local part before it, and in
the domain after it a full stop that is neither its first nor its last
character. -/
def hasEmailShape (email : String) : Bool :=
  let cs := email.data
  let localPart := cs.takeWhile (fun c => c != '@')
  let domain := (cs.dropWhile (fun c => c != '@')).drop 1
  cs.all (fun c => !priceUtils.isWhiteSpace c) && cs.count '@' == 1 &&
    !localPart.isEmpty && (domain.drop 1).dropLast.contains '.'

/-- The screen before anything was submitted. -/
def emptyScreen : Screen :=
  { errors := ⟨none, none, none, none⟩, loading := false, registerCalls := [], alerts := [] }

/-- A form that passes every check. -/
def goodForm : Form := ⟨" Ana ", "ana@example.com ", "segredo1", "segredo1"⟩

/-- A form that fails every check. -/
def badForm : Form := ⟨"A", "ana@example", "abc", "abd"⟩

/-- A backend that accepts every registration. -/
def acceptRegister : String → String → AuthResult := fun _ _ => .success

end RegisterScreen

namespace MapScreen

open eventService

/-! ## Zoom level: evaluation lemmas -/

theorem roundLog2_3600 : roundLog2 3600 = 12 := by
  unfold roundLog2
  have h : (2 * (3600 : ℚ) ^ 2) = ((25920000 : ℕ) : ℚ) := by norm_num
  rw [h, Int.log_natCast]
  have h2 : Nat.log 2 25920000 = 24 := by
    rw [Nat.log_eq_iff] <;> norm_num
  rw [h2]; rfl

theorem roundLog2_360000 : roundLog2 360000 = 18 := by
  unfold roundLog2
  have h : (2 * (360000 : ℚ) ^ 2) = ((259200000000 : ℕ) : ℚ) := by norm_num
  rw [h, Int.log_natCast]
  have h2 : Nat.log 2 259200000000 = 37 := by
    rw [Nat.log_eq_iff] <;> norm_num
  rw [h2]; rfl

theorem zoomLevel_regionFar : zoomLevel regionFar.longitudeDelta = .finite 12 := by
  simp only [regionFar, zoomLevel]
  norm_num [roundLog2_3600]

theorem zoomLevel_regionNear : zoomLevel regionNear.longitudeDelta = .finite 18 := by
  simp only [regionNear, zoomLevel]
  norm_num [roundLog2_360000]

theorem zoom_regionFar_lt : (zoomLevel regionFar.longitudeDelta).ge 15 = false := by
  rw [zoomLevel_regionFar]; rfl

theorem zoom_regionNear_ge : (zoomLevel regionNear.longitudeDelta).ge 15 = true := by
  rw [zoomLevel_regionNear]; rfl

/-! ## The branches of `onClusterPress` -/

/-- The zoom-in branch of `onClusterPress`, spelled out. -/
theorem onClusterPress_first (w : World) (cluster : Cluster) (mapRegion : Region)
    (hregion : w.mapRegion = some mapRegion)
    (hN : cluster.leaves.length ≠ 1)
    (hdouble : isDoubleClick w cluster.cluster_id = false)
    (hzoom : (zoomLevel mapRegion.longitudeDelta).ge 15 = false) :
    onClusterPress w cluster = some
      { w with
        lastClusterClick := some ⟨cluster.cluster_id, w.now⟩
        clusterClickTimeout := some (w.timerCount + 1)
        needsRender := true
        timers := w.timers ++ [⟨w.timerCount + 1, w.now + 1500, cluster.leaves, w.render⟩]
        timerCount := w.timerCount + 1
        log := w.log ++
          (if w.mapRef then
            [(w.now, Effect.animateToRegion
              { latitude := cluster.coordinates.2
                longitude := cluster.coordinates.1
                latitudeDelta := mapRegion.latitudeDelta / zoomFactor cluster.leaves.length
                longitudeDelta := mapRegion.longitudeDelta / zoomFactor cluster.leaves.length }
              500)]
           else []) ++
          (if w.android then
            [(w.now, Effect.alert "" "👆 Toque novamente para ver os eventos"
              [⟨"OK", OnPress.dismiss⟩])]
           else []) } := by
  obtain ⟨coords, cid, leaves⟩ := cluster
  simp only at hN hdouble ⊢
  rcases leaves with _ | ⟨a, _ | ⟨b, rest⟩⟩
  · by_cases hm : w.mapRef = true <;> by_cases ha : w.android = true <;>
      simp [onClusterPress, hregion, hdouble, hzoom, setClusterClickTimeout, setTimeout,
        setLastClusterClick, alert, animateToRegion, hm, ha]
  · simp at hN
  · by_cases hm : w.mapRef = true <;> by_cases ha : w.android = true <;>
      simp [onClusterPress, hregion, hdouble, hzoom, setClusterClickTimeout, setTimeout,
        setLastClusterClick, alert, animateToRegion, hm, ha]

/-- The reveal branch of `onClusterPress`, spelled out. -/
theorem onClusterPress_reveal (w : World) (cluster : Cluster) (mapRegion : Region)
    (hregion : w.mapRegion = some mapRegion)
    (hN : cluster.leaves.length ≠ 1)
    (hbranch : (isDoubleClick w cluster.cluster_id ||
      (zoomLevel mapRegion.longitudeDelta).ge 15) = true) :
    onClusterPress w cluster = some
      (setLastClusterClick
        (showClusterEvents (cancelPending w) (cancelPending w).render cluster.leaves) none) := by
  obtain ⟨coords, cid, leaves⟩ := cluster
  simp only at hN hbranch ⊢
  rcases leaves with _ | ⟨a, _ | ⟨b, rest⟩⟩
  · simp only [onClusterPress, hregion, hbranch, if_true, cancelPending]
  · simp at hN
  · simp only [onClusterPress, hregion, hbranch, if_true, cancelPending]

/-! ## The first tap on a cluster -/

/-- C1: a cluster tap that takes the zoom-in branch (more than one leaf, not
a double tap, zoom not at least 15) asks for exactly one camera move when the
map is attached: centred on the cluster, with the spans of the viewport
divided by 4 for at most 3 members, by 3 for 4 to 10, by 2 for more. -/
theorem onClusterPress_zoom_in_region (w : World) (cluster : Cluster) (mapRegion : Region)
    (f : ℚ)
    (hregion : w.mapRegion = some mapRegion)
    (hN : 1 < cluster.leaves.length)
    (hdouble : isDoubleClick w cluster.cluster_id = false)
    (hzoom : (zoomLevel mapRegion.longitudeDelta).ge 15 = false)
    (hf : (cluster.leaves.length ≤ 3 → f = 4) ∧
      (4 ≤ cluster.leaves.length ∧ cluster.leaves.length ≤ 10 → f = 3) ∧
      (10 < cluster.leaves.length → f = 2)) :
    ∃ w1, onClusterPress w cluster = some w1 ∧
      cameraRequests w1.log = cameraRequests w.log ++
        (if w.mapRef then
          [({ latitude := cluster.coordinates.2
              longitude := cluster.coordinates.1
              latitudeDelta := mapRegion.latitudeDelta / f
              longitudeDelta := mapRegion.longitudeDelta / f }, 500)]
         else []) := by
  have hfac : zoomFactor cluster.leaves.length = f := by
    unfold zoomFactor
    by_cases h3 : cluster.leaves.length ≤ 3
    · rw [if_pos h3, hf.1 h3]
    · rw [if_neg h3]
      by_cases h10 : cluster.leaves.length ≤ 10
      · rw [if_pos h10, hf.2.1 ⟨by omega, h10⟩]
      · rw [if_neg h10, hf.2.2 (by omega)]
  refine ⟨_, onClusterPress_first w cluster mapRegion hregion (by omega) hdouble hzoom, ?_⟩
  rw [hfac]
  by_cases hm : w.mapRef = true <;> by_cases ha : w.android = true <;>
    simp [hm, ha, cameraRequests, List.filterMap_append]

/-- C1, instance: tapping `clusterAB` (two members) at zoom 12 asks for a
quarter of the viewport spans. -/
theorem onClusterPress_zoom_in_region_witness :
    ∃ w1, onClusterPress worldFar clusterAB = some w1 ∧
      cameraRequests w1.log = cameraRequests worldFar.log ++
        (if worldFar.mapRef then
          [({ latitude := clusterAB.coordinates.2
              longitude := clusterAB.coordinates.1
              latitudeDelta := regionFar.latitudeDelta / 4
              longitudeDelta := regionFar.longitudeDelta / 4 }, 500)]
         else []) :=
  onClusterPress_zoom_in_region worldFar clusterAB regionFar 4 rfl (by decide) (by rfl)
    (by rw [zoomLevel_regionFar]; rfl)
    ⟨fun _ => rfl, fun h => absurd h.1 (by decide), fun h => absurd h (by decide)⟩

/-! ## A cluster of one event -/

/-- C8: tapping a cluster that resolves to exactly one event `e` is the
same as `onMarkerPress(e)`: the same world results, so `e` is selected, the
same camera region around `e` is requested, and the pending tap and the
armed timers are as before. -/
theorem onClusterPress_single_leaf (w : World) (cluster : Cluster) (e : Event)
    (mapRegion : Region) (t : Int)
    (hregion : w.mapRegion = some mapRegion)
    (hleaves : cluster.leaves = [e]) :
    onClusterPress w cluster = some (onMarkerPress w e) ∧
    step w t (.clusterPress cluster) = step w t (.markerPress e) ∧
    (onMarkerPress w e).selectedEvent = some e ∧
    (onMarkerPress w e).log = w.log ++
      (if w.mapRef then
        [(w.now, Effect.animateToRegion
          { latitude := e.latitude
            longitude := e.longitude
            latitudeDelta := LATITUDE_DELTA * (1 / 2)
            longitudeDelta := LONGITUDE_DELTA w.width w.height * (1 / 2) } 1000)]
       else []) ∧
    (onMarkerPress w e).lastClusterClick = w.lastClusterClick ∧
    (onMarkerPress w e).clusterClickTimeout = w.clusterClickTimeout ∧
    (onMarkerPress w e).timers = w.timers := by
  obtain ⟨coords, cid, leaves⟩ := cluster
  simp only at hleaves
  subst hleaves
  have h1 : ∀ v : World, v.mapRegion = some mapRegion →
      onClusterPress v ⟨coords, cid, [e]⟩ = some (onMarkerPress v e) := by
    intro v hv
    simp only [onClusterPress, hv]
  refine ⟨h1 w hregion, ?_, ?_⟩
  · have h2 := h1 { w with now := t } hregion
    simp only [step, handle, h2]
  · by_cases hm : w.mapRef = true <;>
      simp [onMarkerPress, setSelectedEvent, animateToRegion, hm]

/-- C8, instance: `clusterC` resolves to `sampleC` alone. -/
theorem onClusterPress_single_leaf_witness :
    onClusterPress worldFar clusterC = some (onMarkerPress worldFar sampleC) ∧
    step worldFar 1000 (.clusterPress clusterC) = step worldFar 1000 (.markerPress sampleC) ∧
    (onMarkerPress worldFar sampleC).selectedEvent = some sampleC ∧
    (onMarkerPress worldFar sampleC).log = worldFar.log ++
      (if worldFar.mapRef then
        [(worldFar.now, Effect.animateToRegion
          { latitude := sampleC.latitude
            longitude := sampleC.longitude
            latitudeDelta := LATITUDE_DELTA * (1 / 2)
            longitudeDelta := LONGITUDE_DELTA worldFar.width worldFar.height * (1 / 2) } 1000)]
       else []) ∧
    (onMarkerPress worldFar sampleC).lastClusterClick = worldFar.lastClusterClick ∧
    (onMarkerPress worldFar sampleC).clusterClickTimeout = worldFar.clusterClickTimeout ∧
    (onMarkerPress worldFar sampleC).timers = worldFar.timers :=
  onClusterPress_single_leaf worldFar clusterC sampleC regionFar 1000 rfl rfl

/-! ## The member list -/

/-- C10: a call of `showClusterEvents` that the duplicate guard lets
through.  With one member there is no dialog and the member is selected.
With `n ≥ 2` members one dialog is shown; after the close button it offers
the first `min n 5` members in their order, each selecting its event, and
then one "view all" action exactly when `n > 5`. -/
theorem showClusterEvents_dialog (w : World) (k : Nat) (clusterEvents : List Event)
    (hguard : ¬ (w.now - w.lastClusterPopupTime k < 500)) :
    (∀ e, clusterEvents = [e] →
      (showClusterEvents w k clusterEvents).log = w.log ∧
      (showClusterEvents w k clusterEvents).selectedEvent = some e) ∧
    (2 ≤ clusterEvents.length →
      ∃ message buttons,
        (showClusterEvents w k clusterEvents).log =
          w.log ++ [(w.now, Effect.alert membersTitle message buttons)] ∧
        (showClusterEvents w k clusterEvents).selectedEvent = w.selectedEvent ∧
        buttons = ⟨"Fechar", OnPress.dismiss⟩ ::
          ((clusterEvents.take (min clusterEvents.length 5)).map
            (fun e => ⟨buttonText e.title, OnPress.setSelectedEvent e⟩) ++
          (if 5 < clusterEvents.length then
            [⟨buttonText ("Ver todos os " ++ toString clusterEvents.length ++ " eventos"),
              OnPress.navigateEventos clusterEvents
                (toString clusterEvents.length ++ " eventos nesta área")⟩]
           else [])) ∧
        buttons.filterMap selectedBy = clusterEvents.take (min clusterEvents.length 5) ∧
        (buttons.filterMap selectedBy).length = min clusterEvents.length 5 ∧
        ((buttons.filter isViewAll).length = 1 ↔ 5 < clusterEvents.length) ∧
        (buttons.filter isViewAll).length ≤ 1) := by
  have htake : clusterEvents.take (min clusterEvents.length 5) = clusterEvents.take 5 := by
    rcases Nat.le_total clusterEvents.length 5 with h | h
    · rw [Nat.min_eq_left h, List.take_of_length_le h, List.take_of_length_le (le_refl _)]
    · rw [Nat.min_eq_right h]
  have hsel : ∀ l : List Event,
      (l.map (fun e => (⟨buttonText e.title, OnPress.setSelectedEvent e⟩ : Button))).filterMap
        selectedBy = l := by
    intro l
    induction l with
    | nil => rfl
    | cons a l ih => simp [selectedBy, List.filterMap_cons] at ih ⊢; exact ih
  have hall : ∀ l : List Event,
      (l.map (fun e => (⟨buttonText e.title, OnPress.setSelectedEvent e⟩ : Button))).filter
        isViewAll = [] := by
    intro l
    induction l with
    | nil => rfl
    | cons a l ih => simp [isViewAll, List.filter_cons] at ih ⊢
  constructor
  · intro e he
    subst he
    simp [showClusterEvents, hguard, setSelectedEvent]
  · intro hn
    have h1 : clusterEvents.length ≠ 1 := by omega
    refine ⟨toString clusterEvents.length ++ " eventos encontrados", _, ?_, ?_, rfl,
      ?_, ?_, ?_, ?_⟩
    · simp only [showClusterEvents, if_neg hguard, if_neg h1, alert]
      by_cases h5 : 5 < clusterEvents.length
      · simp [h5, htake, List.map_append, Function.comp_def]
      · simp [h5, htake, Function.comp_def]
    · simp only [showClusterEvents, if_neg hguard, if_neg h1, alert]
    · by_cases h5 : 5 < clusterEvents.length
      · simp only [if_pos h5, List.filterMap_cons, List.filterMap_append, hsel, selectedBy]
        simp
      · simp only [if_neg h5, List.filterMap_cons, List.filterMap_append, hsel, selectedBy]
        simp
    · by_cases h5 : 5 < clusterEvents.length
      · simp only [if_pos h5, List.filterMap_cons, List.filterMap_append, hsel, selectedBy]
        simp
      · simp only [if_neg h5, List.filterMap_cons, List.filterMap_append, hsel, selectedBy]
        simp
    · by_cases h5 : 5 < clusterEvents.length
      · simp only [if_pos h5, List.filter_cons, List.filter_append, hall, isViewAll]
        simp [h5]
      · simp only [if_neg h5, List.filter_cons, List.filter_append, hall, isViewAll]
        simp [h5]
    · by_cases h5 : 5 < clusterEvents.length
      · simp only [if_pos h5, List.filter_cons, List.filter_append, hall, isViewAll]
        simp
      · simp only [if_neg h5, List.filter_cons, List.filter_append, hall, isViewAll]
        simp

/-- C10, instance: on the mounted screen at time 1000 nothing was shown yet,
so the guard lets the call through. -/
theorem showClusterEvents_dialog_witness :
    (∀ e, [sampleA, sampleB] = [e] →
      (showClusterEvents { worldFar with now := 1000 } 0 [sampleA, sampleB]).log = worldFar.log ∧
      (showClusterEvents { worldFar with now := 1000 } 0 [sampleA, sampleB]).selectedEvent
        = some e) ∧
    (2 ≤ [sampleA, sampleB].length →
      ∃ message buttons,
        (showClusterEvents { worldFar with now := 1000 } 0 [sampleA, sampleB]).log =
          worldFar.log ++ [(1000, Effect.alert membersTitle message buttons)] ∧
        (showClusterEvents { worldFar with now := 1000 } 0 [sampleA, sampleB]).selectedEvent
          = worldFar.selectedEvent ∧
        buttons = ⟨"Fechar", OnPress.dismiss⟩ ::
          (([sampleA, sampleB].take (min [sampleA, sampleB].length 5)).map
            (fun e => ⟨buttonText e.title, OnPress.setSelectedEvent e⟩) ++
          (if 5 < [sampleA, sampleB].length then
            [⟨buttonText ("Ver todos os " ++ toString [sampleA, sampleB].length ++ " eventos"),
              OnPress.navigateEventos [sampleA, sampleB]
                (toString [sampleA, sampleB].length ++ " eventos nesta área")⟩]
           else [])) ∧
        buttons.filterMap selectedBy = [sampleA, sampleB].take (min [sampleA, sampleB].length 5) ∧
        (buttons.filterMap selectedBy).length = min [sampleA, sampleB].length 5 ∧
        ((buttons.filter isViewAll).length = 1 ↔ 5 < [sampleA, sampleB].length) ∧
        (buttons.filter isViewAll).length ≤ 1) :=
  showClusterEvents_dialog { worldFar with now := 1000 } 0 [sampleA, sampleB] (by decide)

/-! ## Centring the map on the filtered events -/

theorem foldl_min_spec (g : Event → ℚ) (l : List Event) (m0 : ℚ) :
    (l.foldl (fun m e => min m (g e)) m0 ≤ m0 ∧
      ∀ e ∈ l, l.foldl (fun m e => min m (g e)) m0 ≤ g e) ∧
    (l.foldl (fun m e => min m (g e)) m0 = m0 ∨
      ∃ e ∈ l, g e = l.foldl (fun m e => min m (g e)) m0) := by
  induction l generalizing m0 with
  | nil => simp
  | cons a l ih =>
    simp only [List.foldl_cons, List.mem_cons, forall_eq_or_imp, exists_eq_or_imp]
    obtain ⟨⟨h1, h2⟩, h3⟩ := ih (min m0 (g a))
    refine ⟨⟨le_trans h1 (min_le_left _ _), le_trans h1 (min_le_right _ _), h2⟩, ?_⟩
    rcases h3 with h3 | h3
    · rcases min_choice m0 (g a) with h | h
      · left; rw [h3, h]
      · right; left; rw [h3, h]
    · right; right; exact h3

theorem foldl_max_spec (g : Event → ℚ) (l : List Event) (m0 : ℚ) :
    (m0 ≤ l.foldl (fun m e => max m (g e)) m0 ∧
      ∀ e ∈ l, g e ≤ l.foldl (fun m e => max m (g e)) m0) ∧
    (l.foldl (fun m e => max m (g e)) m0 = m0 ∨
      ∃ e ∈ l, g e = l.foldl (fun m e => max m (g e)) m0) := by
  induction l generalizing m0 with
  | nil => simp
  | cons a l ih =>
    simp only [List.foldl_cons, List.mem_cons, forall_eq_or_imp, exists_eq_or_imp]
    obtain ⟨⟨h1, h2⟩, h3⟩ := ih (max m0 (g a))
    refine ⟨⟨le_trans (le_max_left _ _) h1, le_trans (le_max_right _ _) h1, h2⟩, ?_⟩
    rcases h3 with h3 | h3
    · rcases max_choice m0 (g a) with h | h
      · left; rw [h3, h]
      · right; left; rw [h3, h]
    · right; right; exact h3

/-- The loop of `centerMapOnEvents` keeps four independent running values. -/
theorem eventBounds_foldl (l : List Event) (b : Bounds) :
    l.foldl
      (fun b event =>
        ({ minLat := min b.minLat event.latitude
           maxLat := max b.maxLat event.latitude
           minLng := min b.minLng event.longitude
           maxLng := max b.maxLng event.longitude } : Bounds)) b =
    { minLat := l.foldl (fun m e => min m e.latitude) b.minLat
      maxLat := l.foldl (fun m e => max m e.latitude) b.maxLat
      minLng := l.foldl (fun m e => min m e.longitude) b.minLng
      maxLng := l.foldl (fun m e => max m e.longitude) b.maxLng } := by
  induction l generalizing b with
  | nil => rfl
  | cons a l ih => simp only [List.foldl_cons]; rw [ih]

/-- The bounds computed over a list that starts with `first` are the least
and the greatest coordinates of the list. -/
theorem eventBounds_spec (first : Event) (rest : List Event) :
    IsLeast {x | ∃ e ∈ first :: rest, e.latitude = x} (eventBounds first (first :: rest)).minLat ∧
    IsGreatest {x | ∃ e ∈ first :: rest, e.latitude = x}
      (eventBounds first (first :: rest)).maxLat ∧
    IsLeast {x | ∃ e ∈ first :: rest, e.longitude = x}
      (eventBounds first (first :: rest)).minLng ∧
    IsGreatest {x | ∃ e ∈ first :: rest, e.longitude = x}
      (eventBounds first (first :: rest)).maxLng := by
  unfold eventBounds
  rw [eventBounds_foldl]
  simp only
  have hmem : first ∈ first :: rest := List.mem_cons_self _ _
  refine ⟨⟨?_, ?_⟩, ⟨?_, ?_⟩, ⟨?_, ?_⟩, ⟨?_, ?_⟩⟩
  · rcases (foldl_min_spec (fun e => e.latitude) (first :: rest) first.latitude).2 with h | h
    · exact ⟨first, hmem, h.symm⟩
    · exact h
  · rintro x ⟨e, he, rfl⟩
    exact (foldl_min_spec (fun e => e.latitude) (first :: rest) first.latitude).1.2 e he
  · rcases (foldl_max_spec (fun e => e.latitude) (first :: rest) first.latitude).2 with h | h
    · exact ⟨first, hmem, h.symm⟩
    · exact h
  · rintro x ⟨e, he, rfl⟩
    exact (foldl_max_spec (fun e => e.latitude) (first :: rest) first.latitude).1.2 e he
  · rcases (foldl_min_spec (fun e => e.longitude) (first :: rest) first.longitude).2 with h | h
    · exact ⟨first, hmem, h.symm⟩
    · exact h
  · rintro x ⟨e, he, rfl⟩
    exact (foldl_min_spec (fun e => e.longitude) (first :: rest) first.longitude).1.2 e he
  · rcases (foldl_max_spec (fun e => e.longitude) (first :: rest) first.longitude).2 with h | h
    · exact ⟨first, hmem, h.symm⟩
    · exact h
  · rintro x ⟨e, he, rfl⟩
    exact (foldl_max_spec (fun e => e.longitude) (first :: rest) first.longitude).1.2 e he

/-- What `centerMapOnEvents` does when there are filtered events: with the
map attached it asks for one region, computed from the extreme coordinates;
without it nothing happens. -/
theorem centerMapOnEvents_eq (w : World) (hne : w.filteredEvents ≠ []) :
    ∃ minLat maxLat minLng maxLng : ℚ,
      IsLeast {x | ∃ e ∈ w.filteredEvents, e.latitude = x} minLat ∧
      IsGreatest {x | ∃ e ∈ w.filteredEvents, e.latitude = x} maxLat ∧
      IsLeast {x | ∃ e ∈ w.filteredEvents, e.longitude = x} minLng ∧
      IsGreatest {x | ∃ e ∈ w.filteredEvents, e.longitude = x} maxLng ∧
      centerMapOnEvents w =
        { w with log := w.log ++
            (if w.mapRef then
              [(w.now, Effect.animateToRegion
                { latitude := (minLat + maxLat) / 2
                  longitude := (minLng + maxLng) / 2
                  latitudeDelta := max (12 / 10 * (maxLat - minLat)) (2 / 100)
                  longitudeDelta := max (12 / 10 * (maxLng - minLng)) (2 / 100) } 1000)]
             else []) } := by
  rcases hfe : w.filteredEvents with _ | ⟨first, rest⟩
  · exact absurd hfe hne
  · obtain ⟨h1, h2, h3, h4⟩ := eventBounds_spec first rest
    refine ⟨_, _, _, _, h1, h2, h3, h4, ?_⟩
    by_cases hmap : w.mapRef = true
    · simp only [centerMapOnEvents, hfe, hmap, Bool.not_true, Bool.false_eq_true, if_false,
        if_true, animateToRegion]
      have e1 : ∀ x : ℚ, x * (1 + 2 / 10) = 12 / 10 * x := fun x => by ring
      simp only [e1]
    · have hmap2 : w.mapRef = false := by simpa using hmap
      simp only [centerMapOnEvents, hfe, hmap2, Bool.not_false, if_true, Bool.false_eq_true,
        if_false, List.append_nil]
      cases w
      simp only at hfe hmap2
      subst hfe hmap2
      rfl

/-- C3: with at least one filtered event, the region that `centerMapOnEvents`
asks for (when the map is attached) contains every filtered event: its
latitude and longitude lie within half a span of the centre. -/
theorem centerMapOnEvents_contains (w : World) (hne : w.filteredEvents ≠ []) :
    ∃ region : Region,
      centerMapOnEvents w =
        { w with log := w.log ++
            (if w.mapRef then [(w.now, Effect.animateToRegion region 1000)] else []) } ∧
      ∀ e ∈ w.filteredEvents,
        region.latitude - region.latitudeDelta / 2 ≤ e.latitude ∧
        e.latitude ≤ region.latitude + region.latitudeDelta / 2 ∧
        region.longitude - region.longitudeDelta / 2 ≤ e.longitude ∧
        e.longitude ≤ region.longitude + region.longitudeDelta / 2 := by
  obtain ⟨minLat, maxLat, minLng, maxLng, h1, h2, h3, h4, h5⟩ := centerMapOnEvents_eq w hne
  refine ⟨_, h5, ?_⟩
  intro e he
  have a1 : minLat ≤ e.latitude := h1.2 ⟨e, he, rfl⟩
  have a2 : e.latitude ≤ maxLat := h2.2 ⟨e, he, rfl⟩
  have a3 : minLng ≤ e.longitude := h3.2 ⟨e, he, rfl⟩
  have a4 : e.longitude ≤ maxLng := h4.2 ⟨e, he, rfl⟩
  have b1 : 12 / 10 * (maxLat - minLat) ≤ max (12 / 10 * (maxLat - minLat)) (2 / 100) :=
    le_max_left _ _
  have b2 : 12 / 10 * (maxLng - minLng) ≤ max (12 / 10 * (maxLng - minLng)) (2 / 100) :=
    le_max_left _ _
  simp only
  refine ⟨?_, ?_, ?_, ?_⟩ <;> linarith

/-- C3, instance: the screen showing `lisbonEvents`. -/
theorem centerMapOnEvents_contains_witness :
    ∃ region : Region,
      centerMapOnEvents worldLisbon =
        { worldLisbon with log := worldLisbon.log ++
            (if worldLisbon.mapRef then
              [(worldLisbon.now, Effect.animateToRegion region 1000)]
             else []) } ∧
      ∀ e ∈ worldLisbon.filteredEvents,
        region.latitude - region.latitudeDelta / 2 ≤ e.latitude ∧
        e.latitude ≤ region.latitude + region.latitudeDelta / 2 ∧
        region.longitude - region.longitudeDelta / 2 ≤ e.longitude ∧
        e.longitude ≤ region.longitude + region.longitudeDelta / 2 :=
  centerMapOnEvents_contains worldLisbon (by simp [worldLisbon, World.initial, lisbonEvents])

/-! ## Centring the map, in the arithmetic of the engine -/

/-! ### Rounding to binary64 -/

/-- A value less than a half away from an integer rounds to it. -/
theorem roundHalfEven_near (m : ℚ) (n : Int) (h1 : (n : ℚ) - 1 / 2 < m)
    (h2 : m < n + 1 / 2) : roundHalfEven m = n := by
  unfold roundHalfEven
  by_cases hle : (n : ℚ) ≤ m
  · have hf : ⌊m⌋ = n := by
      rw [Int.floor_eq_iff]
      constructor
      · exact hle
      · linarith
    simp only [hf]
    rw [if_pos (by linarith)]
  · have hlt : m < n := not_le.mp hle
    have hf : ⌊m⌋ = n - 1 := by
      rw [Int.floor_eq_iff]
      push_cast
      constructor <;> linarith
    simp only [hf]
    push_cast
    rw [if_neg (by linarith), if_pos (by linarith)]
    ring

/-- A value halfway between two integers rounds to the even one. -/
theorem roundHalfEven_tie (m : ℚ) (f : Int) (h : m = f + 1 / 2) :
    roundHalfEven m = if f % 2 = 0 then f else f + 1 := by
  unfold roundHalfEven
  have hf : ⌊m⌋ = f := by
    rw [Int.floor_eq_iff]
    constructor <;> linarith
  simp only [hf]
  rw [if_neg (by linarith), if_neg (by linarith)]

/-- The rounding of a value whose binade is known: with
`2 ^ 52 ≤ |q| * 2 ^ k < 2 ^ 53` the spacing of the binary64 numbers around
`q` is `2 ^ (-k)`. -/
theorem roundToDouble_scaled (q : ℚ) (k : ℕ) (hk : k ≤ 1074)
    (hlo : (2 : ℚ) ^ 52 ≤ |q| * 2 ^ k) (hhi : |q| * 2 ^ k < (2 : ℚ) ^ 53) :
    roundToDouble q = (roundHalfEven (q * 2 ^ k) : ℚ) / 2 ^ k := by
  have hpow : (0 : ℚ) < 2 ^ k := by positivity
  have habs : 0 < |q| := by
    by_contra hcon
    have h0 : |q| = 0 := le_antisymm (not_lt.mp hcon) (abs_nonneg q)
    rw [h0, zero_mul] at hlo
    have : (0 : ℚ) < 2 ^ 52 := by positivity
    linarith
  have hq : q ≠ 0 := abs_pos.mp habs
  have hlog : Int.log 2 |q| = 52 - (k : ℤ) := by
    apply le_antisymm
    · have h : Int.log 2 |q| < 53 - (k : ℤ) := by
        rw [← Int.lt_zpow_iff_log_lt (by norm_num) habs]
        rw [zpow_sub₀ (by norm_num), zpow_natCast]
        push_cast
        rw [lt_div_iff₀ hpow]
        have h53 : (2 : ℚ) ^ (53 : ℤ) = 2 ^ 53 := by norm_num
        rw [h53]
        exact hhi
      omega
    · rw [← Int.zpow_le_iff_le_log (by norm_num) habs]
      rw [zpow_sub₀ (by norm_num), zpow_natCast]
      push_cast
      rw [div_le_iff₀ hpow]
      have h52 : (2 : ℚ) ^ (52 : ℤ) = 2 ^ 52 := by norm_num
      rw [h52]
      exact hlo
  unfold roundToDouble
  rw [if_neg hq]
  simp only [hlog]
  have hmax : max (52 - (k : ℤ) - 52) (-1074) = -(k : ℤ) := by
    rw [max_eq_left (by omega)]
    ring
  rw [hmax, zpow_neg, zpow_natCast, div_inv_eq_mul]
  rfl

/-- Rounding, for a value that is not halfway between two binary64 numbers. -/
theorem roundToDouble_near (q : ℚ) (k : ℕ) (n : Int) (hk : k ≤ 1074)
    (hlo : (2 : ℚ) ^ 52 ≤ |q| * 2 ^ k) (hhi : |q| * 2 ^ k < (2 : ℚ) ^ 53)
    (h1 : (n : ℚ) - 1 / 2 < q * 2 ^ k) (h2 : q * 2 ^ k < n + 1 / 2) :
    roundToDouble q = (n : ℚ) / 2 ^ k := by
  rw [roundToDouble_scaled q k hk hlo hhi, roundHalfEven_near _ n h1 h2]

/-- Rounding, for a value halfway between two binary64 numbers. -/
theorem roundToDouble_tie (q : ℚ) (k : ℕ) (f : Int) (hk : k ≤ 1074)
    (hlo : (2 : ℚ) ^ 52 ≤ |q| * 2 ^ k) (hhi : |q| * 2 ^ k < (2 : ℚ) ^ 53)
    (h : q * 2 ^ k = f + 1 / 2) :
    roundToDouble q = ((if f % 2 = 0 then f else f + 1 : Int) : ℚ) / 2 ^ k := by
  rw [roundToDouble_scaled q k hk hlo hhi, roundHalfEven_tie _ f h]

/-! ### The binary64 numbers of the example -/

theorem double_3872 : roundToDouble (3872 / 100) = 5449355549118300 / 2 ^ 47 := by
  have ha : |(3872 / 100 : ℚ)| = (3872 / 100) := abs_of_pos (by norm_num)
  have h := roundToDouble_near (3872 / 100) 47 (5449355549118300) (by norm_num)
    (by rw [ha]; norm_num) (by rw [ha]; norm_num) (by norm_num) (by norm_num)
  rw [h]
  norm_num

theorem double_3876 : roundToDouble (3876 / 100) = 5454985048652513 / 2 ^ 47 := by
  have ha : |(3876 / 100 : ℚ)| = (3876 / 100) := abs_of_pos (by norm_num)
  have h := roundToDouble_near (3876 / 100) 47 (5454985048652513) (by norm_num)
    (by rw [ha]; norm_num) (by rw [ha]; norm_num) (by norm_num) (by norm_num)
  rw [h]
  norm_num

theorem double_3870 : roundToDouble (3870 / 100) = 5446540799351194 / 2 ^ 47 := by
  have ha : |(3870 / 100 : ℚ)| = (3870 / 100) := abs_of_pos (by norm_num)
  have h := roundToDouble_near (3870 / 100) 47 (5446540799351194) (by norm_num)
    (by rw [ha]; norm_num) (by rw [ha]; norm_num) (by norm_num) (by norm_num)
  rw [h]
  norm_num

theorem double_neg945 : roundToDouble (-945 / 100) = -5319877059831398 / 2 ^ 49 := by
  have ha : |(-945 / 100 : ℚ)| = -(-945 / 100) := abs_of_neg (by norm_num)
  have h := roundToDouble_near (-945 / 100) 49 (-5319877059831398) (by norm_num)
    (by rw [ha]; norm_num) (by rw [ha]; norm_num) (by norm_num) (by norm_num)
  rw [h]
  norm_num

theorem double_neg913 : roundToDouble (-913 / 100) = -5139733074736579 / 2 ^ 49 := by
  have ha : |(-913 / 100 : ℚ)| = -(-913 / 100) := abs_of_neg (by norm_num)
  have h := roundToDouble_near (-913 / 100) 49 (-5139733074736579) (by norm_num)
    (by rw [ha]; norm_num) (by rw [ha]; norm_num) (by norm_num) (by norm_num)
  rw [h]
  norm_num

theorem double_neg920 : roundToDouble (-920 / 100) = -5179139571476070 / 2 ^ 49 := by
  have ha : |(-920 / 100 : ℚ)| = -(-920 / 100) := abs_of_neg (by norm_num)
  have h := roundToDouble_near (-920 / 100) 49 (-5179139571476070) (by norm_num)
    (by rw [ha]; norm_num) (by rw [ha]; norm_num) (by norm_num) (by norm_num)
  rw [h]
  norm_num

theorem double_3873 : roundToDouble (3873 / 100) = 5450762924001853 / 2 ^ 47 := by
  have ha : |(3873 / 100 : ℚ)| = (3873 / 100) := abs_of_pos (by norm_num)
  have h := roundToDouble_near (3873 / 100) 47 (5450762924001853) (by norm_num)
    (by rw [ha]; norm_num) (by rw [ha]; norm_num) (by norm_num) (by norm_num)
  rw [h]
  norm_num

theorem double_neg929 : roundToDouble (-929 / 100) = -5229805067283988 / 2 ^ 49 := by
  have ha : |(-929 / 100 : ℚ)| = -(-929 / 100) := abs_of_neg (by norm_num)
  have h := roundToDouble_near (-929 / 100) 49 (-5229805067283988) (by norm_num)
    (by rw [ha]; norm_num) (by rw [ha]; norm_num) (by norm_num) (by norm_num)
  rw [h]
  norm_num

theorem double_padding : roundToDouble (2 / 10) = 7205759403792794 / 2 ^ 55 := by
  have ha : |(2 / 10 : ℚ)| = (2 / 10) := abs_of_pos (by norm_num)
  have h := roundToDouble_near (2 / 10) 55 (7205759403792794) (by norm_num)
    (by rw [ha]; norm_num) (by rw [ha]; norm_num) (by norm_num) (by norm_num)
  rw [h]
  norm_num

theorem double_one_add_padding : roundToDouble (1 + 7205759403792794 / 2 ^ 55) = 5404319552844595 / 2 ^ 52 := by
  have ha : |(1 + 7205759403792794 / 2 ^ 55 : ℚ)| = (1 + 7205759403792794 / 2 ^ 55) := abs_of_pos (by norm_num)
  have h := roundToDouble_near (1 + 7205759403792794 / 2 ^ 55) 52 (5404319552844595) (by norm_num)
    (by rw [ha]; norm_num) (by rw [ha]; norm_num) (by norm_num) (by norm_num)
  rw [h]
  norm_num

theorem double_12 : roundToDouble (12 / 10) = 5404319552844595 / 2 ^ 52 := by
  have ha : |(12 / 10 : ℚ)| = (12 / 10) := abs_of_pos (by norm_num)
  have h := roundToDouble_near (12 / 10) 52 (5404319552844595) (by norm_num)
    (by rw [ha]; norm_num) (by rw [ha]; norm_num) (by norm_num) (by norm_num)
  rw [h]
  norm_num

theorem double_002 : roundToDouble (2 / 100) = 5764607523034235 / 2 ^ 58 := by
  have ha : |(2 / 100 : ℚ)| = (2 / 100) := abs_of_pos (by norm_num)
  have h := roundToDouble_near (2 / 100) 58 (5764607523034235) (by norm_num)
    (by rw [ha]; norm_num) (by rw [ha]; norm_num) (by norm_num) (by norm_num)
  rw [h]
  norm_num

theorem double_sum_lat : roundToDouble (5446540799351194 / 2 ^ 47 + 5454985048652513 / 2 ^ 47) = 5450762924001854 / 2 ^ 46 := by
  have ha : |(5446540799351194 / 2 ^ 47 + 5454985048652513 / 2 ^ 47 : ℚ)| = (5446540799351194 / 2 ^ 47 + 5454985048652513 / 2 ^ 47) := abs_of_pos (by norm_num)
  have h := roundToDouble_tie (5446540799351194 / 2 ^ 47 + 5454985048652513 / 2 ^ 47) 46 (5450762924001853) (by norm_num)
    (by rw [ha]; norm_num) (by rw [ha]; norm_num) (by norm_num)
  rw [h]
  norm_num

theorem double_half_lat : roundToDouble (5450762924001854 / 2 ^ 46 / 2) = 5450762924001854 / 2 ^ 47 := by
  have ha : |(5450762924001854 / 2 ^ 46 / 2 : ℚ)| = (5450762924001854 / 2 ^ 46 / 2) := abs_of_pos (by norm_num)
  have h := roundToDouble_near (5450762924001854 / 2 ^ 46 / 2) 47 (5450762924001854) (by norm_num)
    (by rw [ha]; norm_num) (by rw [ha]; norm_num) (by norm_num) (by norm_num)
  rw [h]
  norm_num

theorem double_sum_lng : roundToDouble (-5319877059831398 / 2 ^ 49 + -5139733074736579 / 2 ^ 49) = -5229805067283988 / 2 ^ 48 := by
  have ha : |(-5319877059831398 / 2 ^ 49 + -5139733074736579 / 2 ^ 49 : ℚ)| = -(-5319877059831398 / 2 ^ 49 + -5139733074736579 / 2 ^ 49) := abs_of_neg (by norm_num)
  have h := roundToDouble_tie (-5319877059831398 / 2 ^ 49 + -5139733074736579 / 2 ^ 49) 48 (-5229805067283989) (by norm_num)
    (by rw [ha]; norm_num) (by rw [ha]; norm_num) (by norm_num)
  rw [h]
  norm_num

theorem double_half_lng : roundToDouble (-5229805067283988 / 2 ^ 48 / 2) = -5229805067283988 / 2 ^ 49 := by
  have ha : |(-5229805067283988 / 2 ^ 48 / 2 : ℚ)| = -(-5229805067283988 / 2 ^ 48 / 2) := abs_of_neg (by norm_num)
  have h := roundToDouble_near (-5229805067283988 / 2 ^ 48 / 2) 49 (-5229805067283988) (by norm_num)
    (by rw [ha]; norm_num) (by rw [ha]; norm_num) (by norm_num) (by norm_num)
  rw [h]
  norm_num

theorem double_diff_lat : roundToDouble (5454985048652513 / 2 ^ 47 - 5446540799351194 / 2 ^ 47) = 8646911284550656 / 2 ^ 57 := by
  have ha : |(5454985048652513 / 2 ^ 47 - 5446540799351194 / 2 ^ 47 : ℚ)| = (5454985048652513 / 2 ^ 47 - 5446540799351194 / 2 ^ 47) := abs_of_pos (by norm_num)
  have h := roundToDouble_near (5454985048652513 / 2 ^ 47 - 5446540799351194 / 2 ^ 47) 57 (8646911284550656) (by norm_num)
    (by rw [ha]; norm_num) (by rw [ha]; norm_num) (by norm_num) (by norm_num)
  rw [h]
  norm_num

theorem double_diff_lng : roundToDouble (-5139733074736579 / 2 ^ 49 - -5319877059831398 / 2 ^ 49) = 5764607523034208 / 2 ^ 54 := by
  have ha : |(-5139733074736579 / 2 ^ 49 - -5319877059831398 / 2 ^ 49 : ℚ)| = (-5139733074736579 / 2 ^ 49 - -5319877059831398 / 2 ^ 49) := abs_of_pos (by norm_num)
  have h := roundToDouble_near (-5139733074736579 / 2 ^ 49 - -5319877059831398 / 2 ^ 49) 54 (5764607523034208) (by norm_num)
    (by rw [ha]; norm_num) (by rw [ha]; norm_num) (by norm_num) (by norm_num)
  rw [h]
  norm_num

theorem double_span_lat : roundToDouble (8646911284550656 / 2 ^ 57 * (5404319552844595 / 2 ^ 52)) = 5188146770730393 / 2 ^ 56 := by
  have ha : |(8646911284550656 / 2 ^ 57 * (5404319552844595 / 2 ^ 52) : ℚ)| = (8646911284550656 / 2 ^ 57 * (5404319552844595 / 2 ^ 52)) := abs_of_pos (by norm_num)
  have h := roundToDouble_near (8646911284550656 / 2 ^ 57 * (5404319552844595 / 2 ^ 52)) 56 (5188146770730393) (by norm_num)
    (by rw [ha]; norm_num) (by rw [ha]; norm_num) (by norm_num) (by norm_num)
  rw [h]
  norm_num

theorem double_span_lng : roundToDouble (5764607523034208 / 2 ^ 54 * (5404319552844595 / 2 ^ 52)) = 6917529027641049 / 2 ^ 54 := by
  have ha : |(5764607523034208 / 2 ^ 54 * (5404319552844595 / 2 ^ 52) : ℚ)| = (5764607523034208 / 2 ^ 54 * (5404319552844595 / 2 ^ 52)) := abs_of_pos (by norm_num)
  have h := roundToDouble_near (5764607523034208 / 2 ^ 54 * (5404319552844595 / 2 ^ 52)) 54 (6917529027641049) (by norm_num)
    (by rw [ha]; norm_num) (by rw [ha]; norm_num) (by norm_num) (by norm_num)
  rw [h]
  norm_num

/-! ### The camera request in the arithmetic of the engine -/

/-- What `centerMapOnEvents64` does when there are filtered events: with the
map attached it asks for one region, computed from the extreme coordinates
with rounded operations; without it nothing happens. -/
theorem centerMapOnEvents64_eq (w : World) (hne : w.filteredEvents ≠ []) :
    ∃ minLat maxLat minLng maxLng : ℚ,
      IsLeast {x | ∃ e ∈ w.filteredEvents, e.latitude = x} minLat ∧
      IsGreatest {x | ∃ e ∈ w.filteredEvents, e.latitude = x} maxLat ∧
      IsLeast {x | ∃ e ∈ w.filteredEvents, e.longitude = x} minLng ∧
      IsGreatest {x | ∃ e ∈ w.filteredEvents, e.longitude = x} maxLng ∧
      centerMapOnEvents64 w =
        { w with log := w.log ++
            (if w.mapRef then
              [(w.now, Effect.animateToRegion
                { latitude := roundToDouble (roundToDouble (minLat + maxLat) / 2)
                  longitude := roundToDouble (roundToDouble (minLng + maxLng) / 2)
                  latitudeDelta :=
                    max (roundToDouble (roundToDouble (12 / 10) * roundToDouble (maxLat - minLat)))
                      (roundToDouble (2 / 100))
                  longitudeDelta :=
                    max (roundToDouble (roundToDouble (12 / 10) * roundToDouble (maxLng - minLng)))
                      (roundToDouble (2 / 100)) } 1000)]
             else []) } := by
  rcases hfe : w.filteredEvents with _ | ⟨first, rest⟩
  · exact absurd hfe hne
  · obtain ⟨h1, h2, h3, h4⟩ := eventBounds_spec first rest
    refine ⟨_, _, _, _, h1, h2, h3, h4, ?_⟩
    by_cases hmap : w.mapRef = true
    · simp only [centerMapOnEvents64, hfe, hmap, Bool.not_true, Bool.false_eq_true, if_false,
        if_true, animateToRegion]
      have e1 : roundToDouble (1 + roundToDouble (2 / 10)) = roundToDouble (12 / 10) := by
        rw [double_padding, double_one_add_padding, double_12]
      have e2 : ∀ x : ℚ, x * roundToDouble (12 / 10) = roundToDouble (12 / 10) * x :=
        fun x => mul_comm _ _
      simp only [e1, e2]
    · have hmap2 : w.mapRef = false := by simpa using hmap
      simp only [centerMapOnEvents64, hfe, hmap2, Bool.not_false, if_true, Bool.false_eq_true,
        if_false, List.append_nil]
      cases w
      simp only at hfe hmap2
      subst hfe hmap2
      rfl

/-- The extreme coordinates of `lisbonEvents64`. -/
theorem eventBounds_lisbon64 :
    eventBounds ⟨"e1", "Cascais", roundToDouble (3872 / 100), roundToDouble (-945 / 100)⟩
      lisbonEvents64 =
    { minLat := 5446540799351194 / 2 ^ 47, maxLat := 5454985048652513 / 2 ^ 47
      minLng := -5319877059831398 / 2 ^ 49, maxLng := -5139733074736579 / 2 ^ 49 } := by
  simp only [lisbonEvents64, eventBounds, List.foldl_cons, List.foldl_nil, double_3872,
    double_3876, double_3870, double_neg945, double_neg913, double_neg920]
  norm_num [min_def, max_def]

/-- The example of the specification in the arithmetic of the engine: the
request for latitudes spanning 38.70 to 38.76 and longitudes spanning -9.45
to -9.13.  The numbers are 38.730000000000004, -9.29, 0.0719999999999942
and 0.3839999999999982. -/
theorem centerMapOnEvents64_lisbon_log :
    (centerMapOnEvents64 worldLisbon64).log =
      [(0, Effect.animateToRegion
        { latitude := 5450762924001854 / 2 ^ 47
          longitude := -5229805067283988 / 2 ^ 49
          latitudeDelta := 5188146770730393 / 2 ^ 56
          longitudeDelta := 6917529027641049 / 2 ^ 54 } 1000)] := by
  have hb := eventBounds_lisbon64
  have hmaxLat : max (5188146770730393 / 2 ^ 56 : ℚ) (5764607523034235 / 2 ^ 58) = 5188146770730393 / 2 ^ 56 :=
    max_eq_left (by norm_num)
  have hmaxLng : max (6917529027641049 / 2 ^ 54 : ℚ) (5764607523034235 / 2 ^ 58) = 6917529027641049 / 2 ^ 54 :=
    max_eq_left (by norm_num)
  simp only [lisbonEvents64] at hb
  simp only [centerMapOnEvents64, worldLisbon64, World.initial, lisbonEvents64, hb,
    Bool.not_true, Bool.false_eq_true, if_false, animateToRegion, List.nil_append,
    double_padding, double_one_add_padding, double_002, double_sum_lat, double_half_lat,
    double_sum_lng, double_half_lng, double_diff_lat, double_diff_lng, double_span_lat,
    double_span_lng, hmaxLat, hmaxLng]

/-- The extreme coordinates of the events of `worldLisbon64` are the binary64
numbers of 38.70, 38.76, -9.45 and -9.13. -/
theorem extremes_lisbon64 :
    IsLeast {x | ∃ e ∈ worldLisbon64.filteredEvents, e.latitude = x}
      (roundToDouble (3870 / 100)) ∧
    IsGreatest {x | ∃ e ∈ worldLisbon64.filteredEvents, e.latitude = x}
      (roundToDouble (3876 / 100)) ∧
    IsLeast {x | ∃ e ∈ worldLisbon64.filteredEvents, e.longitude = x}
      (roundToDouble (-945 / 100)) ∧
    IsGreatest {x | ∃ e ∈ worldLisbon64.filteredEvents, e.longitude = x}
      (roundToDouble (-913 / 100)) := by
  have h := eventBounds_spec
    ⟨"e1", "Cascais", roundToDouble (3872 / 100), roundToDouble (-945 / 100)⟩
    [⟨"e2", "Parque das Nações", roundToDouble (3876 / 100), roundToDouble (-913 / 100)⟩,
     ⟨"e3", "Belém", roundToDouble (3870 / 100), roundToDouble (-920 / 100)⟩]
  have hb := eventBounds_lisbon64
  simp only [lisbonEvents64] at hb
  rw [hb] at h
  have hw : worldLisbon64.filteredEvents =
      [⟨"e1", "Cascais", roundToDouble (3872 / 100), roundToDouble (-945 / 100)⟩,
       ⟨"e2", "Parque das Nações", roundToDouble (3876 / 100), roundToDouble (-913 / 100)⟩,
       ⟨"e3", "Belém", roundToDouble (3870 / 100), roundToDouble (-920 / 100)⟩] := rfl
  simp only at h
  rw [← double_3870, ← double_3876, ← double_neg945, ← double_neg913] at h
  rw [hw]
  exact h

/-- C2, counterexample: for the events of the example, whose latitudes span
38.70 to 38.76 and whose longitudes span -9.45 to -9.13, the centre that
`centerMapOnEvents` asks for is not (38.73, -9.29).  The sum 38.70 + 38.76 is
rounded, and the latitude of the centre is 38.730000000000004, the binary64
number next above that of 38.73; the longitude is that of -9.29. -/
theorem centerMapOnEvents64_centre_off :
    ∃ region : Region,
      (centerMapOnEvents64 worldLisbon64).log = [(0, Effect.animateToRegion region 1000)] ∧
      IsLeast {x | ∃ e ∈ worldLisbon64.filteredEvents, e.latitude = x}
        (roundToDouble (3870 / 100)) ∧
      IsGreatest {x | ∃ e ∈ worldLisbon64.filteredEvents, e.latitude = x}
        (roundToDouble (3876 / 100)) ∧
      IsLeast {x | ∃ e ∈ worldLisbon64.filteredEvents, e.longitude = x}
        (roundToDouble (-945 / 100)) ∧
      IsGreatest {x | ∃ e ∈ worldLisbon64.filteredEvents, e.longitude = x}
        (roundToDouble (-913 / 100)) ∧
      region.latitude ≠ roundToDouble (3873 / 100) ∧
      region.latitude ≠ 3873 / 100 ∧
      region.latitude = roundToDouble (3873 / 100) + 1 / 2 ^ 47 ∧
      region.longitude = roundToDouble (-929 / 100) := by
  obtain ⟨h1, h2, h3, h4⟩ := extremes_lisbon64
  refine ⟨_, centerMapOnEvents64_lisbon_log, h1, h2, h3, h4, ?_, ?_, ?_, ?_⟩
  · rw [double_3873]; norm_num
  · norm_num
  · rw [double_3873]; norm_num
  · rw [double_neg929]

/-- C2, amended: with at least one filtered event, the camera request of
`centerMapOnEvents` (made when the map is attached) is the region centred on
the midpoint of the extreme latitudes and longitudes of the filtered events,
with spans `max (1.2 * (maxLat - minLat)) 0.02` and
`max (1.2 * (maxLng - minLng)) 0.02`, every literal, sum, difference, product
and quotient being rounded to binary64; both spans are at least 0.02.  For
the events of the example the request is centred on
(38.730000000000004, -9.29) with spans 0.0719999999999942 and
0.3839999999999982. -/
theorem centerMapOnEvents64_region (w : World) (hne : w.filteredEvents ≠ []) :
    ∃ (minLat maxLat minLng maxLng : ℚ) (region : Region),
      IsLeast {x | ∃ e ∈ w.filteredEvents, e.latitude = x} minLat ∧
      IsGreatest {x | ∃ e ∈ w.filteredEvents, e.latitude = x} maxLat ∧
      IsLeast {x | ∃ e ∈ w.filteredEvents, e.longitude = x} minLng ∧
      IsGreatest {x | ∃ e ∈ w.filteredEvents, e.longitude = x} maxLng ∧
      centerMapOnEvents64 w =
        { w with log := w.log ++
            (if w.mapRef then [(w.now, Effect.animateToRegion region 1000)] else []) } ∧
      region.latitude = roundToDouble (roundToDouble (minLat + maxLat) / 2) ∧
      region.longitude = roundToDouble (roundToDouble (minLng + maxLng) / 2) ∧
      region.latitudeDelta =
        max (roundToDouble (roundToDouble (12 / 10) * roundToDouble (maxLat - minLat)))
          (roundToDouble (2 / 100)) ∧
      region.longitudeDelta =
        max (roundToDouble (roundToDouble (12 / 10) * roundToDouble (maxLng - minLng)))
          (roundToDouble (2 / 100)) ∧
      roundToDouble (2 / 100) ≤ region.latitudeDelta ∧
      roundToDouble (2 / 100) ≤ region.longitudeDelta ∧
      2 / 100 ≤ region.latitudeDelta ∧ 2 / 100 ≤ region.longitudeDelta ∧
      (centerMapOnEvents64 worldLisbon64).log =
        [(0, Effect.animateToRegion
          { latitude := 5450762924001854 / 2 ^ 47
            longitude := -5229805067283988 / 2 ^ 49
            latitudeDelta := 5188146770730393 / 2 ^ 56
            longitudeDelta := 6917529027641049 / 2 ^ 54 } 1000)] := by
  obtain ⟨minLat, maxLat, minLng, maxLng, h1, h2, h3, h4, h5⟩ := centerMapOnEvents64_eq w hne
  have h002 : (2 : ℚ) / 100 ≤ roundToDouble (2 / 100) := by
    rw [double_002]; norm_num
  exact ⟨minLat, maxLat, minLng, maxLng, _, h1, h2, h3, h4, h5, rfl, rfl, rfl, rfl,
    le_max_right _ _, le_max_right _ _, le_trans h002 (le_max_right _ _),
    le_trans h002 (le_max_right _ _), centerMapOnEvents64_lisbon_log⟩

/-- C2, amended, instance: the screen showing `lisbonEvents64`. -/
theorem centerMapOnEvents64_region_witness :
    ∃ (minLat maxLat minLng maxLng : ℚ) (region : Region),
      IsLeast {x | ∃ e ∈ worldLisbon64.filteredEvents, e.latitude = x} minLat ∧
      IsGreatest {x | ∃ e ∈ worldLisbon64.filteredEvents, e.latitude = x} maxLat ∧
      IsLeast {x | ∃ e ∈ worldLisbon64.filteredEvents, e.longitude = x} minLng ∧
      IsGreatest {x | ∃ e ∈ worldLisbon64.filteredEvents, e.longitude = x} maxLng ∧
      centerMapOnEvents64 worldLisbon64 =
        { worldLisbon64 with log := worldLisbon64.log ++
            (if worldLisbon64.mapRef then [(worldLisbon64.now, Effect.animateToRegion region 1000)] else []) } ∧
      region.latitude = roundToDouble (roundToDouble (minLat + maxLat) / 2) ∧
      region.longitude = roundToDouble (roundToDouble (minLng + maxLng) / 2) ∧
      region.latitudeDelta =
        max (roundToDouble (roundToDouble (12 / 10) * roundToDouble (maxLat - minLat)))
          (roundToDouble (2 / 100)) ∧
      region.longitudeDelta =
        max (roundToDouble (roundToDouble (12 / 10) * roundToDouble (maxLng - minLng)))
          (roundToDouble (2 / 100)) ∧
      roundToDouble (2 / 100) ≤ region.latitudeDelta ∧
      roundToDouble (2 / 100) ≤ region.longitudeDelta ∧
      2 / 100 ≤ region.latitudeDelta ∧ 2 / 100 ≤ region.longitudeDelta ∧
      (centerMapOnEvents64 worldLisbon64).log =
        [(0, Effect.animateToRegion
          { latitude := 5450762924001854 / 2 ^ 47
            longitude := -5229805067283988 / 2 ^ 49
            latitudeDelta := 5188146770730393 / 2 ^ 56
            longitudeDelta := 6917529027641049 / 2 ^ 54 } 1000)] :=
  centerMapOnEvents64_region worldLisbon64
    (by simp [worldLisbon64, World.initial, lisbonEvents64])

/-! ## Reachable worlds -/

theorem Inv_initial (android : Bool) (width height : ℚ) (now : Int)
    (filteredEvents : List Event) (mapRegion : Option Region) (mapRef : Bool) :
    Inv (World.initial android width height now filteredEvents mapRegion mapRef) where
  committed := rfl
  fresh := Or.inl rfl
  timer_render := by intro t ht; simp [World.initial] at ht
  timer_id := by intro t ht; simp [World.initial] at ht
  pending := by intro c hc; simp [World.initial] at hc

theorem Inv.toPreInv {w : World} (h : Inv w) : PreInv w where
  fresh := Or.inr h.fresh
  timer_render := fun t ht => Or.inl (h.timer_render t ht)
  timer_id := h.timer_id
  pending := h.pending

/-- Committing re-establishes the invariant. -/
theorem PreInv.commit_inv {w : World} (h : PreInv w) : Inv (commit w) := by
  unfold MapScreen.commit
  by_cases hr : w.needsRender = true
  · rw [if_pos hr]
    refine ⟨rfl, Or.inl ?_, ?_, h.timer_id, h.pending⟩
    · simp [rerender]
    · intro t ht
      rcases h.timer_render t ht with h1 | h1
      · exact Nat.lt_succ_of_lt h1
      · simp only [rerender]; omega
  · rw [if_neg hr]
    have hr2 : w.needsRender = false := by simpa using hr
    refine ⟨hr2, ?_, ?_, h.timer_id, h.pending⟩
    · rcases h.fresh with h1 | h1
      · exact absurd h1 hr
      · exact h1
    · intro t ht
      rcases h.timer_render t ht with h1 | h1
      · exact h1
      · exact absurd h1.2 hr

/-! ### What `showClusterEvents` and `cancelPending` leave alone -/

@[simp] theorem showClusterEvents_timers (w : World) (k : Nat) (l : List Event) :
    (showClusterEvents w k l).timers = w.timers := by
  by_cases h1 : w.now - w.lastClusterPopupTime k < 500 <;> by_cases h2 : l.length = 1 <;>
    simp [showClusterEvents, h1, h2, setSelectedEvent, alert]

@[simp] theorem showClusterEvents_timerCount (w : World) (k : Nat) (l : List Event) :
    (showClusterEvents w k l).timerCount = w.timerCount := by
  by_cases h1 : w.now - w.lastClusterPopupTime k < 500 <;> by_cases h2 : l.length = 1 <;>
    simp [showClusterEvents, h1, h2, setSelectedEvent, alert]

@[simp] theorem showClusterEvents_render (w : World) (k : Nat) (l : List Event) :
    (showClusterEvents w k l).render = w.render := by
  by_cases h1 : w.now - w.lastClusterPopupTime k < 500 <;> by_cases h2 : l.length = 1 <;>
    simp [showClusterEvents, h1, h2, setSelectedEvent, alert]

@[simp] theorem showClusterEvents_now (w : World) (k : Nat) (l : List Event) :
    (showClusterEvents w k l).now = w.now := by
  by_cases h1 : w.now - w.lastClusterPopupTime k < 500 <;> by_cases h2 : l.length = 1 <;>
    simp [showClusterEvents, h1, h2, setSelectedEvent, alert]

@[simp] theorem showClusterEvents_mapRegion (w : World) (k : Nat) (l : List Event) :
    (showClusterEvents w k l).mapRegion = w.mapRegion := by
  by_cases h1 : w.now - w.lastClusterPopupTime k < 500 <;> by_cases h2 : l.length = 1 <;>
    simp [showClusterEvents, h1, h2, setSelectedEvent, alert]

@[simp] theorem showClusterEvents_lastClusterClick (w : World) (k : Nat) (l : List Event) :
    (showClusterEvents w k l).lastClusterClick = w.lastClusterClick := by
  by_cases h1 : w.now - w.lastClusterPopupTime k < 500 <;> by_cases h2 : l.length = 1 <;>
    simp [showClusterEvents, h1, h2, setSelectedEvent, alert]

@[simp] theorem showClusterEvents_clusterClickTimeout (w : World) (k : Nat) (l : List Event) :
    (showClusterEvents w k l).clusterClickTimeout = w.clusterClickTimeout := by
  by_cases h1 : w.now - w.lastClusterPopupTime k < 500 <;> by_cases h2 : l.length = 1 <;>
    simp [showClusterEvents, h1, h2, setSelectedEvent, alert]

theorem showClusterEvents_needsRender (w : World) (k : Nat) (l : List Event)
    (h : w.needsRender = true) : (showClusterEvents w k l).needsRender = true := by
  by_cases h1 : w.now - w.lastClusterPopupTime k < 500 <;> by_cases h2 : l.length = 1 <;>
    simp [showClusterEvents, h1, h2, setSelectedEvent, alert, h]

/-- The variable of another render is not touched. -/
theorem showClusterEvents_other (w : World) (k j : Nat) (l : List Event) (h : j ≠ k) :
    (showClusterEvents w k l).lastClusterPopupTime j = w.lastClusterPopupTime j := by
  by_cases h1 : w.now - w.lastClusterPopupTime k < 500 <;> by_cases h2 : l.length = 1 <;>
    simp [showClusterEvents, h1, h2, setSelectedEvent, alert, Function.update, h]

/-- With a member list that is not a singleton, only the log and the
variable of render `k` can change. -/
theorem showClusterEvents_needsRender_eq (w : World) (k : Nat) (l : List Event)
    (h : l.length ≠ 1) : (showClusterEvents w k l).needsRender = w.needsRender := by
  by_cases h1 : w.now - w.lastClusterPopupTime k < 500 <;>
    simp [showClusterEvents, h1, h, alert]

@[simp] theorem cancelPending_lastClusterClick (w : World) :
    (cancelPending w).lastClusterClick = w.lastClusterClick := by
  unfold cancelPending; split <;> [split_ifs; skip] <;> simp [setClusterClickTimeout, clearTimeout]

@[simp] theorem cancelPending_mapRegion (w : World) :
    (cancelPending w).mapRegion = w.mapRegion := by
  unfold cancelPending; split <;> [split_ifs; skip] <;> simp [setClusterClickTimeout, clearTimeout]

@[simp] theorem cancelPending_render (w : World) :
    (cancelPending w).render = w.render := by
  unfold cancelPending; split <;> [split_ifs; skip] <;> simp [setClusterClickTimeout, clearTimeout]

@[simp] theorem cancelPending_now (w : World) :
    (cancelPending w).now = w.now := by
  unfold cancelPending; split <;> [split_ifs; skip] <;> simp [setClusterClickTimeout, clearTimeout]

@[simp] theorem cancelPending_log (w : World) :
    (cancelPending w).log = w.log := by
  unfold cancelPending; split <;> [split_ifs; skip] <;> simp [setClusterClickTimeout, clearTimeout]

@[simp] theorem cancelPending_timerCount (w : World) :
    (cancelPending w).timerCount = w.timerCount := by
  unfold cancelPending; split <;> [split_ifs; skip] <;> simp [setClusterClickTimeout, clearTimeout]

@[simp] theorem cancelPending_lastClusterPopupTime (w : World) :
    (cancelPending w).lastClusterPopupTime = w.lastClusterPopupTime := by
  unfold cancelPending; split <;> [split_ifs; skip] <;> simp [setClusterClickTimeout, clearTimeout]

theorem cancelPending_timers_subset (w : World) :
    ∀ t ∈ (cancelPending w).timers, t ∈ w.timers := by
  intro t
  unfold cancelPending; split <;> [split_ifs; skip] <;>
    simp [setClusterClickTimeout, clearTimeout]
  intro h _; exact h

theorem cancelPending_needsRender (w : World) (h : w.needsRender = true) :
    (cancelPending w).needsRender = true := by
  unfold cancelPending; split <;> [split_ifs; skip] <;>
    simp [setClusterClickTimeout, clearTimeout, h]

/-! ### Every input keeps the invariant -/

theorem Inv.setNow {w : World} (h : Inv w) (t : Int) : Inv { w with now := t } :=
  ⟨h.committed, h.fresh, h.timer_render, h.timer_id, h.pending⟩

/-- A handler that only selects, logs or asks for a render keeps the facts. -/
theorem PreInv.frame {v v' : World} (h : PreInv v)
    (h1 : v'.render = v.render)
    (h2 : v'.lastClusterPopupTime = v.lastClusterPopupTime)
    (h3 : v'.lastClusterClick = v.lastClusterClick)
    (h4 : v'.needsRender = true ∨ v'.mapRegion = v.mapRegion)
    (h5 : v'.timers = v.timers)
    (h6 : v'.timerCount = v.timerCount)
    (h7 : v'.clusterClickTimeout = v.clusterClickTimeout)
    (h8 : v.needsRender = true → v'.needsRender = true) : PreInv v' where
  fresh := by
    rcases h4 with h4 | h4
    · exact Or.inl h4
    · rcases h.fresh with a | a | a
      · exact Or.inl (h8 a)
      · right; left; rw [h1, h2]; exact a
      · right; right
        refine ⟨by rw [h3]; exact a.1, ?_⟩
        obtain ⟨r, hr, hz⟩ := a.2
        exact ⟨r, by rw [h4]; exact hr, hz⟩
  timer_render := by
    intro t ht
    rw [h5] at ht
    rcases h.timer_render t ht with a | a
    · left; rw [h1]; exact a
    · right; exact ⟨by rw [h1]; exact a.1, h8 a.2⟩
  timer_id := by
    intro t ht
    rw [h5] at ht
    rw [h6]
    exact h.timer_id t ht
  pending := by
    intro c hc
    rw [h3] at hc
    obtain ⟨t, ht, a, b⟩ := h.pending c hc
    exact ⟨t, by rw [h5]; exact ht, by rw [h7]; exact a, b⟩

theorem PreInv.setSelectedEvent {v : World} (h : PreInv v) (x : Option Event) :
    PreInv (setSelectedEvent v x) :=
  h.frame rfl rfl rfl (Or.inr rfl) rfl rfl rfl
    (fun a => by simp [MapScreen.setSelectedEvent, a])

theorem PreInv.animateToRegion {v : World} (h : PreInv v) (r : Region) (d : Nat) :
    PreInv (animateToRegion v r d) :=
  h.frame rfl rfl rfl (Or.inr rfl) rfl rfl rfl (fun a => a)

theorem PreInv.onMarkerPress {v : World} (h : PreInv v) (e : Event) :
    PreInv (onMarkerPress v e) := by
  unfold MapScreen.onMarkerPress
  simp only
  split_ifs
  · exact (h.setSelectedEvent _).animateToRegion _ _
  · exact h.setSelectedEvent _

theorem PreInv.centerMapOnEvents {v : World} (h : PreInv v) :
    PreInv (centerMapOnEvents v) := by
  unfold MapScreen.centerMapOnEvents
  split
  · exact h
  · split_ifs
    · exact h
    · exact h.animateToRegion _ _

theorem PreInv.onDialogPress {v : World} (h : PreInv v) (a : OnPress) :
    PreInv (onDialogPress v a) := by
  unfold MapScreen.onDialogPress
  split
  · exact h.setSelectedEvent _
  · exact h

theorem PreInv.rerender {v : World} (h : PreInv v) : PreInv (rerender v) where
  fresh := by right; left; simp [MapScreen.rerender]
  timer_render := by
    intro t ht
    left
    rcases h.timer_render t ht with a | a
    · exact Nat.lt_succ_of_lt a
    · simp only [MapScreen.rerender]; omega
  timer_id := h.timer_id
  pending := h.pending

theorem PreInv.showClusterEvents_old {v : World} (h : PreInv v) (k : Nat) (l : List Event)
    (hk : k ≠ v.render) : PreInv (showClusterEvents v k l) where
  fresh := by
    rcases h.fresh with a | a | a
    · exact Or.inl (showClusterEvents_needsRender v k l a)
    · right; left
      rw [showClusterEvents_render, showClusterEvents_other v k _ l (Ne.symm hk)]
      exact a
    · right; right
      refine ⟨by simpa using a.1, ?_⟩
      obtain ⟨r, hr, hz⟩ := a.2
      exact ⟨r, by simpa using hr, hz⟩
  timer_render := by
    intro t ht
    rw [showClusterEvents_timers] at ht
    rw [showClusterEvents_render]
    rcases h.timer_render t ht with a | a
    · exact Or.inl a
    · exact Or.inr ⟨a.1, showClusterEvents_needsRender v k l a.2⟩
  timer_id := by
    intro t ht
    rw [showClusterEvents_timers] at ht
    rw [showClusterEvents_timerCount]
    exact h.timer_id t ht
  pending := by
    intro c hc
    rw [showClusterEvents_lastClusterClick] at hc
    obtain ⟨t, ht, a, b⟩ := h.pending c hc
    exact ⟨t, by simpa using ht, by simpa using a, b⟩

theorem Inv.onTimeout {v v' : World} (h : Inv v) (id : Nat)
    (hv : onTimeout v id = some v') : PreInv v' := by
  unfold MapScreen.onTimeout at hv
  rcases hfind : v.timers.find? (fun t => t.id == id) with _ | u
  · rw [hfind] at hv; simp at hv
  · rw [hfind] at hv
    simp only at hv
    by_cases hdue : v.now < u.fireAt
    · rw [if_pos hdue] at hv; simp at hv
    · rw [if_neg hdue] at hv
      have hu : u ∈ v.timers := List.mem_of_find?_eq_some hfind
      have hur : u.render ≠ v.render := Nat.ne_of_lt (h.timer_render u hu)
      injection hv with hv
      subst hv
      refine ⟨?_, ?_, ?_, ?_⟩
      · rcases h.fresh with a | a
        · right; left
          simp only [setLastClusterClick, showClusterEvents_render]
          rw [showClusterEvents_other _ _ _ _ (Ne.symm hur)]
          exact a
        · right; right
          refine ⟨rfl, ?_⟩
          obtain ⟨r, hr, hz⟩ := a.2
          exact ⟨r, by simpa [setLastClusterClick] using hr, hz⟩
      · intro t ht
        simp only [setLastClusterClick, showClusterEvents_timers, List.mem_filter] at ht
        left
        simpa [setLastClusterClick] using h.timer_render t ht.1
      · intro t ht
        simp only [setLastClusterClick, showClusterEvents_timers, List.mem_filter] at ht
        simpa [setLastClusterClick] using h.timer_id t ht.1
      · intro c hc
        simp [setLastClusterClick] at hc

theorem isDoubleClick_of_idle (w : World) (id : Nat) (h : w.lastClusterClick = none) :
    isDoubleClick w id = false := by
  simp [isDoubleClick, h]

theorem Inv.onClusterPress {v v' : World} (h : Inv v) (cluster : Cluster)
    (hv : onClusterPress v cluster = some v') : PreInv v' := by
  rcases hregion : v.mapRegion with _ | mapRegion
  · simp [MapScreen.onClusterPress, hregion] at hv
  · by_cases hN : cluster.leaves.length = 1
    · obtain ⟨e, he⟩ := List.length_eq_one.mp hN
      obtain ⟨coords, cid, leaves⟩ := cluster
      simp only at he
      subst he
      simp only [MapScreen.onClusterPress, hregion, Option.some.injEq] at hv
      subst hv
      exact h.toPreInv.onMarkerPress e
    · by_cases hb : (isDoubleClick v cluster.cluster_id ||
          (zoomLevel mapRegion.longitudeDelta).ge 15) = true
      · rw [onClusterPress_reveal v cluster mapRegion hregion hN hb] at hv
        injection hv with hv
        subst hv
        refine ⟨?_, ?_, ?_, ?_⟩
        · rcases hl : v.lastClusterClick with _ | c
          · right; right
            refine ⟨rfl, mapRegion, by simpa [setLastClusterClick] using hregion, ?_⟩
            have hd := isDoubleClick_of_idle v cluster.cluster_id hl
            rw [hd] at hb
            simpa using hb
          · left
            simp [setLastClusterClick, hl]
        · intro t ht
          simp only [setLastClusterClick, showClusterEvents_timers] at ht
          left
          simpa [setLastClusterClick] using h.timer_render t (cancelPending_timers_subset v t ht)
        · intro t ht
          simp only [setLastClusterClick, showClusterEvents_timers] at ht
          simpa [setLastClusterClick] using h.timer_id t (cancelPending_timers_subset v t ht)
        · intro c hc
          simp [setLastClusterClick] at hc
      · have hb2 : isDoubleClick v cluster.cluster_id = false ∧
            (zoomLevel mapRegion.longitudeDelta).ge 15 = false := by
          simpa using hb
        rw [onClusterPress_first v cluster mapRegion hregion hN hb2.1 hb2.2] at hv
        injection hv with hv
        subst hv
        refine ⟨Or.inl rfl, ?_, ?_, ?_⟩
        · intro t ht
          simp only [List.mem_append, List.mem_singleton] at ht
          rcases ht with ht | ht
          · exact Or.inl (h.timer_render t ht)
          · subst ht; exact Or.inr ⟨rfl, rfl⟩
        · intro t ht
          simp only [List.mem_append, List.mem_singleton] at ht
          rcases ht with ht | ht
          · have := h.timer_id t ht
            exact ⟨this.1, Nat.le_succ_of_le this.2⟩
          · subst ht; exact ⟨Nat.le_add_left _ _, le_refl _⟩
        · intro c hc
          simp only [Option.some.injEq] at hc
          subst hc
          exact ⟨_, List.mem_append_right _ (List.mem_singleton_self _), rfl, rfl⟩

/-- One input keeps the invariant. -/
theorem Inv.step {w w' : World} (h : Inv w) (t : Int) (i : Input)
    (hs : step w t i = some w') : Inv w' := by
  unfold MapScreen.step at hs
  by_cases ht : t < w.now
  · rw [if_pos ht] at hs; simp at hs
  · rw [if_neg ht] at hs
    rcases hh : handle { w with now := t } i with _ | v
    · rw [hh] at hs; simp at hs
    · rw [hh] at hs
      simp only [Option.map_some', Option.some.injEq] at hs
      subst hs
      apply PreInv.commit_inv
      have h0 := h.setNow t
      cases i with
      | clusterPress cluster => exact h0.onClusterPress cluster hh
      | markerPress event =>
        simp only [handle, Option.some.injEq] at hh
        subst hh; exact h0.toPreInv.onMarkerPress event
      | timeout id => exact h0.onTimeout id hh
      | regionChangeComplete region =>
        simp only [handle, Option.some.injEq] at hh
        subst hh
        exact h0.toPreInv.frame rfl rfl rfl (Or.inl rfl) rfl rfl rfl (fun _ => rfl)
      | centerPress =>
        simp only [handle, Option.some.injEq] at hh
        subst hh; exact h0.toPreInv.centerMapOnEvents
      | dialogPress action =>
        simp only [handle, Option.some.injEq] at hh
        subst hh; exact h0.toPreInv.onDialogPress action
      | closeCard =>
        simp only [handle, Option.some.injEq] at hh
        subst hh; exact h0.toPreInv.setSelectedEvent none
      | filtersApplied filtered =>
        simp only [handle, Option.some.injEq] at hh
        subst hh
        exact h0.toPreInv.frame rfl rfl rfl (Or.inl rfl) rfl rfl rfl (fun _ => rfl)
      | render =>
        simp only [handle, Option.some.injEq] at hh
        subst hh; exact h0.toPreInv.rerender

/-- A run keeps the invariant. -/
theorem Inv.run {w w' : World} (h : Inv w) (inputs : List (Int × Input))
    (hr : run w inputs = some w') : Inv w' := by
  induction inputs generalizing w with
  | nil =>
    simp only [MapScreen.run, Option.some.injEq] at hr
    subst hr; exact h
  | cons x rest ih =>
    obtain ⟨t, i⟩ := x
    simp only [MapScreen.run] at hr
    rcases hs : MapScreen.step w t i with _ | w1
    · rw [hs] at hr; simp at hr
    · rw [hs] at hr
      exact ih (h.step t i hs) hr

/-- Every reachable world satisfies the invariant. -/
theorem Reachable.inv {w : World} (h : Reachable w) : Inv w := by
  obtain ⟨android, width, height, now, fe, mr, mref, inputs, hr⟩ := h
  exact (Inv_initial android width height now fe mr mref).run inputs hr

/-! ### The dialog of `showClusterEvents` -/

/-- A call that the guard lets through, with a list that is not a singleton:
the variable of render `k` is set and the dialog is shown. -/
theorem showClusterEvents_shown (w : World) (k : Nat) (l : List Event)
    (hguard : ¬ (w.now - w.lastClusterPopupTime k < 500)) (hl : l.length ≠ 1) :
    showClusterEvents w k l =
      { w with
        lastClusterPopupTime := Function.update w.lastClusterPopupTime k w.now
        log := w.log ++ [membersDialog w.now l] } := by
  simp only [showClusterEvents, if_neg hguard, if_neg hl, alert, membersDialog, membersButtons]
  by_cases h5 : 5 < l.length
  · simp [h5, List.map_append, Function.comp_def]
  · simp [h5, Function.comp_def]

/-- A call that the guard suppresses changes nothing. -/
theorem showClusterEvents_suppressed (w : World) (k : Nat) (l : List Event)
    (hguard : w.now - w.lastClusterPopupTime k < 500) :
    showClusterEvents w k l = w := by
  simp only [showClusterEvents, if_pos hguard]

theorem membersButtons_selectedBy (l : List Event) :
    (membersButtons l).filterMap selectedBy = l.take 5 := by
  have hsel : ∀ l : List Event,
      (l.map (fun e => (⟨buttonText e.title, OnPress.setSelectedEvent e⟩ : Button))).filterMap
        selectedBy = l := by
    intro l
    induction l with
    | nil => rfl
    | cons a l ih => simp [selectedBy, List.filterMap_cons] at ih ⊢; exact ih
  unfold membersButtons
  by_cases h5 : 5 < l.length
  · simp only [if_pos h5, List.filterMap_cons, List.filterMap_append, hsel, selectedBy]
    simp
  · simp only [if_neg h5, List.filterMap_cons, List.filterMap_append, hsel, selectedBy]
    simp

@[simp] theorem isMembersDialog_membersDialog (now : Int) (l : List Event) :
    isMembersDialog (membersDialog now l) = true := by
  simp [isMembersDialog, membersDialog]

@[simp] theorem isMembersDialog_animateToRegion (now : Int) (r : Region) (d : Nat) :
    isMembersDialog (now, Effect.animateToRegion r d) = false := rfl

theorem run_cons (w : World) (t : Int) (i : Input) (rest : List (Int × Input)) :
    run w ((t, i) :: rest) = (step w t i).bind (fun w1 => run w1 rest) := rfl

theorem run_nil (w : World) : run w [] = some w := rfl

/-! ### What committing leaves alone -/

@[simp] theorem commit_timers (w : World) : (commit w).timers = w.timers := by
  unfold commit; split_ifs <;> rfl

@[simp] theorem commit_timerCount (w : World) : (commit w).timerCount = w.timerCount := by
  unfold commit; split_ifs <;> rfl

@[simp] theorem commit_log (w : World) : (commit w).log = w.log := by
  unfold commit; split_ifs <;> rfl

@[simp] theorem commit_lastClusterClick (w : World) :
    (commit w).lastClusterClick = w.lastClusterClick := by
  unfold commit; split_ifs <;> rfl

@[simp] theorem commit_clusterClickTimeout (w : World) :
    (commit w).clusterClickTimeout = w.clusterClickTimeout := by
  unfold commit; split_ifs <;> rfl

@[simp] theorem commit_mapRegion (w : World) : (commit w).mapRegion = w.mapRegion := by
  unfold commit; split_ifs <;> rfl

@[simp] theorem commit_selectedEvent (w : World) :
    (commit w).selectedEvent = w.selectedEvent := by
  unfold commit; split_ifs <;> rfl

@[simp] theorem commit_now (w : World) : (commit w).now = w.now := by
  unfold commit; split_ifs <;> rfl

/-! ### Timer ids are not handed out twice -/

theorem TimersGrow.refl_of_eq {v v' : World} (h1 : v'.timers = v.timers)
    (h2 : v'.timerCount = v.timerCount) : TimersGrow v v' :=
  ⟨by rw [h2], fun u hu => Or.inl (by rw [h1] at hu; exact hu)⟩

@[simp] theorem onMarkerPress_timers (w : World) (e : Event) :
    (onMarkerPress w e).timers = w.timers := by
  unfold onMarkerPress; simp only; split_ifs <;> rfl

@[simp] theorem onMarkerPress_timerCount (w : World) (e : Event) :
    (onMarkerPress w e).timerCount = w.timerCount := by
  unfold onMarkerPress; simp only; split_ifs <;> rfl

@[simp] theorem onMarkerPress_lastClusterClick (w : World) (e : Event) :
    (onMarkerPress w e).lastClusterClick = w.lastClusterClick := by
  unfold onMarkerPress; simp only; split_ifs <;> rfl

@[simp] theorem onMarkerPress_render (w : World) (e : Event) :
    (onMarkerPress w e).render = w.render := by
  unfold onMarkerPress; simp only; split_ifs <;> rfl

@[simp] theorem onMarkerPress_lastClusterPopupTime (w : World) (e : Event) :
    (onMarkerPress w e).lastClusterPopupTime = w.lastClusterPopupTime := by
  unfold onMarkerPress; simp only; split_ifs <;> rfl

theorem onMarkerPress_dialogs (w : World) (e : Event) :
    (onMarkerPress w e).log.filter isMembersDialog = w.log.filter isMembersDialog := by
  unfold onMarkerPress; simp only
  split_ifs <;> simp [animateToRegion, setSelectedEvent, isMembersDialog]

@[simp] theorem centerMapOnEvents_timers (w : World) :
    (centerMapOnEvents w).timers = w.timers := by
  unfold centerMapOnEvents; split <;> [rfl; (split_ifs <;> rfl)]

@[simp] theorem centerMapOnEvents_timerCount (w : World) :
    (centerMapOnEvents w).timerCount = w.timerCount := by
  unfold centerMapOnEvents; split <;> [rfl; (split_ifs <;> rfl)]

@[simp] theorem centerMapOnEvents_lastClusterClick (w : World) :
    (centerMapOnEvents w).lastClusterClick = w.lastClusterClick := by
  unfold centerMapOnEvents; split <;> [rfl; (split_ifs <;> rfl)]

@[simp] theorem centerMapOnEvents_render (w : World) :
    (centerMapOnEvents w).render = w.render := by
  unfold centerMapOnEvents; split <;> [rfl; (split_ifs <;> rfl)]

@[simp] theorem centerMapOnEvents_lastClusterPopupTime (w : World) :
    (centerMapOnEvents w).lastClusterPopupTime = w.lastClusterPopupTime := by
  unfold centerMapOnEvents; split <;> [rfl; (split_ifs <;> rfl)]

theorem centerMapOnEvents_dialogs (w : World) :
    (centerMapOnEvents w).log.filter isMembersDialog = w.log.filter isMembersDialog := by
  unfold centerMapOnEvents
  split
  · rfl
  · split_ifs
    · rfl
    · simp [animateToRegion, isMembersDialog]

@[simp] theorem onDialogPress_timers (w : World) (a : OnPress) :
    (onDialogPress w a).timers = w.timers := by
  unfold onDialogPress; split <;> rfl

@[simp] theorem onDialogPress_timerCount (w : World) (a : OnPress) :
    (onDialogPress w a).timerCount = w.timerCount := by
  unfold onDialogPress; split <;> rfl

@[simp] theorem onDialogPress_lastClusterClick (w : World) (a : OnPress) :
    (onDialogPress w a).lastClusterClick = w.lastClusterClick := by
  unfold onDialogPress; split <;> rfl

@[simp] theorem onDialogPress_render (w : World) (a : OnPress) :
    (onDialogPress w a).render = w.render := by
  unfold onDialogPress; split <;> rfl

@[simp] theorem onDialogPress_lastClusterPopupTime (w : World) (a : OnPress) :
    (onDialogPress w a).lastClusterPopupTime = w.lastClusterPopupTime := by
  unfold onDialogPress; split <;> rfl

@[simp] theorem onDialogPress_log (w : World) (a : OnPress) :
    (onDialogPress w a).log = w.log := by
  unfold onDialogPress; split <;> rfl

/-- The handler of a quiet input always returns, and is a quiet step. -/
theorem handle_quiet (v : World) (i : Input) (hq : i.isQuiet = true) :
    ∃ v', handle v i = some v' ∧ QuietStep v v' := by
  cases i with
  | clusterPress cluster => simp [Input.isQuiet] at hq
  | timeout id => simp [Input.isQuiet] at hq
  | markerPress event =>
    exact ⟨_, rfl, by simp, by simp, by simp, by simp, by simp, onMarkerPress_dialogs v event⟩
  | regionChangeComplete region =>
    exact ⟨_, rfl, rfl, rfl, rfl, le_refl _, fun _ _ => rfl, rfl⟩
  | centerPress =>
    exact ⟨_, rfl, by simp, by simp, by simp, by simp, by simp, centerMapOnEvents_dialogs v⟩
  | dialogPress action =>
    exact ⟨_, rfl, by simp, by simp, by simp, by simp, by simp, by simp⟩
  | closeCard =>
    exact ⟨_, rfl, rfl, rfl, rfl, le_refl _, fun _ _ => rfl, rfl⟩
  | filtersApplied filtered =>
    exact ⟨_, rfl, rfl, rfl, rfl, le_refl _, fun _ _ => rfl, rfl⟩
  | render =>
    refine ⟨_, rfl, rfl, rfl, rfl, Nat.le_succ _, ?_, rfl⟩
    intro k hk
    simp only [rerender]
    rw [Function.update_noteq (by omega)]

theorem QuietStep.commit_quiet {v v' : World} (h : QuietStep v v') : QuietStep v (commit v') := by
  obtain ⟨h1, h2, h3, h4, h5, h6⟩ := h
  refine ⟨by simpa using h1, by simpa using h2, by simpa using h3, ?_, ?_, by simpa using h6⟩
  · unfold MapScreen.commit; split_ifs
    · exact Nat.le_succ_of_le h4
    · exact h4
  · intro k hk
    unfold MapScreen.commit; split_ifs
    · simp only [rerender]
      rw [Function.update_noteq (by omega)]
      exact h5 k hk
    · exact h5 k hk

theorem QuietStep.trans {u v w : World} (h1 : QuietStep u v) (h2 : QuietStep v w) :
    QuietStep u w := by
  obtain ⟨a1, a2, a3, a4, a5, a6⟩ := h1
  obtain ⟨b1, b2, b3, b4, b5, b6⟩ := h2
  refine ⟨by rw [b1, a1], by rw [b2, a2], by rw [b3, a3], le_trans a4 b4, ?_, by rw [b6, a6]⟩
  intro k hk
  rw [b5 k (lt_of_lt_of_le hk a4), a5 k hk]

/-- A quiet input is a quiet step. -/
theorem step_quiet (w w' : World) (t : Int) (i : Input) (hq : i.isQuiet = true)
    (hs : step w t i = some w') : QuietStep w w' ∧ w'.now = t := by
  unfold step at hs
  by_cases ht : t < w.now
  · rw [if_pos ht] at hs; simp at hs
  · rw [if_neg ht] at hs
    obtain ⟨v', hv, hqs⟩ := handle_quiet { w with now := t } i hq
    rw [hv] at hs
    simp only [Option.map_some', Option.some.injEq] at hs
    subst hs
    refine ⟨hqs.commit_quiet, ?_⟩
    rw [commit_now]
    cases i with
    | clusterPress cluster => simp [Input.isQuiet] at hq
    | timeout id => simp [Input.isQuiet] at hq
    | markerPress event =>
      simp only [handle, Option.some.injEq] at hv; subst hv
      unfold onMarkerPress; simp only; split_ifs <;> rfl
    | regionChangeComplete region =>
      simp only [handle, Option.some.injEq] at hv; subst hv; rfl
    | centerPress =>
      simp only [handle, Option.some.injEq] at hv; subst hv
      unfold centerMapOnEvents; split <;> [rfl; (split_ifs <;> rfl)]
    | dialogPress action =>
      simp only [handle, Option.some.injEq] at hv; subst hv
      unfold onDialogPress; split <;> rfl
    | closeCard =>
      simp only [handle, Option.some.injEq] at hv; subst hv; rfl
    | filtersApplied filtered =>
      simp only [handle, Option.some.injEq] at hv; subst hv; rfl
    | render =>
      simp only [handle, Option.some.injEq] at hv; subst hv; rfl

/-- A run of quiet inputs is a quiet step, and the clock does not go back. -/
theorem run_quiet (w w' : World) (inputs : List (Int × Input))
    (hq : ∀ x ∈ inputs, x.2.isQuiet = true) (hr : run w inputs = some w') :
    QuietStep w w' ∧ w.now ≤ w'.now := by
  induction inputs generalizing w with
  | nil =>
    simp only [run, Option.some.injEq] at hr
    subst hr
    exact ⟨⟨rfl, rfl, rfl, le_refl _, fun _ _ => rfl, rfl⟩, le_refl _⟩
  | cons x rest ih =>
    obtain ⟨t, i⟩ := x
    simp only [run] at hr
    rcases hs : step w t i with _ | w1
    · rw [hs] at hr; simp at hr
    · rw [hs] at hr
      have h1 := step_quiet w w1 t i (hq (t, i) (List.mem_cons_self _ _)) hs
      have h2 := ih w1 (fun y hy => hq y (List.mem_cons_of_mem _ hy)) hr
      refine ⟨h1.1.trans h2.1, ?_⟩
      have h3 : w.now ≤ t := by
        unfold step at hs
        by_cases ht : t < w.now
        · rw [if_pos ht] at hs; simp at hs
        · omega
      rw [h1.2] at h2
      omega

theorem onClusterPress_timersGrow (v v' : World) (cluster : Cluster)
    (hv : onClusterPress v cluster = some v') : TimersGrow v v' := by
  rcases hregion : v.mapRegion with _ | mapRegion
  · simp [onClusterPress, hregion] at hv
  · by_cases hN : cluster.leaves.length = 1
    · obtain ⟨e, he⟩ := List.length_eq_one.mp hN
      obtain ⟨coords, cid, leaves⟩ := cluster
      simp only at he
      subst he
      simp only [onClusterPress, hregion, Option.some.injEq] at hv
      subst hv
      exact TimersGrow.refl_of_eq (by simp) (by simp)
    · by_cases hb : (isDoubleClick v cluster.cluster_id ||
          (zoomLevel mapRegion.longitudeDelta).ge 15) = true
      · rw [onClusterPress_reveal v cluster mapRegion hregion hN hb] at hv
        injection hv with hv
        subst hv
        refine ⟨by simp [setLastClusterClick], ?_⟩
        intro u hu
        simp only [setLastClusterClick, showClusterEvents_timers] at hu
        exact Or.inl (cancelPending_timers_subset v u hu)
      · have hb2 : isDoubleClick v cluster.cluster_id = false ∧
            (zoomLevel mapRegion.longitudeDelta).ge 15 = false := by
          simpa using hb
        rw [onClusterPress_first v cluster mapRegion hregion hN hb2.1 hb2.2] at hv
        injection hv with hv
        subst hv
        refine ⟨Nat.le_succ _, ?_⟩
        intro u hu
        simp only [List.mem_append, List.mem_singleton] at hu
        rcases hu with hu | hu
        · exact Or.inl hu
        · subst hu; exact Or.inr (Nat.lt_succ_self _)

theorem onTimeout_timersGrow (v v' : World) (id : Nat)
    (hv : onTimeout v id = some v') : TimersGrow v v' := by
  unfold onTimeout at hv
  rcases hfind : v.timers.find? (fun t => t.id == id) with _ | u
  · rw [hfind] at hv; simp at hv
  · rw [hfind] at hv
    simp only at hv
    by_cases hdue : v.now < u.fireAt
    · rw [if_pos hdue] at hv; simp at hv
    · rw [if_neg hdue] at hv
      injection hv with hv
      subst hv
      refine ⟨by simp [setLastClusterClick], ?_⟩
      intro x hx
      simp only [setLastClusterClick, showClusterEvents_timers, List.mem_filter] at hx
      exact Or.inl hx.1

/-- One input arms at most timers with new ids. -/
theorem step_timersGrow (w w' : World) (t : Int) (i : Input)
    (hs : step w t i = some w') : TimersGrow w w' := by
  by_cases hq : i.isQuiet = true
  · obtain ⟨⟨h1, h2, _⟩, _⟩ := step_quiet w w' t i hq hs
    exact TimersGrow.refl_of_eq h1 h2
  · unfold step at hs
    by_cases ht : t < w.now
    · rw [if_pos ht] at hs; simp at hs
    · rw [if_neg ht] at hs
      rcases hh : handle { w with now := t } i with _ | v
      · rw [hh] at hs; simp at hs
      · rw [hh] at hs
        simp only [Option.map_some', Option.some.injEq] at hs
        subst hs
        have key : TimersGrow { w with now := t } v := by
          cases i with
          | clusterPress cluster => exact onClusterPress_timersGrow _ _ cluster hh
          | timeout id => exact onTimeout_timersGrow _ _ id hh
          | markerPress event => simp [Input.isQuiet] at hq
          | regionChangeComplete region => simp [Input.isQuiet] at hq
          | centerPress => simp [Input.isQuiet] at hq
          | dialogPress action => simp [Input.isQuiet] at hq
          | closeCard => simp [Input.isQuiet] at hq
          | filtersApplied filtered => simp [Input.isQuiet] at hq
          | render => simp [Input.isQuiet] at hq
        exact ⟨by simpa using key.1, fun u hu => key.2 u (by simpa using hu)⟩

/-- A timer id that was handed out and is not armed is never armed again. -/
theorem run_timer_gone (w w' : World) (inputs : List (Int × Input)) (id : Nat)
    (hid : id ≤ w.timerCount) (hgone : ∀ u ∈ w.timers, u.id ≠ id)
    (hr : run w inputs = some w') : ∀ u ∈ w'.timers, u.id ≠ id := by
  induction inputs generalizing w with
  | nil =>
    simp only [run, Option.some.injEq] at hr
    subst hr; exact hgone
  | cons x rest ih =>
    obtain ⟨t, i⟩ := x
    simp only [run] at hr
    rcases hs : step w t i with _ | w1
    · rw [hs] at hr; simp at hr
    · rw [hs] at hr
      obtain ⟨g1, g2⟩ := step_timersGrow w w1 t i hs
      refine ih w1 (le_trans hid g1) ?_ hr
      intro u hu
      rcases g2 u hu with h | h
      · exact hgone u h
      · omega

/-! ### The steps of the tap sequence -/

/-- The step of a first tap, spelled out. -/
theorem step_clusterPress_first (w : World) (cluster : Cluster) (mapRegion : Region) (t : Int)
    (hclock : w.now ≤ t)
    (hregion : w.mapRegion = some mapRegion)
    (hN : cluster.leaves.length ≠ 1)
    (hdouble : isDoubleClick { w with now := t } cluster.cluster_id = false)
    (hzoom : (zoomLevel mapRegion.longitudeDelta).ge 15 = false) :
    ∃ w0, step w t (.clusterPress cluster) = some w0 ∧
      w0.timers = w.timers ++ [⟨w.timerCount + 1, t + 1500, cluster.leaves, w.render⟩] ∧
      w0.timerCount = w.timerCount + 1 ∧
      w0.lastClusterClick = some ⟨cluster.cluster_id, t⟩ ∧
      w0.clusterClickTimeout = some (w.timerCount + 1) ∧
      w0.render = w.render + 1 ∧
      (∀ k, k ≤ w.render → w0.lastClusterPopupTime k = w.lastClusterPopupTime k) ∧
      w0.now = t ∧
      w0.log.filter isMembersDialog = w.log.filter isMembersDialog := by
  have h1 := onClusterPress_first { w with now := t } cluster mapRegion hregion hN hdouble hzoom
  have ht : ¬ t < w.now := by omega
  have hs : step w t (.clusterPress cluster) =
      (onClusterPress { w with now := t } cluster).map commit := by
    simp only [step, if_neg ht, handle]
  rw [h1, Option.map_some'] at hs
  refine ⟨_, hs, ?_⟩
  simp only [commit, if_true]
  refine ⟨rfl, rfl, rfl, rfl, rfl, ?_, rfl, ?_⟩
  · intro k hk
    simp only [rerender]
    rw [Function.update_noteq (by omega)]
  · simp only [rerender]
    by_cases hm : w.mapRef = true <;> by_cases ha : w.android = true <;>
      simp [hm, ha, List.filter_append, isMembersDialog, membersTitle]

/-- The step of the only armed timer, when the guard lets its callback
through: the dialog is shown and the controller is idle. -/
theorem step_timeout_shown (v : World) (timer : Timer) (tf : Int)
    (htimers : v.timers = [timer])
    (hcell : v.lastClusterPopupTime timer.render = 0)
    (hN : timer.clusterEvents.length ≠ 1)
    (hclock : v.now ≤ tf) (hdue : timer.fireAt ≤ tf) (hepoch : 500 ≤ tf) :
    ∃ w2, step v tf (.timeout timer.id) = some w2 ∧
      w2.log = v.log ++ [membersDialog tf timer.clusterEvents] ∧
      w2.lastClusterClick = none ∧
      w2.timers = [] := by
  have ht : ¬ tf < v.now := by omega
  have hd : ¬ tf < timer.fireAt := by omega
  have hguard : ¬ (tf - 0 < 500) := by omega
  have hs : step v tf (.timeout timer.id) =
      some (commit (setLastClusterClick
        (showClusterEvents { v with now := tf, timers := [] } timer.render timer.clusterEvents)
        none)) := by
    simp [step, if_neg ht, handle, onTimeout, htimers, List.find?_cons, if_neg hd]
  refine ⟨_, hs, ?_⟩
  simp only [commit_log, commit_lastClusterClick, commit_timers, setLastClusterClick,
    showClusterEvents_timers]
  refine ⟨?_, trivial, trivial⟩
  rw [showClusterEvents_shown _ _ _ (by simpa [hcell] using hguard) hN]

/-! ### Two sample runs, step by step -/

theorem step_worldFar : step worldFar 1000 (.clusterPress clusterAB) = some far1 := by
  have h := onClusterPress_first { worldFar with now := 1000 } clusterAB regionFar rfl
    (by decide) rfl zoom_regionFar_lt
  simp only [step, handle, h]
  simp [commit, rerender, far1, worldFar, World.initial, zoomFactor, clusterAB]

theorem step_far1 : step far1 1200 (.clusterPress clusterBC) = some far2 := by
  have h := onClusterPress_first { far1 with now := 1200 } clusterBC regionFar rfl
    (by decide) (by decide) zoom_regionFar_lt
  simp only [step, handle, h]
  simp [commit, rerender, far1, far2, worldFar, World.initial, zoomFactor, clusterAB, clusterBC]

theorem step_far2 : step far2 2500 (.timeout 1) = some far3 := by
  have hg : ¬ ((2500 : Int) - far2.lastClusterPopupTime 0 < 500) := by
    simp [far2, far1, worldFar, World.initial, Function.update]
  have h : onTimeout { far2 with now := 2500 } 1 = some (setLastClusterClick
      (showClusterEvents
        { far2 with now := 2500, timers := [⟨2, 2700, clusterBC.leaves, 1⟩] } 0
        clusterAB.leaves) none) := by
    simp [onTimeout, far2, far1]
  simp only [step, handle, h]
  rw [showClusterEvents_shown _ _ _ hg (by decide)]
  simp [commit, rerender, far1, far2, far3, worldFar, World.initial, setLastClusterClick]

theorem step_far3 : step far3 2700 (.timeout 2) = some far4 := by
  have hg : ¬ ((2700 : Int) - far3.lastClusterPopupTime 1 < 500) := by
    simp [far3, far2, far1, worldFar, World.initial, Function.update]
  have h : onTimeout { far3 with now := 2700 } 2 = some (setLastClusterClick
      (showClusterEvents { far3 with now := 2700, timers := [] } 1 clusterBC.leaves) none) := by
    simp [onTimeout, far3, far2, far1]
  simp only [step, handle, h]
  rw [showClusterEvents_shown _ _ _ hg (by decide)]
  simp [commit, far1, far2, far3, far4, worldFar, World.initial, setLastClusterClick]

theorem step_worldNear : step worldNear 1000 (.clusterPress clusterAB) = some near1 := by
  have h := onClusterPress_reveal { worldNear with now := 1000 } clusterAB regionNear rfl
    (by decide) (by rw [zoom_regionNear_ge]; simp)
  have hc : cancelPending { worldNear with now := 1000 } = { worldNear with now := 1000 } := rfl
  have hg : ¬ ((1000 : Int) - worldNear.lastClusterPopupTime 0 < 500) := by
    simp [worldNear, World.initial]
  rw [hc, showClusterEvents_shown _ _ _ hg (by decide)] at h
  simp only [step, handle, h]
  simp [commit, near1, worldNear, World.initial, setLastClusterClick]

theorem step_near1 : step near1 1100 (.clusterPress clusterAB) = some near2 := by
  have h := onClusterPress_reveal { near1 with now := 1100 } clusterAB regionNear rfl
    (by decide) (by rw [zoom_regionNear_ge]; simp)
  have hc : cancelPending { near1 with now := 1100 } = { near1 with now := 1100 } := rfl
  have hg : (1100 : Int) - near1.lastClusterPopupTime 0 < 500 := by
    simp [near1, worldNear, World.initial]
  rw [hc, showClusterEvents_suppressed _ _ _ hg] at h
  simp only [step, handle, h]
  simp [commit, near1, near2, worldNear, World.initial, setLastClusterClick]

theorem reachable_worldFar : Reachable worldFar :=
  ⟨false, 400, 800, 0, [sampleA, sampleB, sampleC], some regionFar, true, [], rfl⟩

theorem reachable_far1 : Reachable far1 :=
  ⟨false, 400, 800, 0, [sampleA, sampleB, sampleC], some regionFar, true,
    [(1000, .clusterPress clusterAB)], by
      show run worldFar [(1000, .clusterPress clusterAB)] = some far1
      rw [run_cons, step_worldFar, Option.some_bind, run_nil]⟩

theorem reachable_near1 : Reachable near1 :=
  ⟨false, 400, 800, 0, [sampleA, sampleB, sampleC], some regionNear, true,
    [(1000, .clusterPress clusterAB)], by
      show run worldNear [(1000, .clusterPress clusterAB)] = some near1
      rw [run_cons, step_worldNear, Option.some_bind, run_nil]⟩

/-! ## The double tap -/

/-- C4: in a reachable world that awaits the second tap (`lastClusterClick`
holds the first tap `c`), a tap on the same cluster id, with more than one
leaf, less than 500 ms after `c.timestamp` cancels the timer that the first
tap armed (the one recorded in `clusterClickTimeout`, due at
`c.timestamp + 1500`), shows the member list at the time of the second tap,
and clears `lastClusterClick`; that timer is never armed again, so it cannot
show the list later.  `Date.now()` is at least 500. -/
theorem onClusterPress_double_tap (w : World) (hreach : Reachable w)
    (c : ClusterClick) (hpending : w.lastClusterClick = some c)
    (mapRegion : Region) (hregion : w.mapRegion = some mapRegion)
    (cluster : Cluster) (hid : cluster.cluster_id = c.clusterId)
    (hN : 1 < cluster.leaves.length)
    (now : Int) (hclock : w.now ≤ now) (hepoch : 500 ≤ now)
    (hwithin : now - c.timestamp < 500) :
    ∃ (timer : Timer) (w1 : World),
      timer ∈ w.timers ∧ w.clusterClickTimeout = some timer.id ∧
      timer.fireAt = c.timestamp + 1500 ∧
      step w now (.clusterPress cluster) = some w1 ∧
      w1.timers = w.timers.filter (fun u => u.id != timer.id) ∧
      w1.log = w.log ++ [membersDialog now cluster.leaves] ∧
      w1.lastClusterClick = none ∧
      w1.clusterClickTimeout = none ∧
      ∀ (inputs : List (Int × Input)) (w2 : World), run w1 inputs = some w2 →
        (∀ u ∈ w2.timers, u.id ≠ timer.id) ∧ onTimeout w2 timer.id = none := by
  have hinv := hreach.inv
  have hcell : w.lastClusterPopupTime w.render = 0 := by
    rcases hinv.fresh with h | h
    · exact h
    · rw [hpending] at h; exact absurd h.1 (by simp)
  obtain ⟨timer, hmem, hcct, hfire⟩ := hinv.pending c hpending
  have hid1 := hinv.timer_id timer hmem
  have hne0 : timer.id ≠ 0 := by omega
  have hd : isDoubleClick { w with now := now } cluster.cluster_id = true := by
    simp [isDoubleClick, hpending, hid, hwithin]
  have h1 := onClusterPress_reveal { w with now := now } cluster mapRegion hregion (by omega)
    (by rw [hd]; rfl)
  have hcp : cancelPending { w with now := now } =
      setClusterClickTimeout (clearTimeout { w with now := now } timer.id) none := by
    simp [cancelPending, hcct, hne0]
  rw [hcp] at h1
  have hguard : ¬ ((setClusterClickTimeout (clearTimeout { w with now := now } timer.id) none).now -
      (setClusterClickTimeout (clearTimeout { w with now := now } timer.id)
        none).lastClusterPopupTime
        (setClusterClickTimeout (clearTimeout { w with now := now } timer.id) none).render
      < 500) := by
    simp only [setClusterClickTimeout, clearTimeout, hcell]
    omega
  rw [showClusterEvents_shown _ _ _ hguard (by omega)] at h1
  have ht : ¬ now < w.now := by omega
  have hs : step w now (.clusterPress cluster) =
      (onClusterPress { w with now := now } cluster).map commit := by
    simp only [step, if_neg ht, handle]
  rw [h1, Option.map_some'] at hs
  refine ⟨timer, _, hmem, hcct, hfire, hs, ?_, ?_, ?_, ?_, ?_⟩
  · simp [setLastClusterClick, setClusterClickTimeout, clearTimeout]
  · simp [setLastClusterClick, setClusterClickTimeout, clearTimeout]
  · simp [setLastClusterClick]
  · simp [setLastClusterClick, setClusterClickTimeout]
  · intro inputs w2 hr
    have hgone := run_timer_gone _ w2 inputs timer.id
      (by simpa [setLastClusterClick, setClusterClickTimeout, clearTimeout] using hid1.2)
      (by
        intro u hu
        simp [setLastClusterClick, setClusterClickTimeout, clearTimeout] at hu
        exact hu.2)
      hr
    refine ⟨hgone, ?_⟩
    rcases hfind : w2.timers.find? (fun t => t.id == timer.id) with _ | u
    · simp only [onTimeout, hfind]
    · have hu := List.mem_of_find?_eq_some hfind
      have hu2 := List.find?_some hfind
      simp only [beq_iff_eq] at hu2
      exact absurd hu2 (hgone u hu)

/-- C4, instance: `far1` awaits the second tap on cluster 1 since time 1000;
the second tap comes at time 1300. -/
theorem onClusterPress_double_tap_witness :
    ∃ (timer : Timer) (w1 : World),
      timer ∈ far1.timers ∧ far1.clusterClickTimeout = some timer.id ∧
      timer.fireAt = (1000 : Int) + 1500 ∧
      step far1 1300 (.clusterPress clusterAB) = some w1 ∧
      w1.timers = far1.timers.filter (fun u => u.id != timer.id) ∧
      w1.log = far1.log ++ [membersDialog 1300 clusterAB.leaves] ∧
      w1.lastClusterClick = none ∧
      w1.clusterClickTimeout = none ∧
      ∀ (inputs : List (Int × Input)) (w2 : World), run w1 inputs = some w2 →
        (∀ u ∈ w2.timers, u.id ≠ timer.id) ∧ onTimeout w2 timer.id = none :=
  onClusterPress_double_tap far1 reachable_far1 ⟨1, 1000⟩ rfl regionFar rfl clusterAB rfl
    (by decide) 1300 (by decide) (by decide) (by decide)

/-! ## The fallback timer -/

/-- C6: from an idle reachable world with no armed timer, a first tap at time
`t` on a cluster of more than one event at a zoom below 15 arms exactly one
timer, due at `t + 1500`.  If only inputs other than cluster taps follow, no
member list is shown before the timer fires; when it fires (at `tf`, not
before `t + 1500`) the member list of the cluster is shown once, and the
controller is idle with no timer armed. -/
theorem first_tap_then_timeout (w : World) (hreach : Reachable w)
    (hidle : w.lastClusterClick = none) (htimers : w.timers = [])
    (cluster : Cluster) (hN : 1 < cluster.leaves.length)
    (mapRegion : Region) (hregion : w.mapRegion = some mapRegion)
    (hzoom : (zoomLevel mapRegion.longitudeDelta).ge 15 = false)
    (t : Int) (hclock : w.now ≤ t) (hepoch : 0 ≤ t) :
    ∃ w0, step w t (.clusterPress cluster) = some w0 ∧
      w0.timers = [⟨w.timerCount + 1, t + 1500, cluster.leaves, w.render⟩] ∧
      w0.lastClusterClick = some ⟨cluster.cluster_id, t⟩ ∧
      w0.log.filter isMembersDialog = w.log.filter isMembersDialog ∧
      ∀ (quiet : List (Int × Input)) (w1 : World),
        (∀ x ∈ quiet, x.2.isQuiet = true) → run w0 quiet = some w1 →
        w1.timers = [⟨w.timerCount + 1, t + 1500, cluster.leaves, w.render⟩] ∧
        w1.log.filter isMembersDialog = w.log.filter isMembersDialog ∧
        ∀ tf : Int, w1.now ≤ tf → t + 1500 ≤ tf →
          ∃ w2, step w1 tf (.timeout (w.timerCount + 1)) = some w2 ∧
            w2.log = w1.log ++ [membersDialog tf cluster.leaves] ∧
            w2.log.filter isMembersDialog =
              w.log.filter isMembersDialog ++ [membersDialog tf cluster.leaves] ∧
            w2.lastClusterClick = none ∧
            w2.timers = [] := by
  have hinv := hreach.inv
  have hcell : w.lastClusterPopupTime w.render = 0 := by
    rcases hinv.fresh with h | h
    · exact h
    · obtain ⟨r, hr, hz⟩ := h.2
      rw [hregion] at hr
      injection hr with hr
      subst hr
      rw [hzoom] at hz
      exact absurd hz (by simp)
  obtain ⟨w0, hs, h1, _, h3, _, h5, h6, _, h8⟩ :=
    step_clusterPress_first w cluster mapRegion t hclock hregion (by omega)
      (isDoubleClick_of_idle _ _ hidle) hzoom
  rw [htimers, List.nil_append] at h1
  refine ⟨w0, hs, h1, h3, h8, ?_⟩
  intro quiet w1 hq hr
  obtain ⟨⟨q1, _, _, q4, q5, q6⟩, _⟩ := run_quiet w0 w1 quiet hq hr
  rw [h1] at q1
  rw [h8] at q6
  refine ⟨q1, q6, ?_⟩
  intro tf hlate hdue
  have hc1 : w1.lastClusterPopupTime w.render = 0 := by
    rw [q5 w.render (by omega), h6 w.render (le_refl _)]
    exact hcell
  obtain ⟨w2, hs2, a1, a2, a3⟩ :=
    step_timeout_shown w1 ⟨w.timerCount + 1, t + 1500, cluster.leaves, w.render⟩ tf q1 hc1
      (by simp only; omega) hlate hdue (by omega)
  refine ⟨w2, hs2, a1, ?_, a2, a3⟩
  rw [a1, List.filter_append, q6]
  simp [isMembersDialog_membersDialog]

/-- C6, instance: the mounted screen, tapped on `clusterAB` at time 1000. -/
theorem first_tap_then_timeout_witness :
    ∃ w0, step worldFar 1000 (.clusterPress clusterAB) = some w0 ∧
      w0.timers = [⟨worldFar.timerCount + 1, 1000 + 1500, clusterAB.leaves, worldFar.render⟩] ∧
      w0.lastClusterClick = some ⟨clusterAB.cluster_id, 1000⟩ ∧
      w0.log.filter isMembersDialog = worldFar.log.filter isMembersDialog ∧
      ∀ (quiet : List (Int × Input)) (w1 : World),
        (∀ x ∈ quiet, x.2.isQuiet = true) → run w0 quiet = some w1 →
        w1.timers =
          [⟨worldFar.timerCount + 1, 1000 + 1500, clusterAB.leaves, worldFar.render⟩] ∧
        w1.log.filter isMembersDialog = worldFar.log.filter isMembersDialog ∧
        ∀ tf : Int, w1.now ≤ tf → (1000 : Int) + 1500 ≤ tf →
          ∃ w2, step w1 tf (.timeout (worldFar.timerCount + 1)) = some w2 ∧
            w2.log = w1.log ++ [membersDialog tf clusterAB.leaves] ∧
            w2.log.filter isMembersDialog =
              worldFar.log.filter isMembersDialog ++ [membersDialog tf clusterAB.leaves] ∧
            w2.lastClusterClick = none ∧
            w2.timers = [] :=
  first_tap_then_timeout worldFar reachable_worldFar rfl rfl clusterAB (by decide) regionFar rfl
    zoom_regionFar_lt 1000 (by decide) (by decide)

/-! ## Several timers -/

/-- C5, evaluated: after a tap on `clusterAB` at 1000 and a tap on `clusterBC`
at 1200 two timers are armed, the first was not cancelled, and at 2500 it
lists the members of `clusterAB`. -/
theorem two_timers_armed :
    run worldFar [(1000, .clusterPress clusterAB), (1200, .clusterPress clusterBC)] = some far2 ∧
    far2.timers = [⟨1, 2500, clusterAB.leaves, 0⟩, ⟨2, 2700, clusterBC.leaves, 1⟩] ∧
    far2.lastClusterClick = some ⟨clusterBC.cluster_id, 1200⟩ ∧
    step far2 2500 (.timeout 1) = some far3 ∧
    far3.log = far2.log ++ [membersDialog 2500 clusterAB.leaves] := by
  refine ⟨?_, rfl, rfl, step_far2, rfl⟩
  rw [run_cons, step_worldFar, Option.some_bind, run_cons, step_far1, Option.some_bind, run_nil]

/-- C7, evaluated: the callbacks of the two timers call `showClusterEvents`
at 2500 and at 2700, and both dialogs are shown: each callback reads the
`lastClusterPopupTime` of its own render, which is still 0. -/
theorem dialogs_200ms_apart :
    run worldFar [(1000, .clusterPress clusterAB), (1200, .clusterPress clusterBC),
      (2500, .timeout 1), (2700, .timeout 2)] = some far4 ∧
    far4.log.filter isMembersDialog =
      [membersDialog 2500 clusterAB.leaves, membersDialog 2700 clusterBC.leaves] := by
  constructor
  · rw [run_cons, step_worldFar, Option.some_bind, run_cons, step_far1, Option.some_bind,
      run_cons, step_far2, Option.some_bind, run_cons, step_far3, Option.some_bind, run_nil]
  · simp only [far4, far3, far2, far1, List.filter_append, List.filter_cons, List.filter_nil,
      isMembersDialog_membersDialog, isMembersDialog_animateToRegion]
    rfl

/-! ## A tap at the maximum zoom -/

/-- C9, counterexample: at zoom 18 a tap on `clusterAB` at 1000 lists its
members; a second tap at 1100, at the same zoom, lists nothing. -/
theorem onClusterPress_max_zoom_suppressed :
    Reachable near1 ∧ near1.mapRegion = some regionNear ∧
    (zoomLevel regionNear.longitudeDelta).ge 15 = true ∧
    1 < clusterAB.leaves.length ∧
    step near1 1100 (.clusterPress clusterAB) = some near2 ∧
    near2.log = near1.log :=
  ⟨reachable_near1, rfl, zoom_regionNear_ge, by decide, step_near1, rfl⟩

/-- C9, amended: a tap on a cluster of more than one event while the zoom is
at least 15 asks for no camera move, arms no timer, and leaves
`lastClusterClick` null; the member list is shown at once unless the
`lastClusterPopupTime` of the current render is less than 500 ms old, in
which case nothing is shown. -/
theorem onClusterPress_max_zoom (w : World) (cluster : Cluster) (mapRegion : Region)
    (t : Int)
    (hregion : w.mapRegion = some mapRegion)
    (hN : 1 < cluster.leaves.length)
    (hzoom : (zoomLevel mapRegion.longitudeDelta).ge 15 = true)
    (hclock : w.now ≤ t) :
    ∃ w1, step w t (.clusterPress cluster) = some w1 ∧
      cameraRequests w1.log = cameraRequests w.log ∧
      (∀ u ∈ w1.timers, u ∈ w.timers) ∧ w1.timerCount = w.timerCount ∧
      w1.lastClusterClick = none ∧
      (t - w.lastClusterPopupTime w.render < 500 → w1.log = w.log) ∧
      (¬ (t - w.lastClusterPopupTime w.render < 500) →
        w1.log = w.log ++ [membersDialog t cluster.leaves]) := by
  have h1 := onClusterPress_reveal { w with now := t } cluster mapRegion hregion (by omega)
    (by rw [hzoom]; simp)
  have ht : ¬ t < w.now := by omega
  have hs : step w t (.clusterPress cluster) =
      (onClusterPress { w with now := t } cluster).map commit := by
    simp only [step, if_neg ht, handle]
  rw [h1, Option.map_some'] at hs
  refine ⟨_, hs, ?_, ?_, ?_, ?_, ?_, ?_⟩
  · by_cases hg : t - w.lastClusterPopupTime w.render < 500
    · rw [commit_log, showClusterEvents_suppressed _ _ _ (by simpa using hg)]
      simp [setLastClusterClick]
    · rw [commit_log, showClusterEvents_shown _ _ _ (by simpa using hg) (by omega)]
      simp [setLastClusterClick, cameraRequests, List.filterMap_append, membersDialog]
  · intro u hu
    simp only [commit_timers, setLastClusterClick, showClusterEvents_timers] at hu
    exact cancelPending_timers_subset { w with now := t } u hu
  · simp [setLastClusterClick]
  · simp [setLastClusterClick]
  · intro hg
    rw [commit_log, showClusterEvents_suppressed _ _ _ (by simpa using hg)]
    simp [setLastClusterClick]
  · intro hg
    rw [commit_log, showClusterEvents_shown _ _ _ (by simpa using hg) (by omega)]
    simp [setLastClusterClick]

/-- C9, amended, instance: the first tap on `clusterAB` at zoom 18. -/
theorem onClusterPress_max_zoom_witness :
    ∃ w1, step worldNear 1000 (.clusterPress clusterAB) = some w1 ∧
      cameraRequests w1.log = cameraRequests worldNear.log ∧
      (∀ u ∈ w1.timers, u ∈ worldNear.timers) ∧ w1.timerCount = worldNear.timerCount ∧
      w1.lastClusterClick = none ∧
      ((1000 : Int) - worldNear.lastClusterPopupTime worldNear.render < 500 →
        w1.log = worldNear.log) ∧
      (¬ ((1000 : Int) - worldNear.lastClusterPopupTime worldNear.render < 500) →
        w1.log = worldNear.log ++ [membersDialog 1000 clusterAB.leaves]) :=
  onClusterPress_max_zoom worldNear clusterAB regionNear 1000 rfl (by decide)
    zoom_regionNear_ge (by decide)

/-! ## Loading the events -/

/-- What `loadEvents` stores for a successful fetch: the events whose two
coordinates are truthy, or the demonstration events when there is none. -/
theorem loadEvents_success (data : List EventDoc) :
    loadEvents (.success data) =
      if data.filter (fun e => truthy e.latitude && truthy e.longitude) = [] then testEventsEmpty
      else data.filter (fun e => truthy e.latitude && truthy e.longitude) := by
  simp only [loadEvents, List.length_eq_zero]

/-- C12, evaluated: of two fetched events with coordinates, the one on the
prime meridian is dropped, because its longitude 0 is falsy. -/
theorem loadEvents_drops_zero :
    hasCoordinates docLisbon = true ∧ hasCoordinates docGreenwich = true ∧
    loadEvents (.success [docLisbon, docGreenwich]) = [docLisbon] ∧
    [docLisbon, docGreenwich].filter hasCoordinates = [docLisbon, docGreenwich] := by
  refine ⟨rfl, rfl, ?_, rfl⟩
  rw [loadEvents_success]
  simp [docLisbon, docGreenwich, truthy]

/-- C13: whatever the fetch gives, `loadEvents` stores a non-empty list; for
a failed result, for an exception, and for a result in which no event has
both coordinates it stores one of the three hardcoded lists, and every event
of these lists has both coordinates. -/
theorem loadEvents_nonempty :
    (∀ outcome, loadEvents outcome ≠ []) ∧
    (∀ error, loadEvents (.failure error) = testEventsError) ∧
    loadEvents .thrown = testEventsCatch ∧
    (∀ data, (∀ e ∈ data, hasCoordinates e = false) →
      loadEvents (.success data) = testEventsEmpty) ∧
    (∀ e ∈ testEventsEmpty ++ testEventsError ++ testEventsCatch, hasCoordinates e = true) := by
  refine ⟨?_, fun _ => rfl, rfl, ?_, by decide⟩
  · intro outcome
    cases outcome with
    | success data =>
      rw [loadEvents_success]
      split_ifs with h
      · decide
      · exact h
    | failure error => simp [loadEvents, testEventsError]
    | thrown => simp [loadEvents, testEventsCatch]
  · intro data h
    rw [loadEvents_success, if_pos]
    rw [List.filter_eq_nil_iff]
    intro e he
    have h1 := h e he
    rcases e with ⟨id, title, lat, lng⟩
    cases lat <;> cases lng <;> simp_all [hasCoordinates, truthy]

/-- C13, instance: a fetch that returns one event without coordinates. -/
theorem loadEvents_nonempty_witness :
    loadEvents (.success [docNowhere]) = testEventsEmpty :=
  loadEvents_nonempty.2.2.2.1 [docNowhere] (by decide)

/-! ## The marker tap -/

/-- C15: `onMarkerPress(e)` selects `e`, asks (when the map is attached) for
the region centred on `e` with half the default spans, and leaves
`lastClusterClick`, `clusterClickTimeout` and the armed timers as they were;
the same holds after React has committed. -/
theorem onMarkerPress_frame (w : World) (e : Event) :
    (onMarkerPress w e).selectedEvent = some e ∧
    (onMarkerPress w e).log = w.log ++
      (if w.mapRef then
        [(w.now, Effect.animateToRegion
          { latitude := e.latitude
            longitude := e.longitude
            latitudeDelta := LATITUDE_DELTA / 2
            longitudeDelta := LONGITUDE_DELTA w.width w.height / 2 } 1000)]
       else []) ∧
    (onMarkerPress w e).lastClusterClick = w.lastClusterClick ∧
    (onMarkerPress w e).clusterClickTimeout = w.clusterClickTimeout ∧
    (onMarkerPress w e).timers = w.timers ∧
    (onMarkerPress w e).timerCount = w.timerCount ∧
    (commit (onMarkerPress w e)).selectedEvent = some e ∧
    (commit (onMarkerPress w e)).lastClusterClick = w.lastClusterClick ∧
    (commit (onMarkerPress w e)).timers = w.timers := by
  have h2 : ∀ x : ℚ, x * (1 / 2) = x / 2 := fun x => by ring
  refine ⟨?_, ?_, by simp, ?_, by simp, by simp, ?_, by simp, by simp⟩
  · by_cases hm : w.mapRef = true <;>
      simp [onMarkerPress, setSelectedEvent, animateToRegion, hm]
  · by_cases hm : w.mapRef = true
    · simp only [onMarkerPress, setSelectedEvent, animateToRegion, hm, if_true, h2]
    · simp [onMarkerPress, setSelectedEvent, animateToRegion, hm]
  · by_cases hm : w.mapRef = true <;>
      simp [onMarkerPress, setSelectedEvent, animateToRegion, hm]
  · rw [commit_selectedEvent]
    by_cases hm : w.mapRef = true <;>
      simp [onMarkerPress, setSelectedEvent, animateToRegion, hm]

/-! ## The clustering pass -/

/-- What the effect leaves in `clusters`: the clustering of the filtered
events for the viewport when there are filtered events and a viewport, and
the old value otherwise. -/
theorem clustersEffect_clusters (lib : SuperCluster) (s : MapData) :
    (clustersEffect lib s).clusters =
      if s.filteredEvents.length > 0 ∧ s.mapRegion.isSome then
        clusteringOf lib s.filteredEvents s.mapRegion
      else s.clusters := by
  unfold clustersEffect
  split_ifs with h
  · obtain ⟨h1, h2⟩ := h
    obtain ⟨r, hr⟩ := Option.isSome_iff_exists.mp h2
    have h3 : ¬ s.filteredEvents.length = 0 := by omega
    simp [clusteringOf, updateClusters, hr, h3]
  · rfl

/-- C11, evaluated: when the filtered list becomes empty the effect does not
call `updateClusters`, and `clusters` keeps its value, for every library. In
`dataFar` the marker of `sampleA` stays, while the clustering of no events
is empty. -/
theorem filtersChanged_keeps_clusters :
    (∀ (lib : SuperCluster) (s : MapData), (filtersChanged lib s []).clusters = s.clusters) ∧
    dataFar.clusters =
      [Feature.point ⟨(sampleA.longitude, sampleA.latitude), sampleA.id, sampleA⟩] ∧
    (filtersChanged neverMerge dataFar []).filteredEvents = [] ∧
    (filtersChanged neverMerge dataFar []).clusters =
      [Feature.point ⟨(sampleA.longitude, sampleA.latitude), sampleA.id, sampleA⟩] ∧
    clusteringOf neverMerge [] dataFar.mapRegion = [] := by
  have h1 : ∀ (lib : SuperCluster) (s : MapData),
      (filtersChanged lib s []).clusters = s.clusters := by
    intro lib s
    simp [filtersChanged, clustersEffect]
  have h2 : dataFar.clusters =
      [Feature.point ⟨(sampleA.longitude, sampleA.latitude), sampleA.id, sampleA⟩] := by
    simp only [dataFar, regionChanged, clustersEffect_clusters]
    simp only [clusteringOf, updateClusters, neverMerge, regionFar, sampleA]
    norm_num
  refine ⟨h1, h2, ?_, ?_, ?_⟩
  · simp [filtersChanged, clustersEffect]
  · rw [h1, h2]
  · simp [clusteringOf, updateClusters, dataFar, regionChanged, clustersEffect]

/-- C16: the clusters that `updateClusters` computes depend on the filtered
events and the viewport only, given a library whose answer depends only on
the points it was loaded with: two runs from any two states with the same
filtered events and viewport give the same list, which is `clusteringOf`. -/
theorem updateClusters_deterministic (lib : SuperCluster) (s1 s2 : MapData)
    (hP : s1.filteredEvents = s2.filteredEvents) (hV : s1.mapRegion = s2.mapRegion) :
    (updateClusters lib s1).clusters = (updateClusters lib s2).clusters ∧
    (updateClusters lib s1).clusters = clusteringOf lib s1.filteredEvents s1.mapRegion := by
  have key : ∀ s : MapData,
      (updateClusters lib s).clusters = clusteringOf lib s.filteredEvents s.mapRegion := by
    intro s
    unfold clusteringOf updateClusters
    rcases s.mapRegion with _ | r
    · rfl
    · by_cases h : s.filteredEvents.length = 0 <;> simp [h]
  refine ⟨?_, key s1⟩
  rw [key s1, key s2, hP, hV]

/-- C16, instance: `dataFar`, and the same events and viewport with another
content of the library and of `clusters`. -/
theorem updateClusters_deterministic_witness :
    (updateClusters neverMerge dataFar).clusters =
      (updateClusters neverMerge
        { dataFar with clusters := [], loaded := [⟨(0, 0), "x", sampleB⟩] }).clusters ∧
    (updateClusters neverMerge dataFar).clusters =
      clusteringOf neverMerge dataFar.filteredEvents dataFar.mapRegion :=
  updateClusters_deterministic neverMerge dataFar
    { dataFar with clusters := [], loaded := [⟨(0, 0), "x", sampleB⟩] } rfl rfl

/-! ## The timer of the first tap -/

/-- The timer armed last is found by its id when no older timer carries that
id. -/
theorem find_last_timer (old : List Timer) (timer : Timer)
    (hold : ∀ u ∈ old, u.id ≠ timer.id) :
    (old ++ [timer]).find? (fun u => u.id == timer.id) = some timer ∧
    (old ++ [timer]).filter (fun u => u.id != timer.id) = old := by
  constructor
  · rw [List.find?_append]
    have h : old.find? (fun u => u.id == timer.id) = none := by
      rw [List.find?_eq_none]
      intro u hu
      simpa using hold u hu
    rw [h]
    simp
  · rw [List.filter_append]
    have h : old.filter (fun u => u.id != timer.id) = old := by
      rw [List.filter_eq_self]
      intro u hu
      simpa using hold u hu
    rw [h]
    simp

/-- The step of the timer armed last, when it is due and the guard lets its
callback through: the dialog is shown, the controller is idle, and the older
timers stay armed. -/
theorem step_timeout_last (v : World) (old : List Timer) (timer : Timer) (tf : Int)
    (htimers : v.timers = old ++ [timer])
    (hold : ∀ u ∈ old, u.id ≠ timer.id)
    (hcell : v.lastClusterPopupTime timer.render = 0)
    (hN : timer.clusterEvents.length ≠ 1)
    (hclock : v.now ≤ tf) (hdue : timer.fireAt ≤ tf) (hepoch : 500 ≤ tf) :
    ∃ w2, step v tf (.timeout timer.id) = some w2 ∧
      w2.log = v.log ++ [membersDialog tf timer.clusterEvents] ∧
      w2.lastClusterClick = none ∧
      w2.timers = old := by
  obtain ⟨hfind, hfilter⟩ := find_last_timer old timer hold
  have ht : ¬ tf < v.now := by omega
  have hd : ¬ tf < timer.fireAt := by omega
  have hguard : ¬ (tf - 0 < 500) := by omega
  have hs : step v tf (.timeout timer.id) =
      some (commit (setLastClusterClick
        (showClusterEvents { v with now := tf, timers := old } timer.render timer.clusterEvents)
        none)) := by
    simp only [step, if_neg ht, handle, onTimeout, htimers, hfind, hfilter, if_neg hd,
      Option.map_some']
  refine ⟨_, hs, ?_⟩
  simp only [commit_log, commit_lastClusterClick, commit_timers, setLastClusterClick,
    showClusterEvents_timers]
  refine ⟨?_, trivial, trivial⟩
  rw [showClusterEvents_shown _ _ _ (by simpa [hcell] using hguard) hN]

/-- A timer does not fire before it is due. -/
theorem step_timeout_early (v : World) (old : List Timer) (timer : Timer) (tf : Int)
    (htimers : v.timers = old ++ [timer])
    (hold : ∀ u ∈ old, u.id ≠ timer.id)
    (hearly : tf < timer.fireAt) :
    step v tf (.timeout timer.id) = none := by
  obtain ⟨hfind, _⟩ := find_last_timer old timer hold
  unfold step
  split_ifs
  · rfl
  · simp only [handle, onTimeout, htimers, hfind, if_pos hearly, Option.map_none']

/-- C23: in a reachable world, a first tap at time `t` (not a double tap) on
a cluster of more than one event at a zoom below 15 stores the pending tap
`{clusterId, timestamp: t}` and arms exactly one new timer, whose id is
recorded in `clusterClickTimeout` and is not the id of an older timer.  The
timer is due at `t + 1500` and holds the member list of the tap: as long as
only inputs other than cluster taps and timers follow, it does not fire
before `t + 1500`, and when it fires the member list of the tapped cluster is
shown.  The clock counts from the epoch. -/
theorem first_tap_arms_timer (w : World) (hreach : Reachable w)
    (cluster : Cluster) (hN : 1 < cluster.leaves.length)
    (mapRegion : Region) (hregion : w.mapRegion = some mapRegion)
    (hzoom : (zoomLevel mapRegion.longitudeDelta).ge 15 = false)
    (t : Int) (hclock : w.now ≤ t) (hepoch : 0 ≤ t)
    (hfirst : isDoubleClick { w with now := t } cluster.cluster_id = false) :
    ∃ w0, step w t (.clusterPress cluster) = some w0 ∧
      w0.lastClusterClick = some ⟨cluster.cluster_id, t⟩ ∧
      w0.clusterClickTimeout = some (w.timerCount + 1) ∧
      w0.timers = w.timers ++ [⟨w.timerCount + 1, t + 1500, cluster.leaves, w.render⟩] ∧
      (∀ u ∈ w.timers, u.id ≠ w.timerCount + 1) ∧
      ∀ (quiet : List (Int × Input)) (w1 : World),
        (∀ x ∈ quiet, x.2.isQuiet = true) → run w0 quiet = some w1 →
        w1.timers = w0.timers ∧
        (∀ tf : Int, tf < t + 1500 → step w1 tf (.timeout (w.timerCount + 1)) = none) ∧
        ∀ tf : Int, w1.now ≤ tf → t + 1500 ≤ tf →
          ∃ w2, step w1 tf (.timeout (w.timerCount + 1)) = some w2 ∧
            w2.log = w1.log ++ [membersDialog tf cluster.leaves] ∧
            w2.lastClusterClick = none ∧
            w2.timers = w.timers := by
  have hinv := hreach.inv
  have hcell : w.lastClusterPopupTime w.render = 0 := by
    rcases hinv.fresh with h | h
    · exact h
    · obtain ⟨r, hr, hz⟩ := h.2
      rw [hregion] at hr
      injection hr with hr
      subst hr
      rw [hzoom] at hz
      exact absurd hz (by simp)
  have hold : ∀ u ∈ w.timers,
      u.id ≠ (Timer.mk (w.timerCount + 1) (t + 1500) cluster.leaves w.render).id := by
    intro u hu
    have := (hinv.timer_id u hu).2
    simp only
    omega
  obtain ⟨w0, hs, h1, _, h3, h4, h5, h6, _, _⟩ :=
    step_clusterPress_first w cluster mapRegion t hclock hregion (by omega) hfirst hzoom
  refine ⟨w0, hs, h3, h4, h1, hold, ?_⟩
  intro quiet w1 hq hr
  obtain ⟨⟨q1, _, _, q4, q5, _⟩, _⟩ := run_quiet w0 w1 quiet hq hr
  refine ⟨q1, ?_, ?_⟩
  · intro tf hearly
    exact step_timeout_early w1 w.timers
      ⟨w.timerCount + 1, t + 1500, cluster.leaves, w.render⟩ tf (by rw [q1, h1]) hold hearly
  · intro tf hlate hdue
    have hc1 : w1.lastClusterPopupTime w.render = 0 := by
      rw [q5 w.render (by omega), h6 w.render (le_refl _)]
      exact hcell
    exact step_timeout_last w1 w.timers
      ⟨w.timerCount + 1, t + 1500, cluster.leaves, w.render⟩ tf (by rw [q1, h1]) hold hc1
      (by simp only; omega) hlate hdue (by omega)

/-- C23, instance: while the timer of a tap on `clusterAB` is pending, a
first tap on `clusterBC` at time 1200 arms a second timer, due at 2700. -/
theorem first_tap_arms_timer_witness :
    ∃ w0, step far1 1200 (.clusterPress clusterBC) = some w0 ∧
      w0.lastClusterClick = some ⟨clusterBC.cluster_id, 1200⟩ ∧
      w0.clusterClickTimeout = some (far1.timerCount + 1) ∧
      w0.timers =
        far1.timers ++ [⟨far1.timerCount + 1, 1200 + 1500, clusterBC.leaves, far1.render⟩] ∧
      (∀ u ∈ far1.timers, u.id ≠ far1.timerCount + 1) ∧
      ∀ (quiet : List (Int × Input)) (w1 : World),
        (∀ x ∈ quiet, x.2.isQuiet = true) → run w0 quiet = some w1 →
        w1.timers = w0.timers ∧
        (∀ tf : Int, tf < 1200 + 1500 → step w1 tf (.timeout (far1.timerCount + 1)) = none) ∧
        ∀ tf : Int, w1.now ≤ tf → (1200 : Int) + 1500 ≤ tf →
          ∃ w2, step w1 tf (.timeout (far1.timerCount + 1)) = some w2 ∧
            w2.log = w1.log ++ [membersDialog tf clusterBC.leaves] ∧
            w2.lastClusterClick = none ∧
            w2.timers = far1.timers :=
  first_tap_arms_timer far1 reachable_far1 clusterBC (by decide) regionFar rfl
    zoom_regionFar_lt 1200 (by decide) (by decide) (by decide)

/-! ## The zoom level and the bounding box of a query -/

/-- The query that `updateClusters` sends to the clustering library. -/
theorem updateClusters_query (lib : SuperCluster) (s : MapData) (mapRegion : Region)
    (hregion : s.mapRegion = some mapRegion) (hne : s.filteredEvents ≠ []) :
    (updateClusters lib s).clusters =
      lib.getClusters
        (s.filteredEvents.map (fun event =>
          { coordinates := (event.longitude, event.latitude), eventId := event.id,
            event := event }))
        { west := mapRegion.longitude - mapRegion.longitudeDelta / 2
          south := mapRegion.latitude - mapRegion.latitudeDelta / 2
          east := mapRegion.longitude + mapRegion.longitudeDelta / 2
          north := mapRegion.latitude + mapRegion.latitudeDelta / 2 }
        (zoomLevel mapRegion.longitudeDelta) := by
  have h : ¬ s.filteredEvents.length = 0 := by
    rw [List.length_eq_zero]; exact hne
  simp only [updateClusters, hregion, if_neg h]

/-- The rounded logarithm of a power of two. -/
theorem roundLog2_zpow (k : Int) : roundLog2 ((2 : ℚ) ^ k) = k := by
  unfold roundLog2
  have h : (2 : ℚ) * ((2 : ℚ) ^ k) ^ 2 = ((2 : ℕ) : ℚ) ^ (2 * k + 1) := by
    rw [← zpow_natCast, ← zpow_mul, zpow_add₀ (by norm_num), zpow_one]
    push_cast
    ring_nf
  rw [h, Int.log_zpow (by norm_num)]
  omega

/-- The exact rounding: `roundLog2 q` is the logarithm of `q` in base 2,
rounded to the nearest integer, halves upwards. -/
theorem roundLog2_eq_floor (q : ℚ) (hq : 0 < q) :
    roundLog2 q = ⌊Real.logb 2 (q : ℝ) + 1 / 2⌋ := by
  unfold roundLog2
  have hpos : (0 : ℚ) < 2 * q ^ 2 := by positivity
  have hlo := Int.zpow_log_le_self (b := 2) (r := 2 * q ^ 2) (by norm_num) hpos
  have hhi := Int.lt_zpow_succ_log_self (b := 2) (by norm_num) (2 * q ^ 2)
  set n := Int.log 2 (2 * q ^ 2) with hn
  have hqR : (0 : ℝ) < (q : ℝ) := by exact_mod_cast hq
  have hposR : (0 : ℝ) < 2 * (q : ℝ) ^ 2 := by positivity
  have hloR : (2 : ℝ) ^ n ≤ 2 * (q : ℝ) ^ 2 := by
    have h := (Rat.cast_le (K := ℝ)).mpr hlo
    push_cast at h
    exact h
  have hhiR : 2 * (q : ℝ) ^ 2 < (2 : ℝ) ^ (n + 1) := by
    have h := (Rat.cast_lt (K := ℝ)).mpr hhi
    push_cast at h
    exact h
  have hL : Real.logb 2 (2 * (q : ℝ) ^ 2) = 1 + 2 * Real.logb 2 (q : ℝ) := by
    rw [Real.logb_mul (by norm_num) (by positivity), Real.logb_self_eq_one (by norm_num),
      Real.logb_pow]
    push_cast
    ring
  have h1 : (n : ℝ) ≤ 1 + 2 * Real.logb 2 (q : ℝ) := by
    rw [← hL, Real.le_logb_iff_rpow_le (by norm_num) hposR, Real.rpow_intCast]
    exact hloR
  have h2 : 1 + 2 * Real.logb 2 (q : ℝ) < (n : ℝ) + 1 := by
    have h : Real.logb 2 (2 * (q : ℝ) ^ 2) < ((n + 1 : ℤ) : ℝ) := by
      rw [Real.logb_lt_iff_lt_rpow (by norm_num) hposR, Real.rpow_intCast]
      exact hhiR
    rw [hL] at h
    push_cast at h
    exact h
  symm
  rw [Int.floor_eq_iff]
  have hdiv : 2 * (n / 2) ≤ n ∧ n < 2 * (n / 2) + 2 := by omega
  have hd1 : (2 : ℝ) * ((n / 2 : ℤ) : ℝ) ≤ (n : ℝ) := by exact_mod_cast hdiv.1
  have hd2 : (n : ℝ) + 1 ≤ 2 * ((n / 2 : ℤ) : ℝ) + 2 := by exact_mod_cast hdiv.2
  constructor <;> linarith

/-- The zoom level of the viewport `360 / 2 ^ k`. -/
theorem zoomLevel_zpow (k : Int) : zoomLevel (360 / (2 : ℚ) ^ k) = .finite k := by
  have hpos : (0 : ℚ) < 360 / (2 : ℚ) ^ k := by positivity
  have h1 : ¬ (360 / (2 : ℚ) ^ k < 0) := not_lt.mpr hpos.le
  have h2 : ¬ (360 / (2 : ℚ) ^ k = 0) := ne_of_gt hpos
  have h3 : (360 : ℚ) / (360 / (2 : ℚ) ^ k) = (2 : ℚ) ^ k := by
    field_simp
  simp only [zoomLevel, if_neg h1, if_neg h2, h3, roundLog2_zpow]

/-- The timer count after a tap that is not a double tap tells which branch
`onClusterPress` took. -/
theorem onClusterPress_timerCount (w : World) (cluster : Cluster) (mapRegion : Region)
    (hregion : w.mapRegion = some mapRegion)
    (hN : cluster.leaves.length ≠ 1)
    (hfirst : isDoubleClick w cluster.cluster_id = false) :
    (onClusterPress w cluster).map (fun v => v.timerCount) =
      some (if (zoomLevel mapRegion.longitudeDelta).ge 15 then w.timerCount
        else w.timerCount + 1) := by
  by_cases hz : (zoomLevel mapRegion.longitudeDelta).ge 15 = true
  · rw [onClusterPress_reveal w cluster mapRegion hregion hN (by simp [hz]), if_pos hz]
    simp only [Option.map_some', setLastClusterClick, showClusterEvents_timerCount]
    unfold cancelPending
    rcases w.clusterClickTimeout with _ | id
    · rfl
    · by_cases h0 : id = 0 <;> simp [h0, setClusterClickTimeout, clearTimeout]
  · have hz2 : (zoomLevel mapRegion.longitudeDelta).ge 15 = false := by
      simpa using hz
    rw [onClusterPress_first w cluster mapRegion hregion hN hfirst hz2, if_neg hz]
    rfl

/-- C24: `updateClusters` and `onClusterPress` compute the zoom level with
the same function `zoomLevel` of the longitude span of the viewport: the one
passes it to the clustering library, the other arms a timer, on a tap that is
not a double tap, exactly when it is below 15.  For a positive span `d` it is
the logarithm of `360 / d` in base 2 rounded to the nearest integer (halves
upwards), in exact arithmetic, and for the span `360 / 2 ^ k` it is `k`. -/
theorem zoomLevel_shared (lib : SuperCluster) (s : MapData) (w : World) (cluster : Cluster)
    (mapRegion : Region)
    (hs : s.mapRegion = some mapRegion) (hne : s.filteredEvents ≠ [])
    (hw : w.mapRegion = some mapRegion) (hN : cluster.leaves.length ≠ 1)
    (hfirst : isDoubleClick w cluster.cluster_id = false) :
    (updateClusters lib s).clusters =
      lib.getClusters
        (s.filteredEvents.map (fun event =>
          { coordinates := (event.longitude, event.latitude), eventId := event.id,
            event := event }))
        { west := mapRegion.longitude - mapRegion.longitudeDelta / 2
          south := mapRegion.latitude - mapRegion.latitudeDelta / 2
          east := mapRegion.longitude + mapRegion.longitudeDelta / 2
          north := mapRegion.latitude + mapRegion.latitudeDelta / 2 }
        (zoomLevel mapRegion.longitudeDelta) ∧
    (onClusterPress w cluster).map (fun v => v.timerCount) =
      some (if (zoomLevel mapRegion.longitudeDelta).ge 15 then w.timerCount
        else w.timerCount + 1) ∧
    (∀ d : ℚ, 0 < d →
      zoomLevel d = .finite ⌊Real.logb 2 ((360 / d : ℚ) : ℝ) + 1 / 2⌋) ∧
    (∀ k : Int, zoomLevel (360 / (2 : ℚ) ^ k) = .finite k) := by
  refine ⟨updateClusters_query lib s mapRegion hs hne,
    onClusterPress_timerCount w cluster mapRegion hw hN hfirst, ?_, zoomLevel_zpow⟩
  intro d hd
  have h1 : ¬ (d < 0) := not_lt.mpr hd.le
  have h2 : ¬ (d = 0) := ne_of_gt hd
  simp only [zoomLevel, if_neg h1, if_neg h2]
  rw [roundLog2_eq_floor _ (by positivity)]

/-- C24, instance: the sample viewport, of span 0.1 degrees, with one event
shown and a tap on `clusterAB`. -/
theorem zoomLevel_shared_witness :
    (updateClusters neverMerge ⟨[sampleA], some regionFar, [], []⟩).clusters =
      neverMerge.getClusters
        ([sampleA].map (fun event =>
          { coordinates := (event.longitude, event.latitude), eventId := event.id,
            event := event }))
        { west := regionFar.longitude - regionFar.longitudeDelta / 2
          south := regionFar.latitude - regionFar.latitudeDelta / 2
          east := regionFar.longitude + regionFar.longitudeDelta / 2
          north := regionFar.latitude + regionFar.latitudeDelta / 2 }
        (zoomLevel regionFar.longitudeDelta) ∧
    (onClusterPress worldFar clusterAB).map (fun v => v.timerCount) =
      some (if (zoomLevel regionFar.longitudeDelta).ge 15 then worldFar.timerCount
        else worldFar.timerCount + 1) ∧
    (∀ d : ℚ, 0 < d →
      zoomLevel d = .finite ⌊Real.logb 2 ((360 / d : ℚ) : ℝ) + 1 / 2⌋) ∧
    (∀ k : Int, zoomLevel (360 / (2 : ℚ) ^ k) = .finite k) :=
  zoomLevel_shared neverMerge ⟨[sampleA], some regionFar, [], []⟩ worldFar clusterAB regionFar
    rfl (by decide) rfl (by decide) rfl

/-- C25: when `updateClusters` queries the clustering library (there is a
viewport and at least one filtered event), the bounding box it passes is
`[longitude - longitudeDelta / 2, latitude - latitudeDelta / 2,
longitude + longitudeDelta / 2, latitude + latitudeDelta / 2]`, whatever the
library; its centre is the centre of the viewport, its width is
`longitudeDelta` and its height is `latitudeDelta`. -/
theorem updateClusters_bbox (s : MapData) (mapRegion : Region)
    (hregion : s.mapRegion = some mapRegion) (hne : s.filteredEvents ≠ []) :
    ∃ bbox : BBox,
      (∀ lib : SuperCluster, (updateClusters lib s).clusters =
        lib.getClusters
          (s.filteredEvents.map (fun event =>
            { coordinates := (event.longitude, event.latitude), eventId := event.id,
              event := event }))
          bbox (zoomLevel mapRegion.longitudeDelta)) ∧
      bbox =
        { west := mapRegion.longitude - mapRegion.longitudeDelta / 2
          south := mapRegion.latitude - mapRegion.latitudeDelta / 2
          east := mapRegion.longitude + mapRegion.longitudeDelta / 2
          north := mapRegion.latitude + mapRegion.latitudeDelta / 2 } ∧
      (bbox.west + bbox.east) / 2 = mapRegion.longitude ∧
      (bbox.south + bbox.north) / 2 = mapRegion.latitude ∧
      bbox.east - bbox.west = mapRegion.longitudeDelta ∧
      bbox.north - bbox.south = mapRegion.latitudeDelta := by
  refine ⟨_, fun lib => updateClusters_query lib s mapRegion hregion hne, rfl, ?_, ?_, ?_, ?_⟩ <;>
    simp only <;> ring

/-- C25, instance: the box of the sample viewport around Lisbon. -/
theorem updateClusters_bbox_witness :
    ∃ bbox : BBox,
      (∀ lib : SuperCluster,
        (updateClusters lib ⟨[sampleA], some regionFar, [], []⟩).clusters =
        lib.getClusters
          ([sampleA].map (fun event =>
            { coordinates := (event.longitude, event.latitude), eventId := event.id,
              event := event }))
          bbox (zoomLevel regionFar.longitudeDelta)) ∧
      bbox =
        { west := regionFar.longitude - regionFar.longitudeDelta / 2
          south := regionFar.latitude - regionFar.latitudeDelta / 2
          east := regionFar.longitude + regionFar.longitudeDelta / 2
          north := regionFar.latitude + regionFar.latitudeDelta / 2 } ∧
      (bbox.west + bbox.east) / 2 = regionFar.longitude ∧
      (bbox.south + bbox.north) / 2 = regionFar.latitude ∧
      bbox.east - bbox.west = regionFar.longitudeDelta ∧
      bbox.north - bbox.south = regionFar.latitudeDelta :=
  updateClusters_bbox ⟨[sampleA], some regionFar, [], []⟩ regionFar rfl (by decide)

end MapScreen

/-! # The list screen: a failed fetch -/

namespace EventsScreen

open eventService

/-- C14: when the fetch gives a failed result or throws, `fetchEvents` and
`fetchEventsFallback` leave the `events` state as it was, and show one
alert. -/
theorem fetch_failure_keeps_events (s : Screen) (error : String) :
    (fetchEvents s (.failure error)).events = s.events ∧
    (fetchEvents s .thrown).events = s.events ∧
    (fetchEventsFallback s (.failure error)).events = s.events ∧
    (fetchEventsFallback s .thrown).events = s.events ∧
    (fetchEvents s (.failure error)).alerts = s.alerts ++ [("Erro", error)] ∧
    (fetchEventsFallback s (.failure error)).alerts = s.alerts ++ [("Erro", error)] ∧
    (fetchEvents s .thrown).alerts =
      s.alerts ++ [("Erro", "Não foi possível carregar os eventos")] ∧
    (fetchEventsFallback s .thrown).alerts =
      s.alerts ++ [("Erro", "Não foi possível carregar os eventos")] :=
  ⟨rfl, rfl, rfl, rfl, rfl, rfl, rfl, rfl⟩

end EventsScreen

/-! # Prices: free or paid -/

namespace priceUtils

theorem euro_ne_gratuito (x : String) : "€" ++ x ≠ "Gratuito" := by
  intro h
  have h1 := congrArg String.data h
  simp at h1

/-- `formatPrice` answers "Gratuito" exactly for the prices that
`isFreeEvent` calls free. -/
theorem formatPrice_eq_gratuito_iff (toFixed : JSNumber → Nat → String) (p : Price) :
    formatPrice toFixed p = "Gratuito" ↔ isFreeEvent p = true := by
  unfold formatPrice isFreeEvent
  by_cases h1 : isEmptyPrice p = true
  · simp [h1]
  · by_cases h2 : saysGratuito p = true
    · simp [h1, h2]
    · by_cases h3 : notPositive (numericPrice p) = true
      · simp [h1, h2, h3]
      · simp only [h1, h2, h3, if_false, Bool.false_eq_true]
        constructor
        · intro h; exact absurd h (euro_ne_gratuito _)
        · intro h; exact absurd h (by simp)

/-- C18: for every price (number, string, `null`, `undefined`),
`formatPrice` returns "Gratuito" if and only if `isFreeEvent` holds; and
either the label is "Gratuito" and `getPriceValue` is `null`, or the label is
not "Gratuito" and `getPriceValue` is the result of `formatPrice`. -/
theorem formatPrice_isFreeEvent (toFixed : JSNumber → Nat → String) (p : Price) :
    (formatPrice toFixed p = "Gratuito" ↔ isFreeEvent p = true) ∧
    (getPriceValue toFixed p = none ↔ getPriceLabel p = "Gratuito") ∧
    ((getPriceLabel p = "Gratuito" ∧ getPriceValue toFixed p = none) ∨
      (getPriceLabel p ≠ "Gratuito" ∧
        getPriceValue toFixed p = some (formatPrice toFixed p))) := by
  refine ⟨formatPrice_eq_gratuito_iff toFixed p, ?_, ?_⟩
  · by_cases h : isFreeEvent p = true
    · simp [getPriceValue, getPriceLabel, h]
    · simp [getPriceValue, getPriceLabel, h]
  · by_cases h : isFreeEvent p = true
    · left; simp [getPriceValue, getPriceLabel, h]
    · right
      simp [getPriceValue, getPriceLabel, h]

/-- C19, evaluated: every price string of the sample events, the paid ones
included, is reported free, and `formatPrice` returns "Gratuito" for it:
`parseFloat` of a string that starts with the euro sign is `NaN`. -/
theorem sample_prices_all_free :
    parseFloat "€50" = .nan ∧
    (∀ s ∈ samplePrices, isFreeEvent (.string s) = true) ∧
    (∀ (toFixed : JSNumber → Nat → String), ∀ s ∈ samplePrices,
      formatPrice toFixed (.string s) = "Gratuito") := by
  have h : ∀ s ∈ samplePrices, isFreeEvent (.string s) = true := by decide
  refine ⟨by decide, h, ?_⟩
  intro toFixed s hs
  exact (formatPrice_eq_gratuito_iff toFixed _).mpr (h s hs)

end priceUtils

/-! # Reminders: when a notification is scheduled -/

namespace notificationService

/-- C20: for an event whose start is a valid date and a lead time of
`r ≥ 0` minutes, `scheduleEventReminder` sends one scheduling request exactly
when `start - r * 60000` is later than the current time.  The request then
has that instant as its trigger and carries the id of the event, and a
record is written when the platform returns an id and `addDoc` succeeds.
Otherwise no request is sent and nothing is recorded. -/
theorem scheduleEventReminder_iff (env : Env) (fx : Effects) (event : ReminderEvent)
    (start r : Int)
    (hstart : event.start = some start)
    (hvalid : -maxTime ≤ start ∧ start ≤ maxTime)
    (hr : 0 ≤ r) (hnow : -maxTime ≤ env.now) :
    (env.now < start - r * 60000 →
      ∃ request : Request,
        request.trigger = some (some (start - r * 60000)) ∧
        ("eventId", event.id) ∈ request.data ∧
        (scheduleEventReminder env fx event r).1.requests = fx.requests ++ [request] ∧
        (scheduleEventReminder env fx event r).1.records = fx.records ++
          (match env.platform request with
           | some nid => if nid ≠ "" ∧ env.addDocOk = true then [⟨event.id, nid⟩] else []
           | none => [])) ∧
    (¬ env.now < start - r * 60000 →
      scheduleEventReminder env fx event r = (fx, .undefined)) := by
  have h1 : newDate event.start = some start := by
    simp [newDate, hstart, hvalid.1, hvalid.2]
  have e1 : start - r * 60 * 1000 = start - r * 60000 := by ring
  constructor
  · intro hlater
    have h2 : newDate (some (start - r * 60000)) = some (start - r * 60000) := by
      have a1 : -maxTime ≤ start - r * 60000 := by omega
      have a2 : start - r * 60000 ≤ maxTime := by omega
      simp [newDate, a1, a2]
    refine ⟨⟨"Evento em " ++ toString r ++ " minutos!", event.title ++ " começa às " ++ event.time,
      [("eventId", event.id), ("type", "event_reminder"), ("screen", "EventDetails")],
      some (some (start - r * 60000))⟩, rfl, by simp, ?_, ?_⟩
    · simp only [scheduleEventReminder, h1, Option.map_some', e1, h2, gt_iff_lt, hlater, if_true,
        scheduleLocalNotification]
      rcases env.platform _ with _ | nid
      · simp
      · by_cases hn : nid = ""
        · simp [hn]
        · by_cases ha : env.addDocOk = true <;> simp [hn, saveEventNotificationId, ha]
    · simp only [scheduleEventReminder, h1, Option.map_some', e1, h2, gt_iff_lt, hlater, if_true,
        scheduleLocalNotification]
      rcases env.platform _ with _ | nid
      · simp
      · by_cases hn : nid = ""
        · simp [hn]
        · by_cases ha : env.addDocOk = true <;> simp [hn, saveEventNotificationId, ha]
  · intro hnot
    simp only [scheduleEventReminder, h1, Option.map_some', e1]
    rcases hnd : newDate (some (start - r * 60000)) with _ | t
    · rfl
    · have ht : t = start - r * 60000 := by
        simp only [newDate] at hnd
        split_ifs at hnd
        injection hnd with hnd
        exact hnd.symm
      simp only [gt_iff_lt, ht, hnot, if_false]

/-- C20, instance: `sampleEvent` one hour before its start, with a lead time
of 30 minutes. -/
theorem scheduleEventReminder_iff_witness :
    (sampleEnv.now < (1760000000000 : Int) - 30 * 60000 →
      ∃ request : Request,
        request.trigger = some (some ((1760000000000 : Int) - 30 * 60000)) ∧
        ("eventId", sampleEvent.id) ∈ request.data ∧
        (scheduleEventReminder sampleEnv ⟨[], []⟩ sampleEvent 30).1.requests =
          ([] : List Request) ++ [request] ∧
        (scheduleEventReminder sampleEnv ⟨[], []⟩ sampleEvent 30).1.records =
          ([] : List Record) ++
          (match sampleEnv.platform request with
           | some nid =>
             if nid ≠ "" ∧ sampleEnv.addDocOk = true then [⟨sampleEvent.id, nid⟩] else []
           | none => [])) ∧
    (¬ sampleEnv.now < (1760000000000 : Int) - 30 * 60000 →
      scheduleEventReminder sampleEnv ⟨[], []⟩ sampleEvent 30 = (⟨[], []⟩, .undefined)) :=
  scheduleEventReminder_iff sampleEnv ⟨[], []⟩ sampleEvent 1760000000000 30 rfl
    (by decide) (by decide) (by decide)

end notificationService

/-! # Dates: validity and conversion agree -/

namespace dateUtils

/-- C21: for every date input, neither `isValidDate` nor `toDate` throws,
and `isValidDate` answers `true` exactly when `toDate` does not answer
`null`. -/
theorem isValidDate_iff_toDate (dateInput : DateInput) :
    ∃ (valid : Bool) (converted : Option DateValue),
      isValidDate dateInput = .ok valid ∧ toDate dateInput = .ok converted ∧
      (valid = true ↔ converted ≠ none) := by
  rcases dateInput with (_ | (⟨_ | time⟩ | ⟨tag, _ | _ | _⟩)) | _ | (_ | time) | (_ | _ | time)
  all_goals first
    | exact ⟨false, none, rfl, rfl, by simp⟩
    | exact ⟨true, _, rfl, rfl, by simp⟩

end dateUtils

/-! # External map applications: which ones are offered -/

namespace mapsUtils

/-- A literal followed by anything is not the empty string. -/
theorem append_ne_empty (a b : String) (h : a ≠ "") : a ++ b ≠ "" := by
  intro hc
  apply h
  have h1 := congrArg String.data hc
  rw [String.data_append] at h1
  have h2 : a.data = [] := (List.append_eq_nil.mp h1).1
  exact String.ext h2

/-- Every URL built from an entry of `MAPS_APPS` is a non-empty string. -/
theorem buildUrl_ne_empty (device : Device) (latitude longitude : ℚ) (label : String)
    (app : MapsApp) (happ : app ∈ MAPS_APPS) (url : String)
    (h : buildUrl device app latitude longitude label = some url) : url ≠ "" := by
  simp only [MAPS_APPS, List.mem_cons, List.mem_singleton, List.not_mem_nil, or_false] at happ
  rcases happ with rfl | rfl | rfl <;> cases hos : device.os <;>
    simp only [buildUrl, hos, Option.some.injEq, reduceCtorEq] at h <;> subst h <;>
    simp only [String.append_assoc] <;>
    exact append_ne_empty _ _ (by decide)

/-- The entries of `MAPS_APPS` are listed by ascending priority. -/
theorem MAPS_APPS_sorted :
    MAPS_APPS.Pairwise (fun a b => a.priority < b.priority) := by
  simp [MAPS_APPS]

/-- What `checkAppAvailability` answers for an entry of `MAPS_APPS`. -/
theorem checkAppAvailability_eq (device : Device) (latitude longitude : ℚ) (label : String)
    (app : MapsApp) (happ : app ∈ MAPS_APPS) :
    checkAppAvailability device app latitude longitude label =
      match buildUrl device app latitude longitude label with
      | some url => if device.canOpenURL url = some true then some url else none
      | none => none := by
  unfold checkAppAvailability
  cases hb : buildUrl device app latitude longitude label with
  | none => rfl
  | some url =>
    have hne := buildUrl_ne_empty device latitude longitude label app happ url hb
    simp only [hne, ne_eq, not_false_eq_true, if_true]
    rcases hc : device.canOpenURL url with _ | _ | _ <;> simp


/-- The URL builder that `checkAppAvailability` picks for the platform. -/
theorem buildUrl_eq (device : Device) (app : MapsApp) (latitude longitude : ℚ)
    (label : String) :
    buildUrl device app latitude longitude label =
      Option.map
        (fun build : String → String → String → String =>
          build (device.print latitude) (device.print longitude) label)
        (match device.os with
          | .ios => app.ios
          | .android => app.android
          | _ => none) := by
  unfold buildUrl
  cases device.os <;> cases app.ios <;> cases app.android <;> rfl

/-- The list that the loop of `getAvailableMapsApps` collects is sorted
already, so the sort returns it. -/
theorem getAvailableMapsApps_eq_loop (device : Device) (latitude longitude : ℚ)
    (label : String) :
    getAvailableMapsApps device latitude longitude label =
      MAPS_APPS.filterMap (fun app =>
        match buildUrl device app latitude longitude label with
        | some url => if device.canOpenURL url = some true then some ⟨app, url⟩ else none
        | none => none) ∧
    (getAvailableMapsApps device latitude longitude label).Pairwise
      (fun a b => a.app.priority < b.app.priority) := by
  have hloop : MAPS_APPS.filterMap (fun app =>
        match checkAppAvailability device app latitude longitude label with
        | some url => if url ≠ "" then some (AvailableApp.mk app url) else none
        | none => none) =
      MAPS_APPS.filterMap (fun app =>
        match buildUrl device app latitude longitude label with
        | some url => if device.canOpenURL url = some true then some ⟨app, url⟩ else none
        | none => none) := by
    apply List.filterMap_congr
    intro app happ
    rw [checkAppAvailability_eq device latitude longitude label app happ]
    cases hb : buildUrl device app latitude longitude label with
    | none => rfl
    | some url =>
      have hne := buildUrl_ne_empty device latitude longitude label app happ url hb
      by_cases hc : device.canOpenURL url = some true <;> simp [hc, hne]
  have hsorted : (MAPS_APPS.filterMap (fun app =>
        match buildUrl device app latitude longitude label with
        | some url =>
          if device.canOpenURL url = some true then some (AvailableApp.mk app url) else none
        | none => none)).Pairwise (fun a b => a.app.priority < b.app.priority) := by
    refine List.Pairwise.filterMap _ ?_ MAPS_APPS_sorted
    intro a a' haa b hb b' hb'
    have e1 : b.app = a := by
      cases hu : buildUrl device a latitude longitude label with
      | none => simp [hu] at hb
      | some url =>
        by_cases hc : device.canOpenURL url = some true <;> simp [hu, hc] at hb
        rw [← hb]
    have e2 : b'.app = a' := by
      cases hu : buildUrl device a' latitude longitude label with
      | none => simp [hu] at hb'
      | some url =>
        by_cases hc : device.canOpenURL url = some true <;> simp [hu, hc] at hb'
        rw [← hb']
    rw [e1, e2]
    exact haa
  have heq : getAvailableMapsApps device latitude longitude label =
      MAPS_APPS.filterMap (fun app =>
        match buildUrl device app latitude longitude label with
        | some url => if device.canOpenURL url = some true then some ⟨app, url⟩ else none
        | none => none) := by
    have hdef : getAvailableMapsApps device latitude longitude label =
        List.insertionSort (fun a b => a.app.priority ≤ b.app.priority)
          (MAPS_APPS.filterMap (fun app =>
            match checkAppAvailability device app latitude longitude label with
            | some url => if url ≠ "" then some (AvailableApp.mk app url) else none
            | none => none)) := rfl
    rw [hdef, hloop]
    exact List.Sorted.insertionSort_eq (hsorted.imp (fun h => Nat.le_of_lt h))
  refine ⟨heq, ?_⟩
  rw [heq]
  exact hsorted

/-- Every entry of the result comes from `MAPS_APPS`, with the URL built for
it, which the system can open. -/
theorem mem_getAvailableMapsApps (device : Device) (latitude longitude : ℚ)
    (label : String) (a : AvailableApp)
    (ha : a ∈ getAvailableMapsApps device latitude longitude label) :
    a.app ∈ MAPS_APPS ∧ buildUrl device a.app latitude longitude label = some a.url ∧
      device.canOpenURL a.url = some true := by
  rw [(getAvailableMapsApps_eq_loop device latitude longitude label).1,
    List.mem_filterMap] at ha
  obtain ⟨app, happ, hsome⟩ := ha
  cases hu : buildUrl device app latitude longitude label with
  | none => simp [hu] at hsome
  | some url =>
    by_cases hc : device.canOpenURL url = some true
    · simp only [hu, hc, if_true, Option.some.injEq] at hsome
      subst hsome
      exact ⟨happ, hu, hc⟩
    · simp [hu, hc] at hsome

/-- C22: `getAvailableMapsApps` returns the entries of `MAPS_APPS` for which
`checkAppAvailability` finds a URL builder of the platform (the `ios` builder
on iOS, the `android` builder on Android, none elsewhere: the `web` builders
are never read) and whose URL `canOpenURL` reports as openable, each with
that URL, by ascending priority.  Apple Maps is never returned on Android,
and on a platform other than iOS and Android the list is empty. -/
theorem getAvailableMapsApps_spec (device : Device) (latitude longitude : ℚ)
    (label : String) :
    getAvailableMapsApps device latitude longitude label =
      MAPS_APPS.filterMap (fun app =>
        match (match device.os with
          | .ios => app.ios
          | .android => app.android
          | _ => none) with
        | some build =>
          if device.canOpenURL (build (device.print latitude) (device.print longitude) label)
              = some true then
            some ⟨app, build (device.print latitude) (device.print longitude) label⟩
          else none
        | none => none) ∧
    (getAvailableMapsApps device latitude longitude label).Pairwise
      (fun a b => a.app.priority < b.app.priority) ∧
    (device.os = .android →
      ∀ a ∈ getAvailableMapsApps device latitude longitude label, a.app.name ≠ "Apple Maps") ∧
    (device.os ≠ .ios → device.os ≠ .android →
      getAvailableMapsApps device latitude longitude label = []) := by
  obtain ⟨heq, hsorted⟩ := getAvailableMapsApps_eq_loop device latitude longitude label
  refine ⟨?_, hsorted, ?_, ?_⟩
  · rw [heq]
    apply List.filterMap_congr
    intro app _
    rw [buildUrl_eq]
    cases device.os <;> cases app.ios <;> cases app.android <;> rfl
  · intro hos a ha
    obtain ⟨happ, hb, _⟩ := mem_getAvailableMapsApps device latitude longitude label a ha
    simp only [MAPS_APPS, List.mem_cons, List.mem_singleton, List.not_mem_nil, or_false] at happ
    rcases happ with h | h | h
    · rw [h]; decide
    · rw [h]; decide
    · rw [h, buildUrl_eq, hos] at hb
      simp at hb
  · intro h1 h2
    rw [heq, List.filterMap_eq_nil_iff]
    intro app _
    rw [buildUrl_eq]
    cases hos : device.os <;> simp_all

/-- C22, instance: on an Android phone where only the Waze link opens, the
list is the Waze entry alone. -/
theorem getAvailableMapsApps_spec_witness :
    (getAvailableMapsApps androidWithWaze 0 0 "").map (fun a => a.app.name) = ["Waze"] ∧
    ∀ a ∈ getAvailableMapsApps androidWithWaze 0 0 "", a.app.name ≠ "Apple Maps" :=
  ⟨by rw [(getAvailableMapsApps_spec androidWithWaze 0 0 "").1]; decide,
   (getAvailableMapsApps_spec androidWithWaze 0 0 "").2.2.1 rfl⟩

end mapsUtils

/-! # Nearby events: which events are counted -/

namespace notificationService

open eventService

/-! ## Nearby events -/

/-- Which events `notifyNearbyEvents` counts: those whose two coordinates
are truthy and whose distance to the user is at most 5. -/
theorem isNearby_iff (calculateDistance : ℚ → ℚ → ℚ → ℚ → Option ℚ)
    (userLocation : UserLocation) (event : EventDoc) :
    isNearby calculateDistance userLocation event = true ↔
      ∃ lat lng distance, event.latitude = some lat ∧ event.longitude = some lng ∧
        lat ≠ 0 ∧ lng ≠ 0 ∧
        calculateDistance userLocation.latitude userLocation.longitude lat lng =
          some distance ∧ distance ≤ 5 := by
  rcases event with ⟨id, title, _ | lat, _ | lng⟩
  · simp [isNearby, MapScreen.truthy]
  · simp [isNearby, MapScreen.truthy]
  · simp [isNearby, MapScreen.truthy]
  · by_cases h1 : lat = 0
    · simp [isNearby, MapScreen.truthy, h1]
    · by_cases h2 : lng = 0
      · simp [isNearby, MapScreen.truthy, h2]
      · rcases hd : calculateDistance userLocation.latitude userLocation.longitude lat lng
          with _ | distance
        · simp [isNearby, MapScreen.truthy, h1, h2, hd]
        · simp [isNearby, MapScreen.truthy, h1, h2, hd]

/-- What `notifyNearbyEvents` sends to the platform: one request when some
event is counted, whose title gives the number of counted events, and nothing
otherwise. -/
theorem notifyNearbyEvents_requests (calculateDistance : ℚ → ℚ → ℚ → ℚ → Option ℚ)
    (env : Env) (fx : Effects) (userLocation : UserLocation) (events : List EventDoc) :
    notifyNearbyEvents calculateDistance env fx userLocation events =
      { fx with requests := fx.requests ++
          if events.filter (isNearby calculateDistance userLocation) = [] then []
          else
            [{ title :=
                 toString (events.filter (isNearby calculateDistance userLocation)).length ++
                   " eventos próximos encontrados!"
               body := "Descubra eventos interessantes na sua região"
               data := [("type", "nearby_events"), ("screen", "EventsList")]
               trigger := none }] } := by
  unfold notifyNearbyEvents
  by_cases h : events.filter (isNearby calculateDistance userLocation) = []
  · simp [h]
  · have h2 : (events.filter (isNearby calculateDistance userLocation)).length > 0 :=
      List.length_pos.mpr h
    simp only [h2, if_true, h, if_false, scheduleLocalNotification]

/-- C26, evaluated: an event at the Greenwich observatory has both
coordinates, its longitude being 0, and the user stands 70 m east of it; yet
whatever `calculateDistance` answers, `notifyNearbyEvents` schedules nothing,
because the longitude 0 is falsy. -/
theorem notifyNearbyEvents_skips_zero :
    MapScreen.hasCoordinates MapScreen.docGreenwich = true ∧
    MapScreen.docGreenwich.latitude = some userGreenwich.latitude ∧
    MapScreen.docGreenwich.longitude = some 0 ∧
    userGreenwich.longitude = 1 / 1000 ∧
    (∀ (calculateDistance : ℚ → ℚ → ℚ → ℚ → Option ℚ) (env : Env) (fx : Effects),
      notifyNearbyEvents calculateDistance env fx userGreenwich [MapScreen.docGreenwich] = fx) ∧
    (notifyNearbyEvents oneKilometre sampleEnv ⟨[], []⟩ userLisbon [MapScreen.docLisbon]).requests =
      [{ title := "1 eventos próximos encontrados!"
         body := "Descubra eventos interessantes na sua região"
         data := [("type", "nearby_events"), ("screen", "EventsList")]
         trigger := none }] := by
  refine ⟨rfl, rfl, rfl, rfl, ?_, ?_⟩
  · intro calculateDistance env fx
    rw [notifyNearbyEvents_requests]
    simp [isNearby, MapScreen.truthy, MapScreen.docGreenwich]
  · rw [notifyNearbyEvents_requests]
    simp [isNearby, MapScreen.truthy, MapScreen.docLisbon, oneKilometre]
    decide

end notificationService

/-! # Favourites: no duplicates, and what the calls return -/

namespace FavoritesContext

/-! ## The favourites stay free of duplicates -/

/-- The list that a successful `addToFavorites` stores has no duplicate id
when the list before had none. -/
theorem add_nodup (l : List FavEvent) (event : FavEvent)
    (h : (l.map (fun e => e.id)).Nodup) :
    ((if (l.find? (fun e => e.id == event.id)).isNone then l ++ [event] else l).map
      (fun e => e.id)).Nodup := by
  by_cases hf : (l.find? (fun e => e.id == event.id)).isNone = true
  · rw [if_pos hf]
    rw [Option.isNone_iff_eq_none, List.find?_eq_none] at hf
    rw [List.map_append, List.nodup_append]
    refine ⟨h, by simp, ?_⟩
    intro x hx hx2
    simp only [List.map_cons, List.map_nil, List.mem_singleton] at hx2
    rw [List.mem_map] at hx
    obtain ⟨e, he, rfl⟩ := hx
    exact hf e he (by simpa using hx2)
  · rw [if_neg hf]
    exact h

/-- The list that a successful `removeFromFavorites` stores has no duplicate
id when the list before had none, and no event with the removed id. -/
theorem remove_nodup (l : List FavEvent) (eventId : String)
    (h : (l.map (fun e => e.id)).Nodup) :
    ((l.filter (fun event => event.id != eventId)).map (fun e => e.id)).Nodup ∧
    ∀ e ∈ l.filter (fun event => event.id != eventId), e.id ≠ eventId := by
  constructor
  · exact (h.sublist ((List.filter_sublist l).map _))
  · intro e he
    rw [List.mem_filter] at he
    simpa using he.2

/-- C27: if no two events of `favoriteEvents` share an id, the same holds
after `addToFavorites` and after `removeFromFavorites`, whatever the backend
answers and whether or not a user is logged in; and after a
`removeFromFavorites(eventId)` that succeeds (returns `true`) no event of
`favoriteEvents` has the id `eventId` and `eventId` is not in `favorites`. -/
theorem favoriteEvents_nodup (s : Provider) (event : FavEvent) (eventId : String)
    (result : Backend) (h : (s.favoriteEvents.map (fun e => e.id)).Nodup) :
    ((addToFavorites s event result).1.favoriteEvents.map (fun e => e.id)).Nodup ∧
    ((removeFromFavorites s eventId result).1.favoriteEvents.map (fun e => e.id)).Nodup ∧
    ((removeFromFavorites s eventId result).2 = true →
      (∀ e ∈ (removeFromFavorites s eventId result).1.favoriteEvents, e.id ≠ eventId) ∧
      eventId ∉ (removeFromFavorites s eventId result).1.favorites) := by
  rcases hu : s.user with _ | uid
  · simp [addToFavorites, removeFromFavorites, hu, h]
  · cases result with
    | success =>
      simp only [addToFavorites, removeFromFavorites, hu, forall_true_left]
      refine ⟨add_nodup _ _ h, (remove_nodup _ eventId h).1, (remove_nodup _ eventId h).2, ?_⟩
      simp
    | failure error => simp [addToFavorites, removeFromFavorites, hu, h]
    | thrown => simp [addToFavorites, removeFromFavorites, hu, h]

/-- C27, instance: adding an event that is a favourite already, and removing
it. -/
theorem favoriteEvents_nodup_witness :
    ((addToFavorites sampleProvider ⟨"test1", "Festival"⟩ .success).1.favoriteEvents.map
      (fun e => e.id)).Nodup ∧
    ((removeFromFavorites sampleProvider "test1" .success).1.favoriteEvents.map
      (fun e => e.id)).Nodup ∧
    ((removeFromFavorites sampleProvider "test1" .success).2 = true →
      (∀ e ∈ (removeFromFavorites sampleProvider "test1" .success).1.favoriteEvents,
        e.id ≠ "test1") ∧
      "test1" ∉ (removeFromFavorites sampleProvider "test1" .success).1.favorites) :=
  favoriteEvents_nodup sampleProvider ⟨"test1", "Festival"⟩ "test1" .success (by decide)

/-- C28: `addToFavorites` and `removeFromFavorites` return `true` exactly
when a user is logged in and the backend reports success; when they return
`false` the set `favorites` and the list `favoriteEvents` are unchanged. -/
theorem favorites_return (s : Provider) (event : FavEvent) (eventId : String)
    (result : Backend) :
    ((addToFavorites s event result).2 = true ↔ s.user.isSome = true ∧ result = .success) ∧
    ((removeFromFavorites s eventId result).2 = true ↔
      s.user.isSome = true ∧ result = .success) ∧
    ((addToFavorites s event result).2 = false →
      (addToFavorites s event result).1.favorites = s.favorites ∧
      (addToFavorites s event result).1.favoriteEvents = s.favoriteEvents) ∧
    ((removeFromFavorites s eventId result).2 = false →
      (removeFromFavorites s eventId result).1.favorites = s.favorites ∧
      (removeFromFavorites s eventId result).1.favoriteEvents = s.favoriteEvents) := by
  rcases hu : s.user with _ | uid <;> cases result <;>
    simp [addToFavorites, removeFromFavorites, hu]

/-- C28, instance: a backend failure leaves the favourites as they were. -/
theorem favorites_return_witness :
    (addToFavorites sampleProvider ⟨"test2", "Workshop"⟩ (.failure none)).1.favorites =
      sampleProvider.favorites ∧
    (addToFavorites sampleProvider ⟨"test2", "Workshop"⟩ (.failure none)).1.favoriteEvents =
      sampleProvider.favoriteEvents :=
  (favorites_return sampleProvider ⟨"test2", "Workshop"⟩ "test2" (.failure none)).2.2.1 rfl

end FavoritesContext

/-! # Registration: when the backend is called -/

namespace RegisterScreen

/-! ## The language of `emailRegex` -/

/-- A symbol that `[^\s@]` accepts. -/
theorem mem_notSpaceNorAt (x : List Sym) :
    x ∈ notSpaceNorAt.matches' ↔ x = [.dot] ∨ x = [.other] := by
  simp only [notSpaceNorAt, RegularExpression.matches'_add, RegularExpression.matches'_char,
    Language.mem_add]
  rfl

/-- The words of `[^\s@]*`. -/
theorem mem_star_notSpaceNorAt (x : List Sym) :
    x ∈ (RegularExpression.star notSpaceNorAt).matches' ↔
      ∀ s ∈ x, s = Sym.dot ∨ s = Sym.other := by
  rw [RegularExpression.matches'_star, Language.mem_kstar]
  constructor
  · rintro ⟨L, rfl, hL⟩ s hs
    rw [List.mem_flatten] at hs
    obtain ⟨y, hy, hsy⟩ := hs
    rcases (mem_notSpaceNorAt y).mp (hL y hy) with h | h <;> rw [h] at hsy <;>
      simp only [List.mem_singleton] at hsy
    · exact Or.inl hsy
    · exact Or.inr hsy
  · intro h
    refine ⟨x.map (fun s => [s]), ?_, ?_⟩
    · induction x with
      | nil => rfl
      | cons a l ih =>
        simp only [List.map_cons, List.flatten_cons, List.singleton_append, List.cons.injEq,
          true_and]
        exact ih (fun s hs => h s (List.mem_cons_of_mem _ hs))
    · intro y hy
      rw [List.mem_map] at hy
      obtain ⟨s, hs, rfl⟩ := hy
      rw [mem_notSpaceNorAt]
      rcases h s hs with h1 | h1 <;> simp [h1]

/-- The words of `[^\s@]+`. -/
theorem mem_oneOrMore (x : List Sym) :
    x ∈ (oneOrMore notSpaceNorAt).matches' ↔
      x ≠ [] ∧ ∀ s ∈ x, s = Sym.dot ∨ s = Sym.other := by
  rw [oneOrMore, RegularExpression.matches'_mul, Language.mem_mul]
  constructor
  · rintro ⟨a, ha, b, hb, rfl⟩
    rw [mem_notSpaceNorAt] at ha
    rw [mem_star_notSpaceNorAt] at hb
    constructor
    · rcases ha with rfl | rfl <;> simp
    · intro s hs
      rw [List.mem_append] at hs
      rcases hs with hs | hs
      · rcases ha with rfl | rfl <;> simp only [List.mem_singleton] at hs
        · exact Or.inl hs
        · exact Or.inr hs
      · exact hb s hs
  · rintro ⟨hne, h⟩
    rcases x with _ | ⟨s, rest⟩
    · exact absurd rfl hne
    · refine ⟨[s], ?_, rest, ?_, rfl⟩
      · rw [mem_notSpaceNorAt]
        rcases h s (List.mem_cons_self _ _) with h1 | h1 <;> simp [h1]
      · rw [mem_star_notSpaceNorAt]
        exact fun t ht => h t (List.mem_cons_of_mem _ ht)

/-- The words that `emailRegex` matches. -/
theorem rmatch_emailRegex (x : List Sym) :
    emailRegex.rmatch x = true ↔
      ∃ a b c : List Sym, x = a ++ Sym.atSign :: (b ++ Sym.dot :: c) ∧
        a ≠ [] ∧ b ≠ [] ∧ c ≠ [] ∧ ∀ s ∈ a ++ b ++ c, s = Sym.dot ∨ s = Sym.other := by
  rw [RegularExpression.rmatch_iff_matches']
  simp only [emailRegex, RegularExpression.matches'_mul, RegularExpression.matches'_char,
    Language.mem_mul, mem_oneOrMore]
  constructor
  · rintro ⟨p4, ⟨p3, ⟨p2, ⟨a, ⟨ha1, ha2⟩, q1, hq1, rfl⟩, b, ⟨hb1, hb2⟩, rfl⟩, q2, hq2, rfl⟩,
      c, ⟨hc1, hc2⟩, rfl⟩
    have e1 : q1 = [Sym.atSign] := hq1
    have e2 : q2 = [Sym.dot] := hq2
    subst e1 e2
    refine ⟨a, b, c, by simp, ha1, hb1, hc1, ?_⟩
    intro s hs
    simp only [List.mem_append] at hs
    rcases hs with (hs | hs) | hs
    · exact ha2 s hs
    · exact hb2 s hs
    · exact hc2 s hs
  · rintro ⟨a, b, c, rfl, ha, hb, hc, h⟩
    refine ⟨a ++ [Sym.atSign] ++ b ++ [Sym.dot], ⟨a ++ [Sym.atSign] ++ b,
      ⟨a ++ [Sym.atSign], ⟨a, ⟨ha, fun s hs => h s (by simp [hs])⟩, [Sym.atSign], rfl, rfl⟩,
        b, ⟨hb, fun s hs => h s (by simp [hs])⟩, rfl⟩, [Sym.dot], rfl, rfl⟩,
      c, ⟨hc, fun s hs => h s (by simp [hs])⟩, by simp⟩

/-! ## From classes of characters to characters -/

theorem classify_eq_atSign (c : Char) : classify c = Sym.atSign ↔ c = '@' := by
  unfold classify
  split_ifs <;> simp_all

theorem classify_eq_dot (c : Char) : classify c = Sym.dot ↔ c = '.' := by
  unfold classify
  split_ifs with h1 h2 h3
  · subst h1; simp
  · simp [h2]
  · simp [h2]
  · simp [h2]

theorem classify_notSpaceNorAt (c : Char) :
    (classify c = Sym.dot ∨ classify c = Sym.other) ↔
      c ≠ '@' ∧ priceUtils.isWhiteSpace c = false := by
  unfold classify
  split_ifs with h1 h2 h3
  · simp [h1]
  · subst h2
    simp only [true_or, ne_eq, true_iff]
    exact ⟨by decide, by decide⟩
  · simp [h1, h3]
  · simp [h1, h3]

/-- What `validateEmail` accepts: a non-empty part, an at sign, a non-empty
part, a full stop, a non-empty part, the three parts free of white space and
of at signs. -/
theorem validateEmail_iff (email : String) :
    validateEmail email = true ↔
      ∃ a b c : List Char, email.data = a ++ '@' :: (b ++ '.' :: c) ∧
        a ≠ [] ∧ b ≠ [] ∧ c ≠ [] ∧
        ∀ ch ∈ a ++ b ++ c, ch ≠ '@' ∧ priceUtils.isWhiteSpace ch = false := by
  unfold validateEmail
  rw [rmatch_emailRegex]
  constructor
  · rintro ⟨A, B, C, hx, hA, hB, hC, h⟩
    rw [List.map_eq_append_iff] at hx
    obtain ⟨a, r, hdata, rfl, hr⟩ := hx
    rw [List.map_eq_cons_iff] at hr
    obtain ⟨x, r1, rfl, hxc, hr1⟩ := hr
    rw [List.map_eq_append_iff] at hr1
    obtain ⟨b, r2, rfl, rfl, hr2⟩ := hr1
    rw [List.map_eq_cons_iff] at hr2
    obtain ⟨y, c, rfl, hyc, rfl⟩ := hr2
    rw [classify_eq_atSign] at hxc
    rw [classify_eq_dot] at hyc
    subst hxc hyc
    refine ⟨a, b, c, hdata, ?_, ?_, ?_, ?_⟩
    · rintro rfl; exact hA rfl
    · rintro rfl; exact hB rfl
    · rintro rfl; exact hC rfl
    · intro ch hch
      rw [← classify_notSpaceNorAt]
      apply h
      rw [← List.map_append, ← List.map_append]
      exact List.mem_map_of_mem _ hch
  · rintro ⟨a, b, c, hdata, ha, hb, hc, h⟩
    refine ⟨a.map classify, b.map classify, c.map classify, ?_, ?_, ?_, ?_, ?_⟩
    · rw [hdata]
      simp only [List.map_append, List.map_cons]
      rw [(classify_eq_atSign _).mpr rfl, (classify_eq_dot _).mpr rfl]
    · simpa using ha
    · simpa using hb
    · simpa using hc
    · intro s hs
      rw [← List.map_append, ← List.map_append, List.mem_map] at hs
      obtain ⟨ch, hch, rfl⟩ := hs
      exact (classify_notSpaceNorAt ch).mpr (h ch hch)

/-- The shape worded by the specification, unfolded. -/
theorem hasEmailShape_def (email : String) :
    hasEmailShape email = true ↔
      (∀ ch ∈ email.data, priceUtils.isWhiteSpace ch = false) ∧
      email.data.count '@' = 1 ∧
      email.data.takeWhile (fun c => c != '@') ≠ [] ∧
      '.' ∈ (((email.data.dropWhile (fun c => c != '@')).drop 1).drop 1).dropLast := by
  simp [hasEmailShape, and_assoc]

/-- The shape worded by the specification describes the same strings as the
split into three parts. -/
theorem hasEmailShape_iff (email : String) :
    hasEmailShape email = true ↔
      ∃ a b c : List Char, email.data = a ++ '@' :: (b ++ '.' :: c) ∧
        a ≠ [] ∧ b ≠ [] ∧ c ≠ [] ∧
        ∀ ch ∈ a ++ b ++ c, ch ≠ '@' ∧ priceUtils.isWhiteSpace ch = false := by
  rw [hasEmailShape_def]
  constructor
  · rintro ⟨hws, hcount, hlocal, hdot⟩
    have hsplit := List.takeWhile_append_dropWhile (fun c => c != '@') email.data
    have ha : ∀ ch ∈ email.data.takeWhile (fun c => c != '@'), ch ≠ '@' := by
      intro ch hch
      simpa using List.mem_takeWhile_imp hch
    have hca : (email.data.takeWhile (fun c => c != '@')).count '@' = 0 := by
      rw [List.count_eq_zero]
      intro hmem
      exact ha _ hmem rfl
    have hcr : (email.data.dropWhile (fun c => c != '@')).count '@' = 1 := by
      rw [← hsplit, List.count_append, hca] at hcount
      omega
    have hhead := List.head?_dropWhile_not (fun c => c != '@') email.data
    rcases hr : email.data.dropWhile (fun c => c != '@') with _ | ⟨x, d⟩
    · rw [hr] at hcr; simp at hcr
    · rw [hr] at hhead hcr hdot
      have hx : x = '@' := by simpa using hhead
      subst hx
      have hcd : d.count '@' = 0 := by
        rw [List.count_cons_self] at hcr
        omega
      rw [List.count_eq_zero] at hcd
      rcases d with _ | ⟨d0, d1⟩
      · simp at hdot
      · simp only [List.drop_succ_cons, List.drop_zero] at hdot
        have hd1 : d1 ≠ [] := by
          rintro rfl
          simp at hdot
        obtain ⟨u, v, huv⟩ := List.append_of_mem hdot
        have hlast := List.dropLast_concat_getLast hd1
        rw [huv] at hlast
        obtain ⟨z, hz⟩ : ∃ z, d1 = u ++ '.' :: v ++ [z] := ⟨_, hlast.symm⟩
        subst hz
        have hdata : email.data =
            email.data.takeWhile (fun c => c != '@') ++ '@' :: (d0 :: u ++ '.' :: (v ++ [z])) := by
          have hd : '@' :: (d0 :: u ++ '.' :: (v ++ [z])) =
              email.data.dropWhile (fun c => c != '@') := by
            rw [hr]; simp
          rw [hd]
          exact hsplit.symm
        refine ⟨email.data.takeWhile (fun c => c != '@'), d0 :: u, v ++ [z],
          hdata, hlocal, by simp, by simp, ?_⟩
        intro ch hch
        have hmem : ch ∈ email.data := by
          rw [hdata]
          simp only [List.mem_append, List.mem_cons, List.mem_singleton] at hch ⊢
          tauto
        refine ⟨?_, hws ch hmem⟩
        simp only [List.mem_append] at hch
        rcases hch with (hch | hch) | hch
        · exact ha ch hch
        · rintro rfl
          apply hcd
          simp only [List.mem_cons, List.mem_append] at hch ⊢
          tauto
        · rintro rfl
          apply hcd
          simp only [List.mem_cons, List.mem_append, List.mem_singleton] at hch ⊢
          tauto
  · rintro ⟨a, b, c, hdata, ha, hb, hc, h⟩
    have hpa : ∀ ch ∈ a, (fun c : Char => c != '@') ch = true := by
      intro ch hch
      simpa using (h ch (by simp [hch])).1
    have hna : '@' ∉ a := fun hm => (h _ (by simp [hm])).1 rfl
    have hnb : '@' ∉ b := fun hm => (h _ (by simp [hm])).1 rfl
    have hnc : '@' ∉ c := fun hm => (h _ (by simp [hm])).1 rfl
    rw [hdata]
    refine ⟨?_, ?_, ?_, ?_⟩
    · intro ch hch
      simp only [List.mem_append, List.mem_cons] at hch
      rcases hch with hch | rfl | hch | rfl | hch
      · exact (h ch (by simp [hch])).2
      · decide
      · exact (h ch (by simp [hch])).2
      · decide
      · exact (h ch (by simp [hch])).2
    · simp only [List.count_append, List.count_cons_self, List.count_eq_zero.mpr hna,
        List.count_eq_zero.mpr hnb]
      rw [List.count_cons_of_ne (by decide), List.count_eq_zero.mpr hnc]
    · rw [List.takeWhile_append_of_pos hpa]
      simpa using ha
    · rw [List.dropWhile_append_of_pos hpa]
      rcases b with _ | ⟨b0, b1⟩
      · exact absurd rfl hb
      · rcases c with _ | ⟨c0, c1⟩
        · exact absurd rfl hc
        · simp [List.dropLast_append_cons]

/-! ## The checks of `handleRegister` -/

/-- Trimming twice is trimming once. -/
theorem trim_trim (s : String) : trim (trim s) = trim s := by
  unfold trim
  apply String.ext
  show List.rdropWhile priceUtils.isWhiteSpace (List.dropWhile priceUtils.isWhiteSpace
      ((s.data.dropWhile priceUtils.isWhiteSpace).rdropWhile priceUtils.isWhiteSpace)) =
    (s.data.dropWhile priceUtils.isWhiteSpace).rdropWhile priceUtils.isWhiteSpace
  have hprefix := List.rdropWhile_prefix priceUtils.isWhiteSpace
    (l := s.data.dropWhile priceUtils.isWhiteSpace)
  have hhead := List.head?_dropWhile_not priceUtils.isWhiteSpace s.data
  obtain ⟨k, hk⟩ := hprefix
  have hd : List.dropWhile priceUtils.isWhiteSpace
      ((s.data.dropWhile priceUtils.isWhiteSpace).rdropWhile priceUtils.isWhiteSpace) =
      (s.data.dropWhile priceUtils.isWhiteSpace).rdropWhile priceUtils.isWhiteSpace := by
    rcases ht : (s.data.dropWhile priceUtils.isWhiteSpace).rdropWhile priceUtils.isWhiteSpace
      with _ | ⟨x, t⟩
    · rfl
    · rw [ht] at hk
      rw [← hk] at hhead
      simp only [List.cons_append, List.head?_cons, Bool.not_eq_false] at hhead
      rw [List.dropWhile_cons_of_neg (by simpa using hhead)]
  rw [hd, List.rdropWhile_idempotent]

theorem jsLength_empty : jsLength "" = 0 := rfl

/-- A string of length 0 is the empty string. -/
theorem eq_empty_of_jsLength (s : String) (h : jsLength s = 0) : s = "" := by
  rcases s with ⟨_ | ⟨c, cs⟩⟩
  · rfl
  · exfalso
    simp only [jsLength, List.map_cons, List.sum_cons] at h
    split_ifs at h <;> omega

/-- The entry `newErrors.name` is absent exactly when the trimmed name has
two characters or more. -/
theorem name_check (name : String) :
    (if trim name = "" then some "Nome é obrigatório"
      else if (!validateName (trim name)) = true then
        some "Nome deve ter pelo menos 2 caracteres"
      else none) = none ↔ 2 ≤ jsLength (trim name) := by
  by_cases h : trim name = ""
  · rw [if_pos h, h]
    simp [jsLength_empty]
  · rw [if_neg h]
    simp only [validateName, trim_trim]
    by_cases h2 : 2 ≤ jsLength (trim name) <;> simp [h2]

/-- The empty string is not an email address. -/
theorem validateEmail_empty : validateEmail "" = false := by
  rw [← Bool.not_eq_true, validateEmail_iff]
  rintro ⟨a, b, c, h, _⟩
  have h1 : ("" : String).data = [] := rfl
  rw [h1] at h
  simp at h

/-- The entry `newErrors.email` is absent exactly when the trimmed email has
the shape of an address. -/
theorem email_check (email : String) :
    (if trim email = "" then some "Email é obrigatório"
      else if (!validateEmail (trim email)) = true then some "Email inválido"
      else none) = none ↔ hasEmailShape (trim email) = true := by
  rw [hasEmailShape_iff, ← validateEmail_iff]
  by_cases h : trim email = ""
  · rw [if_pos h, h, validateEmail_empty]
    simp
  · rw [if_neg h]
    by_cases h2 : validateEmail (trim email) = true <;> simp [h2]

/-- The entry `newErrors.password` is absent exactly when the password has
six characters or more. -/
theorem password_check (password : String) :
    (if password = "" then some "Senha é obrigatória"
      else if jsLength password < 6 then some "Senha deve ter pelo menos 6 caracteres"
      else none) = none ↔ 6 ≤ jsLength password := by
  by_cases h : password = ""
  · rw [if_pos h, h]
    simp [jsLength_empty]
  · rw [if_neg h]
    by_cases h2 : jsLength password < 6
    · rw [if_pos h2]; simp; omega
    · rw [if_neg h2]; simp; omega

/-- The entry `newErrors.confirmPassword` is absent exactly when the
confirmation is not empty and equals the password. -/
theorem confirm_check (password confirmPassword : String) :
    (if confirmPassword = "" then some "Confirme sua senha"
      else if password ≠ confirmPassword then some "As senhas não coincidem"
      else none) = none ↔ confirmPassword ≠ "" ∧ confirmPassword = password := by
  by_cases h : confirmPassword = ""
  · rw [if_pos h]; simp [h]
  · rw [if_neg h]
    by_cases h2 : password = confirmPassword
    · simp [h2, h]
    · simp [h2, h]
      exact fun h3 => h2 h3.symm

/-- An object without keys has no entry. -/
theorem keys_length (e : Errors) :
    ¬ e.keys.length > 0 ↔
      e.name = none ∧ e.email = none ∧ e.password = none ∧ e.confirmPassword = none := by
  rcases e with ⟨_ | a, _ | b, _ | c, _ | d⟩ <;> simp [Errors.keys]

/-- The errors that `handleRegister` records and the calls of `register`
it makes. -/
theorem handleRegister_eq (register : String → String → AuthResult) (form : Form)
    (s : Screen) :
    (handleRegister register form s).errors =
      { name :=
          if trim form.name = "" then some "Nome é obrigatório"
          else if (!validateName (trim form.name)) = true then
            some "Nome deve ter pelo menos 2 caracteres"
          else none
        email :=
          if trim form.email = "" then some "Email é obrigatório"
          else if (!validateEmail (trim form.email)) = true then some "Email inválido"
          else none
        password :=
          if form.password = "" then some "Senha é obrigatória"
          else if jsLength form.password < 6 then some "Senha deve ter pelo menos 6 caracteres"
          else none
        confirmPassword :=
          if form.confirmPassword = "" then some "Confirme sua senha"
          else if form.password ≠ form.confirmPassword then some "As senhas não coincidem"
          else none } ∧
    (handleRegister register form s).registerCalls =
      if (handleRegister register form s).errors.keys.length > 0 then s.registerCalls
      else s.registerCalls ++ [(trim form.email, form.password)] := by
  unfold handleRegister
  by_cases h : (Errors.mk
        (if trim form.name = "" then some "Nome é obrigatório"
          else if (!validateName (trim form.name)) = true then
            some "Nome deve ter pelo menos 2 caracteres"
          else none)
        (if trim form.email = "" then some "Email é obrigatório"
          else if (!validateEmail (trim form.email)) = true then some "Email inválido"
          else none)
        (if form.password = "" then some "Senha é obrigatória"
          else if jsLength form.password < 6 then some "Senha deve ter pelo menos 6 caracteres"
          else none)
        (if form.confirmPassword = "" then some "Confirme sua senha"
          else if form.password ≠ form.confirmPassword then some "As senhas não coincidem"
          else none)).keys.length > 0
  · simp only [if_pos h, and_self]
  · simp only [if_neg h]
    cases register (trim form.email) form.password <;> simp only [if_neg h, and_self]

/-- C29: `handleRegister` calls `register`, once and with the trimmed email
and the password, when the trimmed name has at least 2 characters, the
trimmed email has the shape of an address (no white space, exactly one at
sign, a non-empty local part, and in the domain a full stop that is neither
its first nor its last character), the password has at least 6 characters
and the confirmation equals the password; otherwise it makes no call, and it
records an error for each field that fails its condition.  The pattern of
`validateEmail` accepts exactly the strings of that shape.  Characters are
counted as `length` counts them, in UTF-16 code units. -/
theorem handleRegister_calls_register (register : String → String → AuthResult)
    (form : Form) (s : Screen) :
    ((2 ≤ jsLength (trim form.name) ∧ hasEmailShape (trim form.email) = true ∧
        6 ≤ jsLength form.password ∧ form.confirmPassword = form.password) →
      (handleRegister register form s).registerCalls =
        s.registerCalls ++ [(trim form.email, form.password)]) ∧
    (¬ (2 ≤ jsLength (trim form.name) ∧ hasEmailShape (trim form.email) = true ∧
        6 ≤ jsLength form.password ∧ form.confirmPassword = form.password) →
      (handleRegister register form s).registerCalls = s.registerCalls) ∧
    (¬ 2 ≤ jsLength (trim form.name) → (handleRegister register form s).errors.name ≠ none) ∧
    (¬ hasEmailShape (trim form.email) = true →
      (handleRegister register form s).errors.email ≠ none) ∧
    (¬ 6 ≤ jsLength form.password →
      (handleRegister register form s).errors.password ≠ none) ∧
    (¬ form.confirmPassword = form.password →
      (handleRegister register form s).errors.confirmPassword ≠ none) ∧
    (∀ email : String, validateEmail email = hasEmailShape email) := by
  have hshape : ∀ email : String, validateEmail email = hasEmailShape email := by
    intro email
    rw [Bool.eq_iff_iff, validateEmail_iff, hasEmailShape_iff]
  obtain ⟨he, hc⟩ := handleRegister_eq register form s
  generalize handleRegister register form s = out at he hc ⊢
  have hk := keys_length out.errors
  have hn : (out.errors.name = none) ↔ 2 ≤ jsLength (trim form.name) := by
    rw [he]; exact name_check form.name
  have hm : (out.errors.email = none) ↔ hasEmailShape (trim form.email) = true := by
    rw [he]; exact email_check form.email
  have hp : (out.errors.password = none) ↔ 6 ≤ jsLength form.password := by
    rw [he]; exact password_check form.password
  have hq : (out.errors.confirmPassword = none) ↔
      form.confirmPassword ≠ "" ∧ form.confirmPassword = form.password := by
    rw [he]; exact confirm_check form.password form.confirmPassword
  rw [hn, hm, hp, hq] at hk
  refine ⟨?_, ?_, fun h h2 => h (hn.mp h2), fun h h2 => h (hm.mp h2),
    fun h h2 => h (hp.mp h2), fun h h2 => h (hq.mp h2).2, hshape⟩
  · rintro ⟨h1, h2, h3, h4⟩
    have hne : form.confirmPassword ≠ "" := by
      rintro h0
      rw [h4] at h0
      rw [h0, jsLength_empty] at h3
      omega
    rw [hc, if_neg (hk.mpr ⟨h1, h2, h3, hne, h4⟩)]
  · intro hnot
    have hpos : out.errors.keys.length > 0 := by
      by_contra hcon
      obtain ⟨h1, h2, h3, _, h4⟩ := hk.mp hcon
      exact hnot ⟨h1, h2, h3, h4⟩
    rw [hc, if_pos hpos]

/-- C29, instance: a form that passes every check is sent to the backend,
and a form that fails every check is not, with an error for its name. -/
theorem handleRegister_calls_register_witness :
    (handleRegister acceptRegister goodForm emptyScreen).registerCalls =
      emptyScreen.registerCalls ++ [(trim goodForm.email, goodForm.password)] ∧
    (handleRegister acceptRegister badForm emptyScreen).registerCalls =
      emptyScreen.registerCalls ∧
    (handleRegister acceptRegister badForm emptyScreen).errors.name ≠ none :=
  ⟨(handleRegister_calls_register acceptRegister goodForm emptyScreen).1
      ⟨by decide, by decide, by decide, rfl⟩,
    (handleRegister_calls_register acceptRegister badForm emptyScreen).2.1
      (fun h => absurd h.1 (by decide)),
    (handleRegister_calls_register acceptRegister badForm emptyScreen).2.2.1 (by decide)⟩

end RegisterScreen
